import Mathlib

/-!
# Samsung MIPI-DSIM link driver (drivers/video/fbdev/exynos/dpu_9810/dsim_drv.c)

A shallow embedding of the command channel (`dsim_write_data`, `dsim_read_data` and their
helpers) and of the link state machine (`dsim_enable`, `dsim_disable`, `dsim_enter_ulps`,
`dsim_exit_ulps`).

Conventions of the embedding.

* Every call the driver makes into the register layer, the PHY, the clock framework, the panel
  callbacks, the command lock, the completions and the command timer is recorded, in program
  order, as an `Event` appended to the `trace` of the device record.  Log output
  (`dsim_err`, `dsim_info`, `dsim_dbg`, `DPU_EVENT_LOG`, `exynos_ss_printk`) is not recorded.
* What the hardware answers is not decided by the driver; it is supplied by an oracle `Hw`,
  one stream per register-layer query, indexed by the number of queries made so far.
* C integers are natural numbers reduced modulo the width of their C type where the driver can
  reach the bound (`u32` counters), and `Int` for `int` return codes.
* `dsim.h` is not among the sources at hand: its two state predicates and the RX FIFO depth are
  parameters (`dsim_h`); the Kconfig switches the file tests are parameters as well (`Kconfig`).
-/

namespace Dsim

/-! ## Constants -/

/-- Error number EINVAL of errno-base.h. -/
def EINVAL : Int := 22

/-- Error number EBUSY of errno-base.h. -/
def EBUSY : Int := 16

/-- Error number ETIMEDOUT of errno.h. -/
def ETIMEDOUT : Int := 110

/-- Modelled from the spec: the DSI processor-to-peripheral packet data types of
video/mipi_display.h (a header that is not among the sources at hand), with the values the
MIPI DSI specification assigns to them. -/
def MIPI_DSI_COLOR_MODE_OFF : Nat := 0x02
/-- See `MIPI_DSI_COLOR_MODE_OFF`. -/
def MIPI_DSI_COLOR_MODE_ON : Nat := 0x12
/-- See `MIPI_DSI_COLOR_MODE_OFF`. -/
def MIPI_DSI_SHUTDOWN_PERIPHERAL : Nat := 0x22
/-- See `MIPI_DSI_COLOR_MODE_OFF`. -/
def MIPI_DSI_TURN_ON_PERIPHERAL : Nat := 0x32
/-- See `MIPI_DSI_COLOR_MODE_OFF`. -/
def MIPI_DSI_GENERIC_SHORT_WRITE_0_PARAM : Nat := 0x03
/-- See `MIPI_DSI_COLOR_MODE_OFF`. -/
def MIPI_DSI_GENERIC_SHORT_WRITE_1_PARAM : Nat := 0x13
/-- See `MIPI_DSI_COLOR_MODE_OFF`. -/
def MIPI_DSI_GENERIC_SHORT_WRITE_2_PARAM : Nat := 0x23
/-- See `MIPI_DSI_COLOR_MODE_OFF`. -/
def MIPI_DSI_GENERIC_READ_REQUEST_0_PARAM : Nat := 0x04
/-- See `MIPI_DSI_COLOR_MODE_OFF`. -/
def MIPI_DSI_GENERIC_READ_REQUEST_1_PARAM : Nat := 0x14
/-- See `MIPI_DSI_COLOR_MODE_OFF`. -/
def MIPI_DSI_GENERIC_READ_REQUEST_2_PARAM : Nat := 0x24
/-- See `MIPI_DSI_COLOR_MODE_OFF`. -/
def MIPI_DSI_DCS_SHORT_WRITE : Nat := 0x05
/-- See `MIPI_DSI_COLOR_MODE_OFF`. -/
def MIPI_DSI_DCS_SHORT_WRITE_PARAM : Nat := 0x15
/-- See `MIPI_DSI_COLOR_MODE_OFF`. -/
def MIPI_DSI_DCS_READ : Nat := 0x06
/-- See `MIPI_DSI_COLOR_MODE_OFF`. -/
def MIPI_DSI_DSC_PRA : Nat := 0x07
/-- See `MIPI_DSI_COLOR_MODE_OFF`. -/
def MIPI_DSI_DSC_PPS : Nat := 0x0A
/-- See `MIPI_DSI_COLOR_MODE_OFF`. -/
def MIPI_DSI_SET_MAXIMUM_RETURN_PACKET_SIZE : Nat := 0x37
/-- See `MIPI_DSI_COLOR_MODE_OFF`. -/
def MIPI_DSI_GENERIC_LONG_WRITE : Nat := 0x29
/-- See `MIPI_DSI_COLOR_MODE_OFF`. -/
def MIPI_DSI_DCS_LONG_WRITE : Nat := 0x39

/-- Modelled from the spec: the DSI peripheral-to-processor packet data types of
video/mipi_display.h (not among the sources at hand), with the values of the MIPI DSI
specification. -/
def MIPI_DSI_RX_ACKNOWLEDGE_AND_ERROR_REPORT : Nat := 0x02
/-- See `MIPI_DSI_RX_ACKNOWLEDGE_AND_ERROR_REPORT`. -/
def MIPI_DSI_RX_END_OF_TRANSMISSION : Nat := 0x08
/-- See `MIPI_DSI_RX_ACKNOWLEDGE_AND_ERROR_REPORT`. -/
def MIPI_DSI_RX_GENERIC_SHORT_READ_RESPONSE_1BYTE : Nat := 0x11
/-- See `MIPI_DSI_RX_ACKNOWLEDGE_AND_ERROR_REPORT`. -/
def MIPI_DSI_RX_GENERIC_SHORT_READ_RESPONSE_2BYTE : Nat := 0x12
/-- See `MIPI_DSI_RX_ACKNOWLEDGE_AND_ERROR_REPORT`. -/
def MIPI_DSI_RX_GENERIC_LONG_READ_RESPONSE : Nat := 0x1A
/-- See `MIPI_DSI_RX_ACKNOWLEDGE_AND_ERROR_REPORT`. -/
def MIPI_DSI_RX_DCS_LONG_READ_RESPONSE : Nat := 0x1C
/-- See `MIPI_DSI_RX_ACKNOWLEDGE_AND_ERROR_REPORT`. -/
def MIPI_DSI_RX_DCS_SHORT_READ_RESPONSE_1BYTE : Nat := 0x21
/-- See `MIPI_DSI_RX_ACKNOWLEDGE_AND_ERROR_REPORT`. -/
def MIPI_DSI_RX_DCS_SHORT_READ_RESPONSE_2BYTE : Nat := 0x22

/-- Modelled from the spec: the DCS command codes of video/mipi_display.h (not among the
sources at hand) that `dsim_fifo_empty_needed` tests, with the values of the MIPI DCS
specification. -/
def MIPI_DCS_SOFT_RESET : Nat := 0x01
/-- See `MIPI_DCS_SOFT_RESET`. -/
def MIPI_DCS_ENTER_SLEEP_MODE : Nat := 0x10
/-- See `MIPI_DCS_SOFT_RESET`. -/
def MIPI_DCS_EXIT_SLEEP_MODE : Nat := 0x11
/-- See `MIPI_DCS_SOFT_RESET`. -/
def MIPI_DCS_SET_DISPLAY_OFF : Nat := 0x28
/-- See `MIPI_DCS_SOFT_RESET`. -/
def MIPI_DCS_SET_DISPLAY_ON : Nat := 0x29
/-- See `MIPI_DCS_SOFT_RESET`. -/
def MIPI_DCS_SET_COLUMN_ADDRESS : Nat := 0x2A
/-- See `MIPI_DCS_SOFT_RESET`. -/
def MIPI_DCS_SET_PAGE_ADDRESS : Nat := 0x2B

/-! ## Data model -/

/-- Link states of `enum dsim_state`, in the order of `dsim_state_names`; the two DOZE states
exist only in builds with CONFIG_SUPPORT_DOZE. -/
inductive dsim_state
  | DSIM_STATE_INIT
  | DSIM_STATE_ON
  | DSIM_STATE_DOZE
  | DSIM_STATE_ULPS
  | DSIM_STATE_DOZE_SUSPEND
  | DSIM_STATE_OFF
  deriving DecidableEq, Repr

/-- Interrupt sources the command channel clears. -/
inductive intsrc
  | DSIM_INTSRC_SFR_PH_FIFO_EMPTY
  | DSIM_INTSRC_RX_DATA_DONE
  deriving DecidableEq, Repr

/-- Panel callbacks reached through `call_panel_ops`. -/
inductive panel_op
  | dump
  | sleepout
  | displayon
  | suspend
  | doze
  | doze_suspend
  deriving DecidableEq, Repr

/-- Calls that leave the driver, in the driver's own names, and the stores to the caller's
buffer (`buf_store`) and to `dsim->state` (`state_store`).  The argument `dsim->id` is omitted
everywhere; an argument that is an answer of the hardware is the value the oracle supplied. -/
inductive Event
  | decon_hiber_block_exit
  | decon_hiber_block
  | decon_hiber_unblock
  | mutex_lock
  | mutex_unlock
  | reinit_completion_ph_wr_comp
  | reinit_completion_rd_comp
  | wait_for_completion_ph_wr_comp (fired : Bool)
  | wait_for_completion_rd_comp (fired : Bool)
  | mod_timer
  | del_timer
  | dsim_reg_clear_int (src : intsrc)
  | dsim_reg_wr_tx_header (data_id data0 data1 : Nat) (bta : Bool)
  | dsim_reg_wr_tx_payload (payload : Nat)
  | dsim_reg_header_fifo_is_empty (r : Bool)
  | dsim_reg_is_writable_fifo_state (r : Bool)
  | dsim_reg_get_rx_fifo (rx_fifo : Nat)
  | dsim_reg_rx_fifo_is_empty (r : Bool)
  | dsim_reg_rx_err_handler (rx_fifo : Nat) (r : Int)
  | buf_store (index value : Nat)
  | state_store (state : dsim_state)
  | dsim_dump_sfr
  | call_panel_ops (op : panel_op)
  | pm_runtime_get_sync
  | pm_runtime_put_sync
  | dsim_runtime_resume
  | dsim_runtime_suspend
  | dpu_sysreg_set_dphy
  | phy_power_on
  | phy_power_off
  | dsim_phy_status
  | dsim_reg_is_pll_stable (r : Bool)
  | dsim_reg_set_link_clock (en : Nat)
  | dsim_reg_dphy_resetn (en : Nat)
  | dsim_set_panel_power (power : Bool)
  | dsim_reset_panel
  | dsim_reg_sw_reset
  | dsim_reg_set_clocks (en : Nat)
  | dsim_reg_set_lanes (en : Nat)
  | dsim_reg_set_esc_clk_on_lane (en : Nat)
  | dsim_reg_enable_word_clock (en : Nat)
  | dsim_reg_init (r : Int)
  | dsim_reg_start
  | dsim_reg_stop
  | dsim_reg_set_int (en : Nat)
  | dsim_reg_stop_and_enter_ulps (r : Int)
  | dsim_reg_exit_ulps_and_start (r : Int)
  | enable_irq
  | disable_irq
  deriving DecidableEq, Repr

/-- Kconfig switches that select code in the modelled functions. -/
structure Kconfig where
  EXYNOS_PD : Bool
  SOC_EXYNOS9810 : Bool
  EXYNOS_COMMON_PANEL : Bool
  OLD_DISP_TIMING : Bool

/-- What the driver takes from dsim.h, a header that is not among the sources at hand: the two
state predicates (macros over `dsim->state`) and the RX FIFO depth.  They are parameters of the
embedding. -/
structure dsim_h where
  IS_DSIM_ON_STATE : dsim_state → Bool
  IS_DSIM_OFF_STATE : dsim_state → Bool
  DSIM_RX_FIFO_MAX_DEPTH : Nat

/-- Answers of the hardware and of the environment.  Every stream is indexed by the number of
earlier queries of the same kind; `mem` is the memory behind the pointer argument `d0` of a
long write and `rx_err_handler` is the result of `dsim_reg_rx_err_handler` on a FIFO word. -/
structure Hw where
  mem : Nat → Nat
  ph_wr_comp : Nat → Bool
  rd_comp : Nat → Bool
  header_fifo_is_empty : Nat → Bool
  is_writable_fifo_state : Nat → Bool
  rx_fifo : Nat → Nat
  rx_fifo_is_empty : Nat → Bool
  rx_err_handler : Nat → Int
  is_pll_stable : Nat → Bool
  reg_init : Nat → Int
  stop_and_enter_ulps : Nat → Int
  exit_ulps_and_start : Nat → Int

/-- The device record together with what surrounds one call: `state` is `dsim->state`,
`cmd_timer` tells whether `dsim->cmd_timer` is pending, `buf` is the caller's output buffer of
`dsim_read_data`, `trace` the calls and stores made so far, and the `n_` fields count the
queries made of each oracle stream. -/
structure dsim_device where
  state : dsim_state
  cmd_timer : Bool
  buf : Nat → Nat
  trace : List Event
  n_ph_wr_comp : Nat
  n_rd_comp : Nat
  n_header_fifo_is_empty : Nat
  n_is_writable_fifo_state : Nat
  n_rx_fifo : Nat
  n_rx_fifo_is_empty : Nat
  n_is_pll_stable : Nat
  n_reg_init : Nat
  n_stop_and_enter_ulps : Nat
  n_exit_ulps_and_start : Nat

/-- Value of a `u32` expression. -/
def u32 (n : Nat) : Nat := n % 4294967296

/-- Difference of two `u32` values, computed in `u32`. -/
def u32_sub (a b : Nat) : Nat := (a + 4294967296 - b % 4294967296) % 4294967296

/-- Conversion of a `u32` value to `int`. -/
def int_of_u32 (n : Nat) : Int :=
  if n % 4294967296 < 2147483648 then ((n % 4294967296 : Nat) : Int)
  else ((n % 4294967296 : Nat) : Int) - 4294967296

/-- Load `*(u8 *)addr` for an `unsigned long` address. -/
def rd_u8 (hw : Hw) (addr : Nat) : Nat := hw.mem (addr % 18446744073709551616) % 256

/-! ## Primitive steps -/

/-- Record one call or store. -/
def emit (e : Event) (d : dsim_device) : dsim_device :=
  { d with trace := d.trace ++ [e] }

/-- Timer arm: `mod_timer(&dsim->cmd_timer, jiffies + MIPI_WR_TIMEOUT)`. -/
def mod_timer (d : dsim_device) : dsim_device :=
  emit Event.mod_timer { d with cmd_timer := true }

/-- Timer disarm: `del_timer(&dsim->cmd_timer)`. -/
def del_timer (d : dsim_device) : dsim_device :=
  emit Event.del_timer { d with cmd_timer := false }

/-- Register dump `__dsim_dump`. -/
def dsim_dump_sfr (d : dsim_device) : dsim_device :=
  emit Event.dsim_dump_sfr d

/-- Full dump `dsim_dump`: the register dump, then the panel callback `dump`. -/
def dsim_dump (d : dsim_device) : dsim_device :=
  emit (Event.call_panel_ops panel_op.dump) (dsim_dump_sfr d)

/-- Query `dsim_reg_header_fifo_is_empty`. -/
def dsim_reg_header_fifo_is_empty (hw : Hw) (d : dsim_device) : Bool × dsim_device :=
  let r := hw.header_fifo_is_empty d.n_header_fifo_is_empty
  (r, emit (Event.dsim_reg_header_fifo_is_empty r)
        { d with n_header_fifo_is_empty := d.n_header_fifo_is_empty + 1 })

/-- Query `dsim_reg_is_writable_fifo_state`. -/
def dsim_reg_is_writable_fifo_state (hw : Hw) (d : dsim_device) : Bool × dsim_device :=
  let r := hw.is_writable_fifo_state d.n_is_writable_fifo_state
  (r, emit (Event.dsim_reg_is_writable_fifo_state r)
        { d with n_is_writable_fifo_state := d.n_is_writable_fifo_state + 1 })

/-- Wait `wait_for_completion_timeout(&dsim->ph_wr_comp, MIPI_WR_TIMEOUT)`: true when the
completion fired before the timeout. -/
def wait_for_completion_ph_wr_comp (hw : Hw) (d : dsim_device) : Bool × dsim_device :=
  let r := hw.ph_wr_comp d.n_ph_wr_comp
  (r, emit (Event.wait_for_completion_ph_wr_comp r) { d with n_ph_wr_comp := d.n_ph_wr_comp + 1 })

/-- Wait `wait_for_completion_timeout(&dsim->rd_comp, MIPI_RD_TIMEOUT)`. -/
def wait_for_completion_rd_comp (hw : Hw) (d : dsim_device) : Bool × dsim_device :=
  let r := hw.rd_comp d.n_rd_comp
  (r, emit (Event.wait_for_completion_rd_comp r) { d with n_rd_comp := d.n_rd_comp + 1 })

/-- Read `dsim_reg_get_rx_fifo`: the next word of the RX FIFO, a `u32`. -/
def dsim_reg_get_rx_fifo (hw : Hw) (d : dsim_device) : Nat × dsim_device :=
  let w := u32 (hw.rx_fifo d.n_rx_fifo)
  (w, emit (Event.dsim_reg_get_rx_fifo w) { d with n_rx_fifo := d.n_rx_fifo + 1 })

/-- Query `dsim_reg_rx_fifo_is_empty`. -/
def dsim_reg_rx_fifo_is_empty (hw : Hw) (d : dsim_device) : Bool × dsim_device :=
  let r := hw.rx_fifo_is_empty d.n_rx_fifo_is_empty
  (r, emit (Event.dsim_reg_rx_fifo_is_empty r)
        { d with n_rx_fifo_is_empty := d.n_rx_fifo_is_empty + 1 })

/-- Store `buf[index] = value` into the caller's buffer. -/
def buf_store (index value : Nat) (d : dsim_device) : dsim_device :=
  emit (Event.buf_store index value)
    { d with buf := fun k => if k = index then value else d.buf k }

/-- Store `dsim->state = state`. -/
def state_store (state : dsim_state) (d : dsim_device) : dsim_device :=
  emit (Event.state_store state) { d with state := state }

/-! ## Command channel -/

/-- Loop of `dsim_long_data_wr`.  `data_cnt` and `payload` are the two `unsigned int` locals;
the first argument bounds the number of iterations and `none` means the bound was reached with
the loop still running. -/
def dsim_long_data_wr_loop (hw : Hw) (d0 d1 : Nat) :
    Nat → Nat → Nat → dsim_device → Option dsim_device
  | 0, _, _, _ => none
  | fuel + 1, data_cnt, payload, d =>
    if data_cnt < d1 then
      if u32_sub d1 data_cnt < 4 then
        let payload1 :=
          if u32_sub d1 data_cnt = 3 then
            u32 (rd_u8 hw (d0 + data_cnt) ||| rd_u8 hw (d0 + u32 (data_cnt + 1)) <<< 8
              ||| rd_u8 hw (d0 + u32 (data_cnt + 2)) <<< 16)
          else if u32_sub d1 data_cnt = 2 then
            u32 (rd_u8 hw (d0 + data_cnt) ||| rd_u8 hw (d0 + u32 (data_cnt + 1)) <<< 8)
          else if u32_sub d1 data_cnt = 1 then
            rd_u8 hw (d0 + data_cnt)
          else payload
        dsim_long_data_wr_loop hw d0 d1 fuel (u32 (data_cnt + 4)) payload1
          (emit (Event.dsim_reg_wr_tx_payload payload1) d)
      else
        let payload1 :=
          u32 (rd_u8 hw (d0 + data_cnt) ||| rd_u8 hw (d0 + u32 (data_cnt + 1)) <<< 8
            ||| rd_u8 hw (d0 + u32 (data_cnt + 2)) <<< 16
            ||| rd_u8 hw (d0 + u32 (data_cnt + 3)) <<< 24)
        dsim_long_data_wr_loop hw d0 d1 fuel (u32 (data_cnt + 4)) payload1
          (emit (Event.dsim_reg_wr_tx_payload payload1) d)
    else some d

/-- Function `dsim_long_data_wr(dsim, d0, d1)`: `d0` is the address of the payload, `d1` its
length in bytes (`u32`).  The iteration bound 2^30 + 1 is never reached by a loop that ends:
the counter advances by 4 and is below 2^32. -/
def dsim_long_data_wr (hw : Hw) (d0 d1 : Nat) (d : dsim_device) : Option dsim_device :=
  dsim_long_data_wr_loop hw d0 d1 1073741825 0 0 d

/-- Tail of `dsim_wait_for_cmd_fifo_empty`: the register dump made when the link is on and
`ret` is `-ETIMEDOUT`, then `return ret`. -/
def dsim_wait_for_cmd_fifo_empty_ret (h : dsim_h) (ret : Int) (d : dsim_device) :
    Int × dsim_device :=
  if h.IS_DSIM_ON_STATE d.state && ret == -ETIMEDOUT then (ret, dsim_dump_sfr d)
  else (ret, d)

/-- Function `dsim_wait_for_cmd_fifo_empty(dsim, must_wait)`. -/
def dsim_wait_for_cmd_fifo_empty (h : dsim_h) (hw : Hw) (must_wait : Bool) (d : dsim_device) :
    Int × dsim_device :=
  if !must_wait then
    let q := dsim_reg_header_fifo_is_empty hw d
    if q.1 then (0, del_timer q.2) else (0, q.2)
  else
    let w := wait_for_completion_ph_wr_comp hw (del_timer d)
    if !w.1 then
      let q := dsim_reg_header_fifo_is_empty hw w.2
      if q.1 then
        (0, emit (Event.dsim_reg_clear_int intsrc.DSIM_INTSRC_SFR_PH_FIFO_EMPTY)
              (emit Event.reinit_completion_ph_wr_comp q.2))
      else dsim_wait_for_cmd_fifo_empty_ret h (-ETIMEDOUT) q.2
    else dsim_wait_for_cmd_fifo_empty_ret h 0 w.2

/-- Function `dsim_wait_for_cmd_done(dsim)`. -/
def dsim_wait_for_cmd_done (h : dsim_h) (hw : Hw) (d : dsim_device) : Int × dsim_device :=
  let r := dsim_wait_for_cmd_fifo_empty h hw true
    (emit Event.mutex_lock (emit Event.decon_hiber_block_exit d))
  (r.1, emit Event.decon_hiber_unblock (emit Event.mutex_unlock r.2))

/-- Function `dsim_fifo_empty_needed(dsim, data_id, data0)`; the FIFO level is queried only
when the first condition fails. -/
def dsim_fifo_empty_needed (hw : Hw) (data_id data0 : Nat) (d : dsim_device) :
    Bool × dsim_device :=
  if data_id = MIPI_DSI_DCS_READ
      ∨ ((data_id = MIPI_DSI_DCS_SHORT_WRITE ∨ data_id = MIPI_DSI_DCS_SHORT_WRITE_PARAM)
          ∧ (data0 = MIPI_DCS_SOFT_RESET
              ∨ data0 = MIPI_DCS_SET_DISPLAY_OFF
              ∨ data0 = MIPI_DCS_SET_DISPLAY_ON
              ∨ data0 = MIPI_DCS_ENTER_SLEEP_MODE
              ∨ data0 = MIPI_DCS_EXIT_SLEEP_MODE))
      ∨ data0 = 0xC1
      ∨ data0 = 0xC0
      ∨ data0 = MIPI_DCS_SET_COLUMN_ADDRESS
      ∨ data0 = MIPI_DCS_SET_PAGE_ADDRESS then
    (true, d)
  else
    let q := dsim_reg_is_writable_fifo_state hw d
    if !q.1 then (true, q.2) else (false, q.2)

/-- Packet types of the first group of cases of the switch in `dsim_write_data`. -/
def short_write_ids : List Nat :=
  [MIPI_DSI_GENERIC_SHORT_WRITE_0_PARAM, MIPI_DSI_GENERIC_SHORT_WRITE_1_PARAM,
   MIPI_DSI_GENERIC_SHORT_WRITE_2_PARAM, MIPI_DSI_DCS_SHORT_WRITE,
   MIPI_DSI_DCS_SHORT_WRITE_PARAM, MIPI_DSI_SET_MAXIMUM_RETURN_PACKET_SIZE,
   MIPI_DSI_DSC_PRA, MIPI_DSI_COLOR_MODE_OFF, MIPI_DSI_COLOR_MODE_ON,
   MIPI_DSI_SHUTDOWN_PERIPHERAL, MIPI_DSI_TURN_ON_PERIPHERAL]

/-- Packet types of the second group of cases of the switch in `dsim_write_data`. -/
def read_request_ids : List Nat :=
  [MIPI_DSI_GENERIC_READ_REQUEST_0_PARAM, MIPI_DSI_GENERIC_READ_REQUEST_1_PARAM,
   MIPI_DSI_GENERIC_READ_REQUEST_2_PARAM, MIPI_DSI_DCS_READ]

/-- Packet types of the third group of cases of the switch in `dsim_write_data`. -/
def long_write_ids : List Nat :=
  [MIPI_DSI_GENERIC_LONG_WRITE, MIPI_DSI_DCS_LONG_WRITE, MIPI_DSI_DSC_PPS]

/-- The switch of `dsim_write_data`.  The result is the value of the locals `ret` and
`must_wait` after the switch and the device; `ret` enters as 0 and `must_wait` as true.
`none`: the payload loop of a long write does not end. -/
def dsim_write_data_switch (hw : Hw) (id d0 d1 : Nat) (d : dsim_device) :
    Option (Int × Bool × dsim_device) :=
  if id ∈ short_write_ids then
    let q := dsim_fifo_empty_needed hw id d0 (emit (Event.dsim_reg_wr_tx_header id d0 d1 false) d)
    some (0, q.1, q.2)
  else if id ∈ read_request_ids then
    let q := dsim_fifo_empty_needed hw id d0 (emit (Event.dsim_reg_wr_tx_header id d0 d1 true) d)
    some (0, q.1, q.2)
  else if id ∈ long_write_ids then
    match dsim_long_data_wr hw d0 d1 d with
    | none => none
    | some dl =>
      let q := dsim_fifo_empty_needed hw id (rd_u8 hw d0)
        (emit (Event.dsim_reg_wr_tx_header id (d1 &&& 0xff) ((d1 &&& 0xff00) >>> 8) false) dl)
      some (0, q.1, q.2)
  else
    some (-EINVAL, true, d)

/-- Function `dsim_write_data(dsim, id, d0, d1)`; `id` and `d1` are `u32` values and `d0` an
`unsigned long`.  After the switch `ret` is assigned the result of
`dsim_wait_for_cmd_fifo_empty`, whatever the switch left in it. -/
def dsim_write_data (h : dsim_h) (hw : Hw) (id d0 d1 : Nat) (d : dsim_device) :
    Option (Int × dsim_device) :=
  let da := emit Event.mutex_lock (emit Event.decon_hiber_block_exit d)
  if !h.IS_DSIM_ON_STATE da.state then
    some (-EINVAL, emit Event.decon_hiber_unblock (emit Event.mutex_unlock da))
  else
    let db := mod_timer
      (emit (Event.dsim_reg_clear_int intsrc.DSIM_INTSRC_SFR_PH_FIFO_EMPTY)
        (emit Event.reinit_completion_ph_wr_comp da))
    match dsim_write_data_switch hw id d0 d1 db with
    | none => none
    | some sw =>
      let r := dsim_wait_for_cmd_fifo_empty h hw sw.2.1 sw.2.2
      some (r.1, emit Event.decon_hiber_unblock (emit Event.mutex_unlock r.2))

/-- Short response in `dsim_read_data`:
`for (i = 0; i < cnt; i++) buf[i] = (rx_fifo >> (8 + i * 8)) & 0xff;`.
From i = 3 on the shift count is 32 or more, which C leaves undefined for a `u32`; the
embedding takes the mathematical shift there. -/
def rx_short_stores (rx_fifo cnt : Nat) (d : dsim_device) : dsim_device :=
  (List.range cnt).foldl (fun acc i => buf_store i ((rx_fifo >>> (8 + i * 8)) &&& 0xff) acc) d

/-- One payload word of a long response in `dsim_read_data`: read the FIFO, then
`for (j = 0; j < n; j++) buf[(i * 4) + j] = (u8)(rx_fifo >> (j * 8)) & 0xff;`. -/
def rx_long_word (hw : Hw) (i n : Nat) (d : dsim_device) : dsim_device :=
  let w := dsim_reg_get_rx_fifo hw d
  (List.range n).foldl
    (fun acc j => buf_store (i * 4 + j) (((w.1 >>> (j * 8)) % 256) &&& 0xff) acc) w.2

/-- Payload of a long response in `dsim_read_data`: `rx_size >> 2` full words, then one more
word for the `rx_size % 4` remaining bytes if there are any. -/
def rx_long_payload (hw : Hw) (rx_size : Nat) (d : dsim_device) : dsim_device :=
  let df := (List.range (rx_size >>> 2)).foldl (fun acc i => rx_long_word hw i 4 acc) d
  if rx_size % 4 ≠ 0 then rx_long_word hw (rx_size >>> 2) (rx_size % 4) df else df

/-- Outcome of the body of the drain loop of `dsim_read_data`: `exit` is `goto exit` with the
value of `ret`, `next` reaches the loop condition with the value of `rx_size`. -/
inductive rx_step
  | exit (ret : Int) (d : dsim_device)
  | next (rx_size : Nat) (d : dsim_device)

/-- Body of the drain loop of `dsim_read_data`: read one FIFO word and switch on its low
byte.  The value an acknowledge word leaves in `ret` when the handler does not fail is not
kept: `ret` is assigned again after the loop. -/
def rx_parse (hw : Hw) (cnt rx_size : Nat) (d : dsim_device) : rx_step :=
  let w := dsim_reg_get_rx_fifo hw d
  if w.1 &&& 0xff = MIPI_DSI_RX_ACKNOWLEDGE_AND_ERROR_REPORT then
    let ret := hw.rx_err_handler w.1
    let de := emit (Event.dsim_reg_rx_err_handler w.1 ret) w.2
    if ret < 0 then rx_step.exit ret (dsim_dump_sfr de) else rx_step.next rx_size de
  else if w.1 &&& 0xff = MIPI_DSI_RX_END_OF_TRANSMISSION then
    rx_step.next rx_size w.2
  else if w.1 &&& 0xff = MIPI_DSI_RX_DCS_SHORT_READ_RESPONSE_1BYTE
      ∨ w.1 &&& 0xff = MIPI_DSI_RX_DCS_SHORT_READ_RESPONSE_2BYTE
      ∨ w.1 &&& 0xff = MIPI_DSI_RX_GENERIC_SHORT_READ_RESPONSE_1BYTE
      ∨ w.1 &&& 0xff = MIPI_DSI_RX_GENERIC_SHORT_READ_RESPONSE_2BYTE then
    rx_step.next cnt (rx_short_stores w.1 cnt w.2)
  else if w.1 &&& 0xff = MIPI_DSI_RX_DCS_LONG_READ_RESPONSE
      ∨ w.1 &&& 0xff = MIPI_DSI_RX_GENERIC_LONG_READ_RESPONSE then
    rx_step.next ((w.1 &&& 0x00ffff00) >>> 8)
      (rx_long_payload hw ((w.1 &&& 0x00ffff00) >>> 8) w.2)
  else
    rx_step.exit (-EBUSY) (dsim_dump_sfr w.2)

/-- What follows the drain loop of `dsim_read_data` up to the label `exit`. -/
def rx_finish (rx_fifo_depth rx_size : Nat) (d : dsim_device) : Int × dsim_device :=
  if rx_fifo_depth = 0 then (-EBUSY, dsim_dump_sfr d) else (int_of_u32 rx_size, d)

/-- Drain loop of `dsim_read_data`,
`do { ... } while (!dsim_reg_rx_fifo_is_empty(dsim->id) && --rx_fifo_depth);`, followed by
`rx_finish`.  `rx_fifo_depth` and `rx_size` are the `u32` locals; the first argument bounds the
number of iterations and `none` means the bound was reached with the loop still running. -/
def rx_drain (hw : Hw) (cnt : Nat) : Nat → Nat → Nat → dsim_device → Option (Int × dsim_device)
  | 0, _, _, _ => none
  | fuel + 1, rx_fifo_depth, rx_size, d =>
    match rx_parse hw cnt rx_size d with
    | rx_step.exit ret de => some (ret, de)
    | rx_step.next rx_size1 dn =>
      let q := dsim_reg_rx_fifo_is_empty hw dn
      if !q.1 then
        if u32_sub rx_fifo_depth 1 ≠ 0 then rx_drain hw cnt fuel (u32_sub rx_fifo_depth 1) rx_size1 q.2
        else some (rx_finish (u32_sub rx_fifo_depth 1) rx_size1 q.2)
      else some (rx_finish rx_fifo_depth rx_size1 q.2)

/-- Function `dsim_read_data(dsim, id, addr, cnt, buf)`; `id`, `addr` and `cnt` are `u32`
values.  The results of the two `dsim_write_data` calls are not looked at.  The bound 2^32
on the drain loop is the largest number of iterations a `u32` counter allows. -/
def dsim_read_data (h : dsim_h) (hw : Hw) (id addr cnt : Nat) (d : dsim_device) :
    Option (Int × dsim_device) :=
  let da := emit Event.decon_hiber_block_exit d
  if h.IS_DSIM_OFF_STATE da.state then
    some (-EINVAL, emit Event.decon_hiber_unblock da)
  else
    let db := emit (Event.dsim_reg_clear_int intsrc.DSIM_INTSRC_RX_DATA_DONE)
      (emit Event.reinit_completion_rd_comp da)
    match dsim_write_data h hw MIPI_DSI_SET_MAXIMUM_RETURN_PACKET_SIZE cnt 0 db with
    | none => none
    | some r1 =>
      match dsim_write_data h hw id addr 0 r1.2 with
      | none => none
      | some r2 =>
        let w := wait_for_completion_rd_comp hw r2.2
        if !w.1 then some (-ETIMEDOUT, w.2)
        else
          match rx_drain hw cnt 4294967296 (u32 h.DSIM_RX_FIFO_MAX_DEPTH) 0
              (emit Event.mutex_lock w.2) with
          | none => none
          | some r => some (r.1, emit Event.decon_hiber_unblock (emit Event.mutex_unlock r.2))

/-- Timer callback `dsim_cmd_fail_detector`. -/
def dsim_cmd_fail_detector (h : dsim_h) (hw : Hw) (d : dsim_device) : dsim_device :=
  let da := emit Event.decon_hiber_block d
  if h.IS_DSIM_OFF_STATE da.state then emit Event.decon_hiber_unblock da
  else if !da.cmd_timer then
    let q := dsim_reg_header_fifo_is_empty hw da
    if q.1 then
      emit Event.decon_hiber_unblock
        (emit (Event.dsim_reg_clear_int intsrc.DSIM_INTSRC_SFR_PH_FIFO_EMPTY)
          (emit Event.reinit_completion_ph_wr_comp q.2))
    else emit Event.decon_hiber_unblock (dsim_dump_sfr q.2)
  else emit Event.decon_hiber_unblock (dsim_dump_sfr da)

/-! ## Link state machine -/

/-- Clock-domain resume: `pm_runtime_get_sync(dsim->dev)` with CONFIG_EXYNOS_PD, otherwise
`dsim_runtime_resume(dsim->dev)`. -/
def dsim_power_get (cfg : Kconfig) (d : dsim_device) : dsim_device :=
  if cfg.EXYNOS_PD then emit Event.pm_runtime_get_sync d else emit Event.dsim_runtime_resume d

/-- Clock-domain suspend: `pm_runtime_put_sync(dsim->dev)` with CONFIG_EXYNOS_PD, otherwise
`dsim_runtime_suspend(dsim->dev)`. -/
def dsim_power_put (cfg : Kconfig) (d : dsim_device) : dsim_device :=
  if cfg.EXYNOS_PD then emit Event.pm_runtime_put_sync d else emit Event.dsim_runtime_suspend d

/-- Link clock selection `dsim_reg_set_link_clock(dsim->id, en)`, compiled only with
CONFIG_SOC_EXYNOS9810. -/
def dsim_reg_set_link_clock (cfg : Kconfig) (en : Nat) (d : dsim_device) : dsim_device :=
  if cfg.SOC_EXYNOS9810 then emit (Event.dsim_reg_set_link_clock en) d else d

/-- Query `dsim_reg_is_pll_stable`. -/
def dsim_reg_is_pll_stable (hw : Hw) (d : dsim_device) : Bool × dsim_device :=
  let r := hw.is_pll_stable d.n_is_pll_stable
  (r, emit (Event.dsim_reg_is_pll_stable r) { d with n_is_pll_stable := d.n_is_pll_stable + 1 })

/-- Call `dsim_reg_init(dsim->id, &dsim->lcd_info, dsim->data_lane_cnt, &dsim->clks)`. -/
def dsim_reg_init (hw : Hw) (d : dsim_device) : Int × dsim_device :=
  let r := hw.reg_init d.n_reg_init
  (r, emit (Event.dsim_reg_init r) { d with n_reg_init := d.n_reg_init + 1 })

/-- Call `dsim_reg_stop_and_enter_ulps`. -/
def dsim_reg_stop_and_enter_ulps (hw : Hw) (d : dsim_device) : Int × dsim_device :=
  let r := hw.stop_and_enter_ulps d.n_stop_and_enter_ulps
  (r, emit (Event.dsim_reg_stop_and_enter_ulps r)
        { d with n_stop_and_enter_ulps := d.n_stop_and_enter_ulps + 1 })

/-- Call `dsim_reg_exit_ulps_and_start`. -/
def dsim_reg_exit_ulps_and_start (hw : Hw) (d : dsim_device) : Int × dsim_device :=
  let r := hw.exit_ulps_and_start d.n_exit_ulps_and_start
  (r, emit (Event.dsim_reg_exit_ulps_and_start r)
        { d with n_exit_ulps_and_start := d.n_exit_ulps_and_start + 1 })

/-- Label `init_end` of `_dsim_enable`: start the link, set the state, enable the interrupt
line, return `ret`. -/
def dsim_enable_init_end (state : dsim_state) (ret : Int) (d : dsim_device) :
    Int × dsim_device :=
  let ds := emit Event.dsim_reg_start d
  (ret, emit Event.enable_irq (state_store state ds))

/-- Link and DPHY bring-up of `_dsim_enable`, from the OSC clock selection to `dsim_reg_init`
and the panel reset, followed by `init_end`.  `dsim_set_panel_power` and `dsim_reset_panel`
are recorded as one call each (their results are not looked at here); the panel reset is
compiled unless CONFIG_EXYNOS_COMMON_PANEL is set without CONFIG_OLD_DISP_TIMING. -/
def dsim_enable_bringup (cfg : Kconfig) (hw : Hw) (state : dsim_state) (d : dsim_device) :
    Int × dsim_device :=
  let d1 := dsim_reg_set_link_clock cfg 0 d
  let d2 := emit (Event.dsim_reg_dphy_resetn 1) d1
  let d3 := emit (Event.dsim_set_panel_power true) d2
  let d4 := emit Event.dsim_reg_sw_reset d3
  let d5 := emit (Event.dsim_reg_set_clocks 1) d4
  let d6 := emit (Event.dsim_reg_set_lanes 1) d5
  let d7 := emit (Event.dsim_reg_dphy_resetn 0) d6
  let d8 := dsim_reg_set_link_clock cfg 1 d7
  let d9 := emit (Event.dsim_reg_set_esc_clk_on_lane 1) d8
  let d10 := emit (Event.dsim_reg_enable_word_clock 1) d9
  let q := dsim_reg_init hw d10
  if q.1 < 0 then dsim_enable_init_end state (-EBUSY) q.2
  else if !cfg.EXYNOS_COMMON_PANEL || cfg.OLD_DISP_TIMING then
    dsim_enable_init_end state 0 (emit Event.dsim_reset_panel q.2)
  else dsim_enable_init_end state 0 q.2

/-- Function `_dsim_enable(dsim, state)`. -/
def _dsim_enable (cfg : Kconfig) (h : dsim_h) (hw : Hw) (state : dsim_state) (d : dsim_device) :
    Int × dsim_device :=
  if h.IS_DSIM_ON_STATE d.state then (0, state_store state d)
  else
    let d1 := dsim_power_get cfg d
    let d2 := emit Event.dpu_sysreg_set_dphy d1
    let d3 := emit Event.phy_power_on d2
    let d4 := emit Event.dsim_phy_status d3
    if d4.state = dsim_state.DSIM_STATE_INIT then
      let q := dsim_reg_is_pll_stable hw d4
      if q.1 then dsim_enable_init_end state 0 q.2
      else dsim_enable_bringup cfg hw state q.2
    else dsim_enable_bringup cfg hw state d4

/-- Function `dsim_enable(dsim)`. -/
def dsim_enable (cfg : Kconfig) (h : dsim_h) (hw : Hw) (d : dsim_device) : Int × dsim_device :=
  if d.state = dsim_state.DSIM_STATE_ON then (0, d)
  else
    let r := _dsim_enable cfg h hw dsim_state.DSIM_STATE_ON d
    if r.1 < 0 then r
    else if d.state ≠ dsim_state.DSIM_STATE_INIT then
      (r.1, emit (Event.call_panel_ops
        (if cfg.EXYNOS_COMMON_PANEL then panel_op.sleepout else panel_op.displayon)) r.2)
    else r

/-- Function `dsim_doze(dsim)` (CONFIG_SUPPORT_DOZE). -/
def dsim_doze (cfg : Kconfig) (h : dsim_h) (hw : Hw) (d : dsim_device) : Int × dsim_device :=
  if d.state = dsim_state.DSIM_STATE_DOZE then (0, d)
  else
    let r := _dsim_enable cfg h hw dsim_state.DSIM_STATE_DOZE d
    if r.1 < 0 then r
    else if d.state ≠ dsim_state.DSIM_STATE_INIT then
      (r.1, emit (Event.call_panel_ops panel_op.doze) r.2)
    else r

/-- Function `_dsim_disable(dsim, state)`. -/
def _dsim_disable (cfg : Kconfig) (h : dsim_h) (state : dsim_state) (d : dsim_device) :
    Int × dsim_device :=
  if h.IS_DSIM_OFF_STATE d.state then
    let d1 := if state = dsim_state.DSIM_STATE_OFF then emit (Event.dsim_set_panel_power false) d
      else d
    (0, state_store state d1)
  else
    let d1 := emit Event.mutex_lock d
    let d2 := del_timer d1
    let d3 := emit Event.mutex_unlock (state_store state d2)
    let d4 := emit Event.dsim_reg_stop d3
    let d5 := emit Event.disable_irq d4
    let d6 := emit Event.phy_power_off d5
    let d7 := if state = dsim_state.DSIM_STATE_OFF then
        emit (Event.dsim_set_panel_power false) d6
      else d6
    (0, dsim_power_put cfg d7)

/-- Function `dsim_disable(dsim)`. -/
def dsim_disable (cfg : Kconfig) (h : dsim_h) (d : dsim_device) : Int × dsim_device :=
  if d.state = dsim_state.DSIM_STATE_OFF then (0, d)
  else _dsim_disable cfg h dsim_state.DSIM_STATE_OFF (emit (Event.call_panel_ops panel_op.suspend) d)

/-- Function `dsim_doze_suspend(dsim)` (CONFIG_SUPPORT_DOZE). -/
def dsim_doze_suspend (cfg : Kconfig) (h : dsim_h) (d : dsim_device) : Int × dsim_device :=
  if d.state = dsim_state.DSIM_STATE_DOZE_SUSPEND then (0, d)
  else _dsim_disable cfg h dsim_state.DSIM_STATE_DOZE_SUSPEND
    (emit (Event.call_panel_ops panel_op.doze_suspend) d)

/-- Function `dsim_enter_ulps(dsim)`. -/
def dsim_enter_ulps (cfg : Kconfig) (h : dsim_h) (hw : Hw) (d : dsim_device) :
    Int × dsim_device :=
  if !h.IS_DSIM_ON_STATE d.state then (-EBUSY, d)
  else
    let d1 := emit Event.mutex_lock d
    let d2 := emit Event.mutex_unlock (state_store dsim_state.DSIM_STATE_ULPS d1)
    let d3 := emit (Event.dsim_reg_set_int 0) d2
    let d4 := emit Event.disable_irq d3
    let q := dsim_reg_stop_and_enter_ulps hw d4
    let d5 := if q.1 < 0 then dsim_dump q.2 else q.2
    let d6 := emit Event.phy_power_off d5
    (q.1, dsim_power_put cfg d6)

/-- Function `dsim_exit_ulps(dsim)`.  In a state other than ULPS the source assigns
`ret = -EBUSY` and jumps to the label `err`, where the function ends with `return 0;`: the
value of `ret` is not what is returned.  The same `return 0;` ends the path through
`dsim_reg_exit_ulps_and_start`; only a failing `dsim_reg_init` returns `-EBUSY`. -/
def dsim_exit_ulps (cfg : Kconfig) (hw : Hw) (d : dsim_device) : Int × dsim_device :=
  if d.state ≠ dsim_state.DSIM_STATE_ULPS then (0, d)
  else
    let d1 := dsim_power_get cfg d
    let d2 := emit Event.dpu_sysreg_set_dphy d1
    let d3 := emit Event.phy_power_on d2
    let d4 := emit Event.dsim_phy_status d3
    let d5 := emit Event.enable_irq d4
    let d6 := dsim_reg_set_link_clock cfg 0 d5
    let d7 := emit (Event.dsim_reg_dphy_resetn 1) d6
    let d8 := emit Event.dsim_reg_sw_reset d7
    let d9 := emit (Event.dsim_reg_set_clocks 1) d8
    let d10 := emit (Event.dsim_reg_set_lanes 1) d9
    let d11 := emit (Event.dsim_reg_dphy_resetn 0) d10
    let d12 := dsim_reg_set_link_clock cfg 1 d11
    let d13 := emit (Event.dsim_reg_set_esc_clk_on_lane 1) d12
    let d14 := emit (Event.dsim_reg_enable_word_clock 1) d13
    let q := dsim_reg_init hw d14
    if q.1 < 0 then (-EBUSY, q.2)
    else
      let e := dsim_reg_exit_ulps_and_start hw q.2
      let d15 := if e.1 < 0 then dsim_dump e.2 else e.2
      (0, state_store dsim_state.DSIM_STATE_ON d15)

/-! ## Concrete inputs -/

/-- A sample value of the dsim.h parameters: the ON predicate accepts the state ON only, the
OFF predicate the state OFF only, and the RX FIFO is 64 words deep.  The theorems below hold
for every value of the parameters; this one is the input of the worked examples. -/
def dsim_h_plain : dsim_h where
  IS_DSIM_ON_STATE := fun s => decide (s = dsim_state.DSIM_STATE_ON)
  IS_DSIM_OFF_STATE := fun s => decide (s = dsim_state.DSIM_STATE_OFF)
  DSIM_RX_FIFO_MAX_DEPTH := 64

/-- A build for the Exynos 9810 with power domains and the common panel driver. -/
def kconfig_9810 : Kconfig where
  EXYNOS_PD := true
  SOC_EXYNOS9810 := true
  EXYNOS_COMMON_PANEL := true
  OLD_DISP_TIMING := false

/-- A device in the given state on which nothing has happened yet. -/
def dsim_device_fresh (state : dsim_state) : dsim_device where
  state := state
  cmd_timer := false
  buf := fun _ => 0
  trace := []
  n_ph_wr_comp := 0
  n_rd_comp := 0
  n_header_fifo_is_empty := 0
  n_is_writable_fifo_state := 0
  n_rx_fifo := 0
  n_rx_fifo_is_empty := 0
  n_is_pll_stable := 0
  n_reg_init := 0
  n_stop_and_enter_ulps := 0
  n_exit_ulps_and_start := 0

/-- Hardware that acknowledges everything at once: completions fire, FIFOs are empty and
writable, the PLL is stable, every register call succeeds, memory and RX FIFO hold the given
words. -/
def hw_prompt (mem rx_fifo : Nat → Nat) : Hw where
  mem := mem
  ph_wr_comp := fun _ => true
  rd_comp := fun _ => true
  header_fifo_is_empty := fun _ => true
  is_writable_fifo_state := fun _ => true
  rx_fifo := rx_fifo
  rx_fifo_is_empty := fun _ => true
  rx_err_handler := fun _ => 0
  is_pll_stable := fun _ => true
  reg_init := fun _ => 0
  stop_and_enter_ulps := fun _ => 0
  exit_ulps_and_start := fun _ => 0

/-- Hardware as `hw_prompt`, except that `dsim_reg_rx_err_handler` fails with `-EINVAL` on
every word. -/
def hw_rx_error (mem rx_fifo : Nat → Nat) : Hw :=
  { hw_prompt mem rx_fifo with rx_err_handler := fun _ => -EINVAL }

/-- An RX FIFO holding a DCS long response that declares 5 bytes, followed by its two payload
words with the bytes 1, 2, 3, 4, 5. -/
def rx_fifo_long5 : Nat → Nat := fun n =>
  if n = 0 then 0x0000051C else if n = 1 then 0x04030201 else 0x00000005

/-! ## Vocabulary of the statements -/

/-- Bytes of a 32-bit word, low byte first. -/
def le_bytes (w : Nat) : List Nat :=
  [w % 256, w / 256 % 256, w / 65536 % 256, w / 16777216 % 256]

/-- Byte `j` of payload word `k` of a long write: the payload byte at offset `4 * k + j`, or 0
past the end of the payload. -/
def payload_byte (hw : Hw) (d0 d1 i : Nat) : Nat :=
  if i < d1 then rd_u8 hw (d0 + i) else 0

/-- Payload word `k` of a long write of `d1` bytes at `d0`, low byte first. -/
def payload_word (hw : Hw) (d0 d1 k : Nat) : Nat :=
  payload_byte hw d0 d1 (4 * k) + payload_byte hw d0 d1 (4 * k + 1) * 256
    + payload_byte hw d0 d1 (4 * k + 2) * 65536 + payload_byte hw d0 d1 (4 * k + 3) * 16777216

/-- What a command write leaves alone: the link state, the caller's buffer and the cursors of
the RX side; and the calls it adds to the trace include no store to the caller's buffer. -/
def cmd_frame (d d' : dsim_device) : Prop :=
  d'.state = d.state ∧ d'.buf = d.buf ∧ d'.n_rx_fifo = d.n_rx_fifo
    ∧ d'.n_rd_comp = d.n_rd_comp ∧ d'.n_rx_fifo_is_empty = d.n_rx_fifo_is_empty
    ∧ ∃ evs : List Event, d'.trace = d.trace ++ evs ∧ ∀ i v, Event.buf_store i v ∉ evs

/-- Word `n` of the RX FIFO as `dsim_reg_get_rx_fifo` returns it. -/
def rx_word (hw : Hw) (n : Nat) : Nat := u32 (hw.rx_fifo n)

/-- Byte `j` of a word, counted from the low byte. -/
def le_byte (w j : Nat) : Nat := w / 256 ^ j % 256

/-- State after the payload of a long response has been drained, relative to the state before:
`m` words were read from the RX FIFO, bytes 0 to `B - 1` of the caller's buffer hold the bytes
of those words, low byte first and in FIFO order, the rest of the buffer, the link state and
the cursor of the FIFO-empty query are as before, and every store went to an index below
`B`. -/
def rx_post (hw : Hw) (m B : Nat) (d d' : dsim_device) : Prop :=
  d'.n_rx_fifo = d.n_rx_fifo + m
    ∧ d'.n_rx_fifo_is_empty = d.n_rx_fifo_is_empty
    ∧ d'.state = d.state
    ∧ (∀ k, d'.buf k
        = if k < B then le_byte (rx_word hw (d.n_rx_fifo + k / 4)) (k % 4) else d.buf k)
    ∧ ∃ evs : List Event, d'.trace = d.trace ++ evs ∧ ∀ i v, Event.buf_store i v ∈ evs → i < B

/-- Index and value of the stores to the caller's buffer in a trace, in order. -/
def buf_stores (tr : List Event) : List (Nat × Nat) :=
  tr.filterMap (fun e => match e with
    | Event.buf_store i v => some (i, v)
    | _ => none)

/-- Number of loop bodies the drain loop of `dsim_read_data` can still enter when its `u32`
counter `rx_fifo_depth` has the given value at the head of the body: the counter is decremented
before it is tested, so the value 0 wraps and allows 2^32 passes. -/
def rx_passes (rx_fifo_depth : Nat) : Nat :=
  if rx_fifo_depth = 0 then 4294967296 else rx_fifo_depth

/-- Device after the body of the drain loop, whichever way the body ends. -/
def rx_step.dev : rx_step → dsim_device
  | rx_step.exit _ d => d
  | rx_step.next _ d => d

/-- Hardware as `hw_prompt`, except that the header-empty completion never fires (the header
FIFO is still found empty at the recheck). -/
def hw_no_irq (mem rx_fifo : Nat → Nat) : Hw :=
  { hw_prompt mem rx_fifo with ph_wr_comp := fun _ => false }

/-- Hardware as `hw_prompt`, except that the header-empty completion never fires and the header
FIFO is never found empty. -/
def hw_stuck (mem rx_fifo : Nat → Nat) : Hw :=
  { hw_prompt mem rx_fifo with
    ph_wr_comp := fun _ => false
    header_fifo_is_empty := fun _ => false }

/-- What `dsim_write_data` does in a state `IS_DSIM_ON_STATE` accepts before it enters the
switch: hibernation hook, command lock, completion reset, interrupt clear, timer arm. -/
def dsim_write_data_prologue (d : dsim_device) : dsim_device :=
  mod_timer
    (emit (Event.dsim_reg_clear_int intsrc.DSIM_INTSRC_SFR_PH_FIFO_EMPTY)
      (emit Event.reinit_completion_ph_wr_comp
        (emit Event.mutex_lock (emit Event.decon_hiber_block_exit d))))

/-- The value of `must_wait` that `dsim_write_data`, in a state `IS_DSIM_ON_STATE` accepts,
passes to `dsim_wait_for_cmd_fifo_empty`. -/
def dsim_write_data_must_wait (hw : Hw) (id d0 d1 : Nat) (d : dsim_device) : Option Bool :=
  (dsim_write_data_switch hw id d0 d1 (dsim_write_data_prologue d)).map (fun sw => sw.2.1)

/-- Memory holding the DCS command `MIPI_DCS_SET_COLUMN_ADDRESS` at address 0 and zeros after
it: the payload of a column-address long write. -/
def mem_column_address : Nat → Nat := fun a => if a = 0 then 0x2A else 0

/-- The calls of a trace that switch the PHY power or the interrupt line, in order. -/
def phy_irq_calls (tr : List Event) : List Event :=
  tr.filter (fun e => decide (e = Event.phy_power_on ∨ e = Event.phy_power_off
    ∨ e = Event.enable_irq ∨ e = Event.disable_irq))

/-- Hardware as `hw_prompt`, except that the header FIFO is never found empty: a command that
does not wait returns while its header is still queued. -/
def hw_header_queued (mem rx_fifo : Nat → Nat) : Hw :=
  { hw_prompt mem rx_fifo with header_fifo_is_empty := fun _ => false }

/-- The calls of a trace to the hibernation hooks of the display controller, in order. -/
def hiber_calls (tr : List Event) : List Event :=
  tr.filter (fun e => decide (e = Event.decon_hiber_block_exit ∨ e = Event.decon_hiber_block
    ∨ e = Event.decon_hiber_unblock))

/-- Hardware as `hw_prompt`, except that the read-data completion never fires. -/
def hw_no_reply (mem rx_fifo : Nat → Nat) : Hw :=
  { hw_prompt mem rx_fifo with rd_comp := fun _ => false }

/-- Hardware as `hw_prompt`, except that the RX FIFO is never reported empty. -/
def hw_rx_flood (mem rx_fifo : Nat → Nat) : Hw :=
  { hw_prompt mem rx_fifo with rx_fifo_is_empty := fun _ => false }

/-- Calls that write to the TX FIFOs: a payload word or a packet header. -/
def is_tx_call : Event → Bool
  | Event.dsim_reg_wr_tx_payload _ => true
  | Event.dsim_reg_wr_tx_header _ _ _ _ => true
  | _ => false

/-- The writes of a trace to the TX FIFOs (payload words and packet headers), in order. -/
def tx_calls (tr : List Event) : List Event := tr.filter is_tx_call

/-- Hardware as `hw_prompt`, except that `dsim_reg_init` fails with `-EBUSY` every time. -/
def hw_init_busy (mem rx_fifo : Nat → Nat) : Hw :=
  { hw_prompt mem rx_fifo with reg_init := fun _ => -EBUSY }

/-- Calls of the link bring-up phase: the link and PHY register programming from the clock
selection to `dsim_reg_init`, together with the calls that delimit it, `phy_power_on` before
it and `dsim_reg_start` or `dsim_reg_exit_ulps_and_start` after it. -/
def is_link_phase_call : Event → Bool
  | Event.phy_power_on => true
  | Event.dsim_reg_set_link_clock _ => true
  | Event.dsim_reg_dphy_resetn _ => true
  | Event.dsim_reg_sw_reset => true
  | Event.dsim_reg_set_clocks _ => true
  | Event.dsim_reg_set_lanes _ => true
  | Event.dsim_reg_set_esc_clk_on_lane _ => true
  | Event.dsim_reg_enable_word_clock _ => true
  | Event.dsim_reg_init _ => true
  | Event.dsim_reg_start => true
  | Event.dsim_reg_exit_ulps_and_start _ => true
  | _ => false

/-- The calls of the link bring-up phase in a trace, in order. -/
def link_phase_calls (tr : List Event) : List Event := tr.filter is_link_phase_call

/-- The programming sequence as the specification words it: select the OSC clock, assert the
DPHY reset, software reset of the link, set the clocks, set the lanes, release the DPHY reset,
select the word clock, escape clock on the lanes, enable the word clock, link init (`r` is
what the link init returns). -/
def spec_link_programming (r : Int) : List Event :=
  [Event.dsim_reg_set_link_clock 0, Event.dsim_reg_dphy_resetn 1, Event.dsim_reg_sw_reset,
   Event.dsim_reg_set_clocks 1, Event.dsim_reg_set_lanes 1, Event.dsim_reg_dphy_resetn 0,
   Event.dsim_reg_set_link_clock 1, Event.dsim_reg_set_esc_clk_on_lane 1,
   Event.dsim_reg_enable_word_clock 1, Event.dsim_reg_init r]

/-- The words `a ≤ n < b` of the RX FIFO, in the order `dsim_reg_get_rx_fifo` returns them. -/
def rx_words (hw : Hw) (a b : Nat) : List Nat := (List.range' a (b - a)).map (rx_word hw)

/-- The size of the last data packet in a list of RX FIFO words, in the words of the statement
of what `dsim_read_data` returns.  The first `skip` words are payload of a long response and
are passed over.  Of the following words, a short response makes the size `cnt`, a long
response makes it the length it declares in bits 8 to 23 and is followed by the
`ceil(length / 4)` words of its payload, and any other word leaves the size as it is;
`rx_size` is the size before the first word. -/
def last_packet_size (cnt : Nat) : List Nat → Nat → Nat → Nat
  | [], _, rx_size => rx_size
  | _ :: ws, skip + 1, rx_size => last_packet_size cnt ws skip rx_size
  | w :: ws, 0, rx_size =>
    if w &&& 0xff = MIPI_DSI_RX_DCS_SHORT_READ_RESPONSE_1BYTE
        ∨ w &&& 0xff = MIPI_DSI_RX_DCS_SHORT_READ_RESPONSE_2BYTE
        ∨ w &&& 0xff = MIPI_DSI_RX_GENERIC_SHORT_READ_RESPONSE_1BYTE
        ∨ w &&& 0xff = MIPI_DSI_RX_GENERIC_SHORT_READ_RESPONSE_2BYTE then
      last_packet_size cnt ws 0 cnt
    else if w &&& 0xff = MIPI_DSI_RX_DCS_LONG_READ_RESPONSE
        ∨ w &&& 0xff = MIPI_DSI_RX_GENERIC_LONG_READ_RESPONSE then
      last_packet_size cnt ws ((((w &&& 0x00ffff00) >>> 8) + 3) / 4) ((w &&& 0x00ffff00) >>> 8)
    else last_packet_size cnt ws 0 rx_size

/-- An RX FIFO holding a DCS long response of 8 bytes (1 to 8) and, after it, a DCS short
response with the bytes 0xAA and 0xBB. -/
def rx_fifo_long8_short : Nat → Nat := fun n =>
  if n = 0 then 0x0000081C else if n = 1 then 0x04030201 else if n = 2 then 0x08070605
  else 0x00BBAA22

/-- Hardware as `hw_prompt` with the RX FIFO `rx_fifo_long8_short`, reported not empty after
the first packet and empty after the second. -/
def hw_two_packets : Hw :=
  { hw_prompt (fun _ => 0) rx_fifo_long8_short with
    rx_fifo_is_empty := fun n => decide (n ≠ 0) }

/-! # Properties -/

/-! ## Command channel: rejected writes -/

/-- C1: when `IS_DSIM_ON_STATE` does not hold of the device (the link is not ON),
`dsim_write_data` returns `-EINVAL`, a negative code, for every packet type, `d0` and `d1`, and
the device it leaves differs from the one it found only by the four calls
`decon_hiber_block_exit`, `mutex_lock`, `mutex_unlock`, `decon_hiber_unblock` in the trace:
no FIFO write, no interrupt clear, no completion reset, no timer arm, no hardware query, and
the link state and the timer are unchanged. -/
theorem dsim_write_data_not_ready (h : dsim_h) (hw : Hw) (id d0 d1 : Nat) (d : dsim_device)
    (hoff : h.IS_DSIM_ON_STATE d.state = false) :
    dsim_write_data h hw id d0 d1 d =
        some (-EINVAL, { d with trace := d.trace ++
          [Event.decon_hiber_block_exit, Event.mutex_lock, Event.mutex_unlock,
           Event.decon_hiber_unblock] })
      ∧ -EINVAL < 0 := by
  refine ⟨?_, by decide⟩
  simp [dsim_write_data, emit, hoff]

/-- C1, worked example: a DCS display-on write to a device in state OFF. -/
theorem dsim_write_data_not_ready_witness :
    dsim_h_plain.IS_DSIM_ON_STATE (dsim_device_fresh dsim_state.DSIM_STATE_OFF).state = false
      ∧ (dsim_write_data dsim_h_plain (hw_prompt (fun _ => 0) (fun _ => 0))
          MIPI_DSI_DCS_SHORT_WRITE MIPI_DCS_SET_DISPLAY_ON 0
          (dsim_device_fresh dsim_state.DSIM_STATE_OFF) =
        some (-EINVAL, { dsim_device_fresh dsim_state.DSIM_STATE_OFF with
          trace := (dsim_device_fresh dsim_state.DSIM_STATE_OFF).trace ++
            [Event.decon_hiber_block_exit, Event.mutex_lock, Event.mutex_unlock,
             Event.decon_hiber_unblock] })
        ∧ -EINVAL < 0) :=
  ⟨rfl, dsim_write_data_not_ready dsim_h_plain (hw_prompt (fun _ => 0) (fun _ => 0))
    MIPI_DSI_DCS_SHORT_WRITE MIPI_DCS_SET_DISPLAY_ON 0
    (dsim_device_fresh dsim_state.DSIM_STATE_OFF) rfl⟩

/-! ## Command channel: payload of a long write -/

theorem rd_u8_lt (hw : Hw) (a : Nat) : rd_u8 hw a < 256 := by
  unfold rd_u8; omega

theorem payload_byte_lt (hw : Hw) (d0 d1 i : Nat) : payload_byte hw d0 d1 i < 256 := by
  unfold payload_byte
  split
  · exact rd_u8_lt hw _
  · decide

theorem or_shift_bytes (b0 b1 b2 b3 : Nat) (h0 : b0 < 256) (h1 : b1 < 256) (h2 : b2 < 256) :
    b0 ||| b1 <<< 8 ||| b2 <<< 16 ||| b3 <<< 24
      = b0 + b1 * 256 + b2 * 65536 + b3 * 16777216 := by
  have e1 : b0 ||| b1 <<< 8 = b0 + b1 * 256 := by
    have := Nat.mul_add_lt_is_or (show b0 < 2 ^ 8 by omega) b1
    rw [Nat.shiftLeft_eq, Nat.lor_comm, Nat.mul_comm b1, ← this]; omega
  have e2 : (b0 + b1 * 256) ||| b2 <<< 16 = b0 + b1 * 256 + b2 * 65536 := by
    have := Nat.mul_add_lt_is_or (show b0 + b1 * 256 < 2 ^ 16 by omega) b2
    rw [Nat.shiftLeft_eq, Nat.lor_comm, Nat.mul_comm b2, ← this]; omega
  have e3 : (b0 + b1 * 256 + b2 * 65536) ||| b3 <<< 24
      = b0 + b1 * 256 + b2 * 65536 + b3 * 16777216 := by
    have := Nat.mul_add_lt_is_or (show b0 + b1 * 256 + b2 * 65536 < 2 ^ 24 by omega) b3
    rw [Nat.shiftLeft_eq, Nat.lor_comm, Nat.mul_comm b3, ← this]; omega
  rw [e1, e2, e3]

theorem or_shift_bytes3 (b0 b1 b2 : Nat) (h0 : b0 < 256) (h1 : b1 < 256) (h2 : b2 < 256) :
    b0 ||| b1 <<< 8 ||| b2 <<< 16 = b0 + b1 * 256 + b2 * 65536 := by
  have := or_shift_bytes b0 b1 b2 0 h0 h1 h2
  simpa using this

theorem or_shift_bytes2 (b0 b1 : Nat) (h0 : b0 < 256) (h1 : b1 < 256) :
    b0 ||| b1 <<< 8 = b0 + b1 * 256 := by
  have := or_shift_bytes3 b0 b1 0 h0 h1 (by decide)
  simpa using this

theorem le_bytes_payload_word (hw : Hw) (d0 d1 k : Nat) :
    le_bytes (payload_word hw d0 d1 k)
      = [payload_byte hw d0 d1 (4 * k), payload_byte hw d0 d1 (4 * k + 1),
         payload_byte hw d0 d1 (4 * k + 2), payload_byte hw d0 d1 (4 * k + 3)] := by
  have h0 := payload_byte_lt hw d0 d1 (4 * k)
  have h1 := payload_byte_lt hw d0 d1 (4 * k + 1)
  have h2 := payload_byte_lt hw d0 d1 (4 * k + 2)
  have h3 := payload_byte_lt hw d0 d1 (4 * k + 3)
  unfold le_bytes payload_word
  simp only [List.cons.injEq, and_true]
  omega

/-- One pass through the body of the loop of `dsim_long_data_wr` at chunk `k`. -/
theorem dsim_long_data_wr_loop_step (hw : Hw) (d0 d1 : Nat) (hlen : d1 ≤ 4294967292)
    (fuel k p : Nat) (d : dsim_device) (hk : 4 * k < d1) :
    dsim_long_data_wr_loop hw d0 d1 (fuel + 1) (4 * k) p d
      = dsim_long_data_wr_loop hw d0 d1 fuel (4 * (k + 1)) (payload_word hw d0 d1 k)
          (emit (Event.dsim_reg_wr_tx_payload (payload_word hw d0 d1 k)) d) := by
  have hsub : u32_sub d1 (4 * k) = d1 - 4 * k := by unfold u32_sub; omega
  have hnext : u32 (4 * k + 4) = 4 * (k + 1) := by unfold u32; omega
  have e1 : u32 (4 * k + 1) = 4 * k + 1 := by unfold u32; omega
  have e2 : u32 (4 * k + 2) = 4 * k + 2 := by unfold u32; omega
  have e3 : u32 (4 * k + 3) = 4 * k + 3 := by unfold u32; omega
  have b0 := rd_u8_lt hw (d0 + 4 * k)
  have b1 := rd_u8_lt hw (d0 + (4 * k + 1))
  have b2 := rd_u8_lt hw (d0 + (4 * k + 2))
  have b3 := rd_u8_lt hw (d0 + (4 * k + 3))
  rw [dsim_long_data_wr_loop]
  simp only [hk, if_true, hsub, hnext, e1, e2, e3]
  by_cases h4 : d1 - 4 * k < 4
  · simp only [h4, if_true]
    by_cases c3 : d1 - 4 * k = 3
    · have hw3 : payload_word hw d0 d1 k
          = u32 (rd_u8 hw (d0 + 4 * k) ||| rd_u8 hw (d0 + (4 * k + 1)) <<< 8
              ||| rd_u8 hw (d0 + (4 * k + 2)) <<< 16) := by
        rw [or_shift_bytes3 _ _ _ b0 b1 b2]
        unfold payload_word payload_byte u32
        rw [if_pos (by omega), if_pos (by omega), if_pos (by omega), if_neg (by omega)]
        omega
      rw [hw3]; simp [c3]
    · by_cases c2 : d1 - 4 * k = 2
      · have hw2 : payload_word hw d0 d1 k
            = u32 (rd_u8 hw (d0 + 4 * k) ||| rd_u8 hw (d0 + (4 * k + 1)) <<< 8) := by
          rw [or_shift_bytes2 _ _ b0 b1]
          unfold payload_word payload_byte u32
          rw [if_pos (by omega), if_pos (by omega), if_neg (by omega), if_neg (by omega)]
          omega
        rw [hw2]; simp [c2]
      · have c1 : d1 - 4 * k = 1 := by omega
        have hw1 : payload_word hw d0 d1 k = rd_u8 hw (d0 + 4 * k) := by
          unfold payload_word payload_byte
          rw [if_pos (by omega), if_neg (by omega), if_neg (by omega), if_neg (by omega)]
          omega
        rw [hw1]; simp [c1]
  · have hw4 : payload_word hw d0 d1 k
        = u32 (rd_u8 hw (d0 + 4 * k) ||| rd_u8 hw (d0 + (4 * k + 1)) <<< 8
            ||| rd_u8 hw (d0 + (4 * k + 2)) <<< 16 ||| rd_u8 hw (d0 + (4 * k + 3)) <<< 24) := by
      rw [or_shift_bytes _ _ _ _ b0 b1 b2]
      unfold payload_word payload_byte u32
      rw [if_pos (by omega), if_pos (by omega), if_pos (by omega), if_pos (by omega)]
      omega
    rw [hw4]; simp [h4]

/-- The loop of `dsim_long_data_wr` from chunk `k` on, when `m` chunks remain. -/
theorem dsim_long_data_wr_loop_run (hw : Hw) (d0 d1 : Nat) (hlen : d1 ≤ 4294967292) :
    ∀ (m k fuel p : Nat) (d : dsim_device), k + m = (d1 + 3) / 4 → m < fuel →
      dsim_long_data_wr_loop hw d0 d1 fuel (4 * k) p d
        = some { d with trace := d.trace ++
            ((List.range' k m).map (payload_word hw d0 d1)).map Event.dsim_reg_wr_tx_payload } := by
  intro m
  induction m with
  | zero =>
    intro k fuel p d hk hf
    obtain ⟨f, rfl⟩ : ∃ f, fuel = f + 1 := ⟨fuel - 1, by omega⟩
    have hge : ¬ 4 * k < d1 := by omega
    rw [dsim_long_data_wr_loop]
    simp [hge]
  | succ m ih =>
    intro k fuel p d hk hf
    obtain ⟨f, rfl⟩ : ∃ f, fuel = f + 1 := ⟨fuel - 1, by omega⟩
    have hlt : 4 * k < d1 := by omega
    rw [dsim_long_data_wr_loop_step hw d0 d1 hlen f k p d hlt,
      ih (k + 1) f _ _ (by omega) (by omega)]
    simp [emit, List.range'_succ]

theorem flatMap_le_bytes_payload (hw : Hw) (d0 d1 : Nat) (n : Nat) :
    (List.map (payload_word hw d0 d1) (List.range n)).flatMap le_bytes
      = (List.range (4 * n)).map (payload_byte hw d0 d1) := by
  induction n with
  | zero => rfl
  | succ n ih =>
    have e : 4 * (n + 1) = ((((4 * n).succ).succ).succ).succ := by omega
    rw [List.range_succ, List.map_append, List.flatMap_append, ih, e]
    simp only [List.range_succ, List.map_append, List.map_cons, List.map_nil,
      List.flatMap_cons, List.flatMap_nil, List.append_nil, le_bytes_payload_word,
      List.append_assoc, List.cons_append, List.nil_append, Nat.succ_eq_add_one]

theorem map_payload_byte_range (hw : Hw) (d0 d1 : Nat) (n : Nat) (hn : d1 ≤ n) :
    (List.range n).map (payload_byte hw d0 d1)
      = (List.range d1).map (fun i => rd_u8 hw (d0 + i)) ++ List.replicate (n - d1) 0 := by
  obtain ⟨r, rfl⟩ : ∃ r, n = d1 + r := ⟨n - d1, by omega⟩
  rw [List.range_add, List.map_append]
  congr 1
  · apply List.map_congr_left
    intro i hi
    simp [payload_byte, List.mem_range.mp hi]
  · rw [List.eq_replicate_iff]
    constructor
    · simp
    · intro b hb
      simp only [List.map_map, List.mem_map, List.mem_range, Function.comp] at hb
      obtain ⟨a, _, rfl⟩ := hb
      simp [payload_byte]

/-- C2, as amended: for every payload of `d1` bytes at `d0` with `d1 ≤ 2^32 - 4`,
`dsim_long_data_wr` returns after writing exactly `ceil(d1 / 4)` words to the TX payload
FIFO and nothing else; each word is a 32-bit value; the bytes of the words, low byte first
and in emission order, are the `d1` payload bytes followed by zeros only. -/
theorem dsim_long_data_wr_chunks (hw : Hw) (d0 d1 : Nat) (d : dsim_device)
    (hlen : d1 ≤ 4294967292) :
    ∃ ws : List Nat,
      dsim_long_data_wr hw d0 d1 d
          = some { d with trace := d.trace ++ ws.map Event.dsim_reg_wr_tx_payload }
        ∧ ws.length = (d1 + 3) / 4
        ∧ (∀ w ∈ ws, w < 4294967296)
        ∧ (ws.flatMap le_bytes).take d1 = (List.range d1).map (fun i => rd_u8 hw (d0 + i))
        ∧ (ws.flatMap le_bytes).drop d1 = List.replicate (4 * ((d1 + 3) / 4) - d1) 0 := by
  refine ⟨(List.range ((d1 + 3) / 4)).map (payload_word hw d0 d1), ?_, by simp, ?_, ?_, ?_⟩
  · have := dsim_long_data_wr_loop_run hw d0 d1 hlen ((d1 + 3) / 4) 0 1073741825 0 d
      (by omega) (by omega)
    simpa [dsim_long_data_wr, List.range_eq_range'] using this
  · intro w hw'
    simp only [List.mem_map, List.mem_range] at hw'
    obtain ⟨k, _, rfl⟩ := hw'
    have h0 := payload_byte_lt hw d0 d1 (4 * k)
    have h1 := payload_byte_lt hw d0 d1 (4 * k + 1)
    have h2 := payload_byte_lt hw d0 d1 (4 * k + 2)
    have h3 := payload_byte_lt hw d0 d1 (4 * k + 3)
    unfold payload_word
    omega
  · rw [flatMap_le_bytes_payload, map_payload_byte_range hw d0 d1 _ (by omega)]
    exact List.take_left' (by simp)
  · rw [flatMap_le_bytes_payload, map_payload_byte_range hw d0 d1 _ (by omega)]
    exact List.drop_left' (by simp)

/-- C2, worked example: a payload of 5 bytes 1, 2, 3, 4, 5 goes out as the two words
0x04030201 and 0x00000005. -/
theorem dsim_long_data_wr_chunks_witness :
    (5 : Nat) ≤ 4294967292 ∧
    ∃ ws : List Nat,
      dsim_long_data_wr (hw_prompt (fun a => a + 1) (fun _ => 0)) 0 5
          (dsim_device_fresh dsim_state.DSIM_STATE_ON)
          = some { dsim_device_fresh dsim_state.DSIM_STATE_ON with
              trace := (dsim_device_fresh dsim_state.DSIM_STATE_ON).trace
                ++ ws.map Event.dsim_reg_wr_tx_payload }
        ∧ ws.length = (5 + 3) / 4
        ∧ (∀ w ∈ ws, w < 4294967296)
        ∧ (ws.flatMap le_bytes).take 5
            = (List.range 5).map
                (fun i => rd_u8 (hw_prompt (fun a => a + 1) (fun _ => 0)) (0 + i))
        ∧ (ws.flatMap le_bytes).drop 5 = List.replicate (4 * ((5 + 3) / 4) - 5) 0 :=
  ⟨by decide, dsim_long_data_wr_chunks (hw_prompt (fun a => a + 1) (fun _ => 0)) 0 5
    (dsim_device_fresh dsim_state.DSIM_STATE_ON) (by decide)⟩

/-- While the byte counter is a multiple of 4 the loop of `dsim_long_data_wr` for a payload of
2^32 - 1 bytes does not end: the counter wraps from 2^32 - 4 to 0 and is below `d1` again. -/
theorem dsim_long_data_wr_loop_wraps (hw : Hw) (d0 : Nat) :
    ∀ (fuel c p : Nat) (d : dsim_device), c % 4 = 0 → c < 4294967296 →
      dsim_long_data_wr_loop hw d0 4294967295 fuel c p d = none := by
  intro fuel
  induction fuel with
  | zero => intro c p d _ _; rfl
  | succ f ih =>
    intro c p d hc hlt
    have hc' : c < 4294967295 := by omega
    have hn4 : u32 (c + 4) % 4 = 0 := by unfold u32; omega
    have hnlt : u32 (c + 4) < 4294967296 := by unfold u32; omega
    rw [dsim_long_data_wr_loop]
    simp only [hc', if_true]
    split <;> exact ih _ _ _ hn4 hnlt

/-- C2, counterexample: for a payload of 2^32 - 1 bytes `dsim_long_data_wr` does not return,
however many iterations the loop is given; it does not stop after `ceil(d1 / 4)` words. -/
theorem dsim_long_data_wr_chunks_counterexample :
    dsim_long_data_wr (hw_prompt (fun _ => 0) (fun _ => 0)) 0 4294967295
        (dsim_device_fresh dsim_state.DSIM_STATE_ON) = none
      ∧ ∀ fuel : Nat,
          dsim_long_data_wr_loop (hw_prompt (fun _ => 0) (fun _ => 0)) 0 4294967295 fuel 0 0
            (dsim_device_fresh dsim_state.DSIM_STATE_ON) = none :=
  ⟨dsim_long_data_wr_loop_wraps _ 0 _ 0 0 _ (by decide) (by decide),
   fun fuel => dsim_long_data_wr_loop_wraps _ 0 fuel 0 0 _ (by decide) (by decide)⟩

/-! ## Command channel: packet types outside the switch -/

/-- C6 (what the code does): in a state that `IS_DSIM_ON_STATE` accepts, `dsim_write_data` with
a packet type outside the three groups of the switch does not return `-EINVAL`.  The value
the `default` case stores in `ret` is overwritten by the result of
`dsim_wait_for_cmd_fifo_empty(dsim, true)`: the call returns 0 when the header-empty
completion fires or when, after the timeout, the header FIFO is reported empty, and
`-ETIMEDOUT` otherwise. -/
theorem dsim_write_data_unsupported (h : dsim_h) (hw : Hw) (id d0 d1 : Nat) (d : dsim_device)
    (hon : h.IS_DSIM_ON_STATE d.state = true)
    (hs : id ∉ short_write_ids) (hr : id ∉ read_request_ids) (hl : id ∉ long_write_ids) :
    ∃ (r : Int) (d' : dsim_device),
      dsim_write_data h hw id d0 d1 d = some (r, d')
        ∧ r ≠ -EINVAL
        ∧ (hw.ph_wr_comp d.n_ph_wr_comp = true
            ∨ hw.header_fifo_is_empty d.n_header_fifo_is_empty = true → r = 0)
        ∧ (hw.ph_wr_comp d.n_ph_wr_comp = false
            ∧ hw.header_fifo_is_empty d.n_header_fifo_is_empty = false → r = -ETIMEDOUT) := by
  cases hc : hw.ph_wr_comp d.n_ph_wr_comp <;>
    cases he : hw.header_fifo_is_empty d.n_header_fifo_is_empty <;>
    simp [dsim_write_data, dsim_write_data_switch, dsim_wait_for_cmd_fifo_empty,
      dsim_wait_for_cmd_fifo_empty_ret, wait_for_completion_ph_wr_comp,
      dsim_reg_header_fifo_is_empty, del_timer, mod_timer, dsim_dump_sfr, emit, hon, hs, hr, hl,
      hc, he, EINVAL, ETIMEDOUT]

/-- C6, worked example: packet type 0xFF written to a device in state ON whose header-empty
completion fires. -/
theorem dsim_write_data_unsupported_witness :
    ∃ (r : Int) (d' : dsim_device),
      dsim_write_data dsim_h_plain (hw_prompt (fun _ => 0) (fun _ => 0)) 0xFF 0 0
          (dsim_device_fresh dsim_state.DSIM_STATE_ON) = some (r, d')
        ∧ r ≠ -EINVAL
        ∧ ((hw_prompt (fun _ => 0) (fun _ => 0)).ph_wr_comp
              (dsim_device_fresh dsim_state.DSIM_STATE_ON).n_ph_wr_comp = true
            ∨ (hw_prompt (fun _ => 0) (fun _ => 0)).header_fifo_is_empty
              (dsim_device_fresh dsim_state.DSIM_STATE_ON).n_header_fifo_is_empty = true
            → r = 0)
        ∧ ((hw_prompt (fun _ => 0) (fun _ => 0)).ph_wr_comp
              (dsim_device_fresh dsim_state.DSIM_STATE_ON).n_ph_wr_comp = false
            ∧ (hw_prompt (fun _ => 0) (fun _ => 0)).header_fifo_is_empty
              (dsim_device_fresh dsim_state.DSIM_STATE_ON).n_header_fifo_is_empty = false
            → r = -ETIMEDOUT) :=
  dsim_write_data_unsupported dsim_h_plain (hw_prompt (fun _ => 0) (fun _ => 0)) 0xFF 0 0
    (dsim_device_fresh dsim_state.DSIM_STATE_ON) rfl (by decide) (by decide) (by decide)

/-! ## Link state machine: low-power entry and exit from the wrong state -/

/-- C7 (what the code does): in every state other than ULPS `dsim_exit_ulps` leaves the device
as it found it and returns 0, not a negative code: the `-EBUSY` it stores in `ret` is dropped
by the `return 0;` at the label `err`. -/
theorem dsim_exit_ulps_wrong_state (cfg : Kconfig) (hw : Hw) (d : dsim_device)
    (hst : d.state ≠ dsim_state.DSIM_STATE_ULPS) :
    dsim_exit_ulps cfg hw d = (0, d) := by
  simp [dsim_exit_ulps, hst]

/-- C7, worked example: `dsim_exit_ulps` on a device in state OFF. -/
theorem dsim_exit_ulps_wrong_state_witness :
    (dsim_device_fresh dsim_state.DSIM_STATE_OFF).state ≠ dsim_state.DSIM_STATE_ULPS
      ∧ dsim_exit_ulps kconfig_9810 (hw_prompt (fun _ => 0) (fun _ => 0))
          (dsim_device_fresh dsim_state.DSIM_STATE_OFF)
        = (0, dsim_device_fresh dsim_state.DSIM_STATE_OFF) :=
  ⟨by decide, dsim_exit_ulps_wrong_state kconfig_9810 (hw_prompt (fun _ => 0) (fun _ => 0))
    (dsim_device_fresh dsim_state.DSIM_STATE_OFF) (by decide)⟩

/-- C8: when `IS_DSIM_ON_STATE` does not hold of the device (the link is not ON),
`dsim_enter_ulps` returns `-EBUSY`, a negative code, and leaves the device exactly as it found
it: the link state is unchanged and the trace gains no call at all, so no interrupt-mask
write, no `disable_irq`, no stop-and-enter-ULPS, no PHY power-off and no clock suspend. -/
theorem dsim_enter_ulps_wrong_state (cfg : Kconfig) (h : dsim_h) (hw : Hw) (d : dsim_device)
    (hoff : h.IS_DSIM_ON_STATE d.state = false) :
    dsim_enter_ulps cfg h hw d = (-EBUSY, d) ∧ -EBUSY < 0 := by
  refine ⟨?_, by decide⟩
  simp [dsim_enter_ulps, hoff]

/-- C8, worked example: `dsim_enter_ulps` on a device in state OFF. -/
theorem dsim_enter_ulps_wrong_state_witness :
    dsim_h_plain.IS_DSIM_ON_STATE (dsim_device_fresh dsim_state.DSIM_STATE_OFF).state = false
      ∧ (dsim_enter_ulps kconfig_9810 dsim_h_plain (hw_prompt (fun _ => 0) (fun _ => 0))
          (dsim_device_fresh dsim_state.DSIM_STATE_OFF)
          = (-EBUSY, dsim_device_fresh dsim_state.DSIM_STATE_OFF)
        ∧ -EBUSY < 0) :=
  ⟨rfl, dsim_enter_ulps_wrong_state kconfig_9810 dsim_h_plain
    (hw_prompt (fun _ => 0) (fun _ => 0)) (dsim_device_fresh dsim_state.DSIM_STATE_OFF) rfl⟩

/-! ## Link state machine: enable after the bootloader -/

/-- C9: in state INIT (which `IS_DSIM_ON_STATE` does not accept) with the PLL reported stable,
`dsim_enable` returns 0, sets the state to ON and makes exactly these calls, in this order:
the clock-domain resume, `dpu_sysreg_set_dphy`, `phy_power_on`, `dsim_phy_status`, the PLL
query, `dsim_reg_start` once and `enable_irq` once, with the store of the state between the
last two.  None of the bring-up calls (DPHY reset,
panel power, software reset, clocks, lanes, link clock, escape clock, word clock,
`dsim_reg_init`, panel reset) and no panel callback is made. -/
theorem dsim_enable_bootloader (cfg : Kconfig) (h : dsim_h) (hw : Hw) (d : dsim_device)
    (hinit : d.state = dsim_state.DSIM_STATE_INIT)
    (hnon : h.IS_DSIM_ON_STATE dsim_state.DSIM_STATE_INIT = false)
    (hpll : hw.is_pll_stable d.n_is_pll_stable = true) :
    dsim_enable cfg h hw d =
      (0, { d with
        state := dsim_state.DSIM_STATE_ON
        n_is_pll_stable := d.n_is_pll_stable + 1
        trace := d.trace ++
          [if cfg.EXYNOS_PD then Event.pm_runtime_get_sync else Event.dsim_runtime_resume,
           Event.dpu_sysreg_set_dphy, Event.phy_power_on, Event.dsim_phy_status,
           Event.dsim_reg_is_pll_stable true, Event.dsim_reg_start,
           Event.state_store dsim_state.DSIM_STATE_ON, Event.enable_irq] }) := by
  cases hpd : cfg.EXYNOS_PD <;>
    simp [dsim_enable, _dsim_enable, dsim_enable_init_end, dsim_reg_is_pll_stable,
      dsim_power_get, state_store, emit, hinit, hnon, hpll, hpd]

/-- C9, worked example: the first `dsim_enable` after probe on an Exynos 9810 build. -/
theorem dsim_enable_bootloader_witness :
    (dsim_device_fresh dsim_state.DSIM_STATE_INIT).state = dsim_state.DSIM_STATE_INIT
      ∧ dsim_h_plain.IS_DSIM_ON_STATE dsim_state.DSIM_STATE_INIT = false
      ∧ (hw_prompt (fun _ => 0) (fun _ => 0)).is_pll_stable
          (dsim_device_fresh dsim_state.DSIM_STATE_INIT).n_is_pll_stable = true
      ∧ dsim_enable kconfig_9810 dsim_h_plain (hw_prompt (fun _ => 0) (fun _ => 0))
          (dsim_device_fresh dsim_state.DSIM_STATE_INIT) =
        (0, { dsim_device_fresh dsim_state.DSIM_STATE_INIT with
          state := dsim_state.DSIM_STATE_ON
          n_is_pll_stable := (dsim_device_fresh dsim_state.DSIM_STATE_INIT).n_is_pll_stable + 1
          trace := (dsim_device_fresh dsim_state.DSIM_STATE_INIT).trace ++
            [if kconfig_9810.EXYNOS_PD then Event.pm_runtime_get_sync
              else Event.dsim_runtime_resume,
             Event.dpu_sysreg_set_dphy, Event.phy_power_on, Event.dsim_phy_status,
             Event.dsim_reg_is_pll_stable true, Event.dsim_reg_start,
             Event.state_store dsim_state.DSIM_STATE_ON, Event.enable_irq] }) :=
  ⟨rfl, rfl, rfl, dsim_enable_bootloader kconfig_9810 dsim_h_plain
    (hw_prompt (fun _ => 0) (fun _ => 0)) (dsim_device_fresh dsim_state.DSIM_STATE_INIT)
    rfl rfl rfl⟩

/-! ## Link state machine: requests for the current state -/

/-- C10: a transition requested in its own target state changes nothing.  `dsim_enable` in ON,
`dsim_disable` in OFF, `dsim_enter_ulps` in ULPS (a state `IS_DSIM_ON_STATE` does not accept)
and `dsim_exit_ulps` in ON each return the device exactly as they found it: same link state,
same timer, and a trace with no new call, hence no hardware and no panel-callback access. -/
theorem dsim_transition_same_state (cfg : Kconfig) (h : dsim_h) (hw : Hw) (d : dsim_device)
    (hulps : h.IS_DSIM_ON_STATE dsim_state.DSIM_STATE_ULPS = false) :
    dsim_enable cfg h hw { d with state := dsim_state.DSIM_STATE_ON }
        = (0, { d with state := dsim_state.DSIM_STATE_ON })
      ∧ dsim_disable cfg h { d with state := dsim_state.DSIM_STATE_OFF }
        = (0, { d with state := dsim_state.DSIM_STATE_OFF })
      ∧ (dsim_enter_ulps cfg h hw { d with state := dsim_state.DSIM_STATE_ULPS }).2
        = { d with state := dsim_state.DSIM_STATE_ULPS }
      ∧ (dsim_exit_ulps cfg hw { d with state := dsim_state.DSIM_STATE_ON }).2
        = { d with state := dsim_state.DSIM_STATE_ON } := by
  refine ⟨?_, ?_, ?_, ?_⟩
  · simp [dsim_enable]
  · simp [dsim_disable]
  · simp [dsim_enter_ulps, hulps]
  · simp [dsim_exit_ulps]

/-- C10, worked example on a fresh device and an Exynos 9810 build. -/
theorem dsim_transition_same_state_witness :
    dsim_h_plain.IS_DSIM_ON_STATE dsim_state.DSIM_STATE_ULPS = false
      ∧ dsim_enable kconfig_9810 dsim_h_plain (hw_prompt (fun _ => 0) (fun _ => 0))
          { dsim_device_fresh dsim_state.DSIM_STATE_INIT with state := dsim_state.DSIM_STATE_ON }
        = (0, { dsim_device_fresh dsim_state.DSIM_STATE_INIT with
                  state := dsim_state.DSIM_STATE_ON })
      ∧ dsim_disable kconfig_9810 dsim_h_plain
          { dsim_device_fresh dsim_state.DSIM_STATE_INIT with state := dsim_state.DSIM_STATE_OFF }
        = (0, { dsim_device_fresh dsim_state.DSIM_STATE_INIT with
                  state := dsim_state.DSIM_STATE_OFF })
      ∧ (dsim_enter_ulps kconfig_9810 dsim_h_plain (hw_prompt (fun _ => 0) (fun _ => 0))
          { dsim_device_fresh dsim_state.DSIM_STATE_INIT with
              state := dsim_state.DSIM_STATE_ULPS }).2
        = { dsim_device_fresh dsim_state.DSIM_STATE_INIT with
              state := dsim_state.DSIM_STATE_ULPS }
      ∧ (dsim_exit_ulps kconfig_9810 (hw_prompt (fun _ => 0) (fun _ => 0))
          { dsim_device_fresh dsim_state.DSIM_STATE_INIT with
              state := dsim_state.DSIM_STATE_ON }).2
        = { dsim_device_fresh dsim_state.DSIM_STATE_INIT with
              state := dsim_state.DSIM_STATE_ON } :=
  ⟨rfl, dsim_transition_same_state kconfig_9810 dsim_h_plain
    (hw_prompt (fun _ => 0) (fun _ => 0)) (dsim_device_fresh dsim_state.DSIM_STATE_INIT) rfl⟩

/-! ## Command channel: what a write leaves alone -/

theorem cmd_frame_refl (d : dsim_device) : cmd_frame d d :=
  ⟨rfl, rfl, rfl, rfl, rfl, [], by simp, by simp⟩

theorem cmd_frame_trans {a b c : dsim_device} (hab : cmd_frame a b) (hbc : cmd_frame b c) :
    cmd_frame a c := by
  obtain ⟨s1, b1, x1, r1, e1, evs1, t1, n1⟩ := hab
  obtain ⟨s2, b2, x2, r2, e2, evs2, t2, n2⟩ := hbc
  refine ⟨s2.trans s1, b2.trans b1, x2.trans x1, r2.trans r1, e2.trans e1, evs1 ++ evs2, ?_, ?_⟩
  · rw [t2, t1, List.append_assoc]
  · intro i v hm
    rcases List.mem_append.mp hm with hm | hm
    · exact n1 i v hm
    · exact n2 i v hm

theorem cmd_frame_emit (e : Event) (d : dsim_device) (he : ∀ i v, e ≠ Event.buf_store i v) :
    cmd_frame d (emit e d) := by
  refine ⟨rfl, rfl, rfl, rfl, rfl, [e], rfl, ?_⟩
  intro i v hm
  exact he i v (List.mem_singleton.mp hm).symm

theorem cmd_frame_del_timer (d : dsim_device) : cmd_frame d (del_timer d) :=
  ⟨rfl, rfl, rfl, rfl, rfl, [Event.del_timer], rfl, by simp⟩

theorem cmd_frame_mod_timer (d : dsim_device) : cmd_frame d (mod_timer d) :=
  ⟨rfl, rfl, rfl, rfl, rfl, [Event.mod_timer], rfl, by simp⟩

theorem cmd_frame_header_fifo_is_empty (hw : Hw) (d : dsim_device) :
    cmd_frame d (dsim_reg_header_fifo_is_empty hw d).2 :=
  ⟨rfl, rfl, rfl, rfl, rfl, [Event.dsim_reg_header_fifo_is_empty _], rfl, by simp⟩

theorem cmd_frame_wait_ph_wr_comp (hw : Hw) (d : dsim_device) :
    cmd_frame d (wait_for_completion_ph_wr_comp hw d).2 :=
  ⟨rfl, rfl, rfl, rfl, rfl, [Event.wait_for_completion_ph_wr_comp _], rfl, by simp⟩

theorem cmd_frame_wait_ret (h : dsim_h) (ret : Int) (d : dsim_device) :
    cmd_frame d (dsim_wait_for_cmd_fifo_empty_ret h ret d).2 := by
  unfold dsim_wait_for_cmd_fifo_empty_ret
  split
  · exact cmd_frame_emit _ _ (by simp)
  · exact cmd_frame_refl d

theorem cmd_frame_wait (h : dsim_h) (hw : Hw) (must_wait : Bool) (d : dsim_device) :
    cmd_frame d (dsim_wait_for_cmd_fifo_empty h hw must_wait d).2 := by
  unfold dsim_wait_for_cmd_fifo_empty
  dsimp only
  split
  · split
    · exact cmd_frame_trans (cmd_frame_header_fifo_is_empty hw d) (cmd_frame_del_timer _)
    · exact cmd_frame_header_fifo_is_empty hw d
  · have h1 := cmd_frame_trans (cmd_frame_del_timer d) (cmd_frame_wait_ph_wr_comp hw (del_timer d))
    split
    · have h2 := cmd_frame_trans h1 (cmd_frame_header_fifo_is_empty hw _)
      split
      · exact cmd_frame_trans h2 (cmd_frame_trans (cmd_frame_emit _ _ (by simp))
          (cmd_frame_emit _ _ (by simp)))
      · exact cmd_frame_trans h2 (cmd_frame_wait_ret h _ _)
    · exact cmd_frame_trans h1 (cmd_frame_wait_ret h _ _)

theorem cmd_frame_fifo_empty_needed (hw : Hw) (data_id data0 : Nat) (d : dsim_device) :
    cmd_frame d (dsim_fifo_empty_needed hw data_id data0 d).2 := by
  unfold dsim_fifo_empty_needed
  dsimp only
  split
  · exact cmd_frame_refl d
  · have hq : cmd_frame d (dsim_reg_is_writable_fifo_state hw d).2 :=
      ⟨rfl, rfl, rfl, rfl, rfl, [Event.dsim_reg_is_writable_fifo_state _], rfl, by simp⟩
    split <;> exact hq

theorem dsim_long_data_wr_zero (hw : Hw) (d0 : Nat) (d : dsim_device) :
    dsim_long_data_wr hw d0 0 d = some d := by
  simp [dsim_long_data_wr, dsim_long_data_wr_loop]

/-- A write without payload (`d1 = 0`) returns, and leaves the RX side alone. -/
theorem dsim_write_data_frame (h : dsim_h) (hw : Hw) (id d0 : Nat) (d : dsim_device) :
    ∃ (r : Int) (d' : dsim_device),
      dsim_write_data h hw id d0 0 d = some (r, d') ∧ cmd_frame d d' := by
  have ha : cmd_frame d (emit Event.mutex_lock (emit Event.decon_hiber_block_exit d)) :=
    cmd_frame_trans (cmd_frame_emit _ _ (by simp)) (cmd_frame_emit _ _ (by simp))
  unfold dsim_write_data
  simp only []
  split
  · exact ⟨_, _, rfl, cmd_frame_trans ha
      (cmd_frame_trans (cmd_frame_emit _ _ (by simp)) (cmd_frame_emit _ _ (by simp)))⟩
  · have hb := cmd_frame_trans ha (cmd_frame_trans (cmd_frame_trans
      (cmd_frame_emit Event.reinit_completion_ph_wr_comp _ (by simp))
      (cmd_frame_emit (Event.dsim_reg_clear_int intsrc.DSIM_INTSRC_SFR_PH_FIFO_EMPTY) _
        (by simp))) (cmd_frame_mod_timer _))
    have hsw : ∃ sw, dsim_write_data_switch hw id d0 0
        (mod_timer (emit (Event.dsim_reg_clear_int intsrc.DSIM_INTSRC_SFR_PH_FIFO_EMPTY)
          (emit Event.reinit_completion_ph_wr_comp
            (emit Event.mutex_lock (emit Event.decon_hiber_block_exit d))))) = some sw
        ∧ cmd_frame d sw.2.2 := by
      unfold dsim_write_data_switch
      dsimp only
      split
      · exact ⟨_, rfl, cmd_frame_trans hb (cmd_frame_trans (cmd_frame_emit _ _ (by simp))
          (cmd_frame_fifo_empty_needed hw _ _ _))⟩
      · split
        · exact ⟨_, rfl, cmd_frame_trans hb (cmd_frame_trans (cmd_frame_emit _ _ (by simp))
            (cmd_frame_fifo_empty_needed hw _ _ _))⟩
        · split
          · rw [dsim_long_data_wr_zero]
            exact ⟨_, rfl, cmd_frame_trans hb (cmd_frame_trans (cmd_frame_emit _ _ (by simp))
              (cmd_frame_fifo_empty_needed hw _ _ _))⟩
          · exact ⟨_, rfl, hb⟩
    obtain ⟨sw, hsw, hf⟩ := hsw
    rw [hsw]
    exact ⟨_, _, rfl, cmd_frame_trans hf (cmd_frame_trans (cmd_frame_wait h hw _ _)
      (cmd_frame_trans (cmd_frame_emit _ _ (by simp)) (cmd_frame_emit _ _ (by simp))))⟩

/-! ## Command channel: stores of the RX drain -/

theorem rx_byte_eq (w j : Nat) : ((w >>> (j * 8)) % 256) &&& 0xff = le_byte w j := by
  have h := Nat.and_pow_two_sub_one_eq_mod (w / 2 ^ (j * 8) % 256) 8
  norm_num at h
  rw [Nat.shiftRight_eq_div_pow, h, le_byte, Nat.mul_comm j 8, pow_mul]
  norm_num

theorem foldl_buf_store (g f : Nat → Nat) (l : List Nat) (d : dsim_device) :
    l.foldl (fun acc j => buf_store (g j) (f j) acc) d
      = { d with
          buf := l.foldl (fun b j => fun k => if k = g j then f j else b k) d.buf
          trace := d.trace ++ l.map (fun j => Event.buf_store (g j) (f j)) } := by
  induction l generalizing d with
  | nil => simp
  | cons a l ih =>
    simp only [List.foldl_cons, List.map_cons]
    rw [ih]
    simp [buf_store, emit]

theorem foldl_buf_fun (base : Nat) (f : Nat → Nat) (n : Nat) (b : Nat → Nat) (k : Nat) :
    (List.range n).foldl (fun b j => fun k => if k = base + j then f j else b k) b k
      = if base ≤ k ∧ k < base + n then f (k - base) else b k := by
  induction n with
  | zero =>
    have hn : ¬ (base ≤ k ∧ k < base + 0) := by omega
    simp only [List.range_zero, List.foldl_nil]
    rw [if_neg hn]
  | succ n ih =>
    rw [List.range_succ, List.foldl_append]
    simp only [List.foldl_cons, List.foldl_nil]
    by_cases hk : k = base + n
    · subst hk; simp
    · rw [if_neg hk, ih]
      by_cases hc : base ≤ k ∧ k < base + n
      · have hc' : base ≤ k ∧ k < base + (n + 1) := by clear ih; omega
        rw [if_pos hc, if_pos hc']
      · have hc' : ¬ (base ≤ k ∧ k < base + (n + 1)) := by clear ih; omega
        rw [if_neg hc, if_neg hc']

/-- One payload word of a long response: `n` bytes stored from index `4 * i`. -/
theorem rx_long_word_post (hw : Hw) (i n : Nat) (d : dsim_device) :
    (rx_long_word hw i n d).n_rx_fifo = d.n_rx_fifo + 1
      ∧ (rx_long_word hw i n d).n_rx_fifo_is_empty = d.n_rx_fifo_is_empty
      ∧ (rx_long_word hw i n d).state = d.state
      ∧ (∀ k, (rx_long_word hw i n d).buf k
          = if i * 4 ≤ k ∧ k < i * 4 + n then le_byte (rx_word hw d.n_rx_fifo) (k - i * 4)
            else d.buf k)
      ∧ ∃ evs : List Event, (rx_long_word hw i n d).trace = d.trace ++ evs
          ∧ ∀ j v, Event.buf_store j v ∈ evs → j < i * 4 + n := by
  unfold rx_long_word
  dsimp only
  simp only [rx_byte_eq]
  rw [foldl_buf_store (fun j => i * 4 + j)]
  refine ⟨rfl, rfl, rfl, ?_, ?_⟩
  · intro k
    exact foldl_buf_fun (i * 4) _ n _ k
  · refine ⟨Event.dsim_reg_get_rx_fifo (rx_word hw d.n_rx_fifo)
        :: (List.range n).map (fun j => Event.buf_store (i * 4 + j)
            (le_byte (rx_word hw d.n_rx_fifo) j)), ?_, ?_⟩
    · simp [dsim_reg_get_rx_fifo, emit, rx_word]
    · intro j v hm
      simp only [List.mem_cons, List.mem_map, List.mem_range, Event.buf_store.injEq,
        reduceCtorEq, false_or] at hm
      obtain ⟨a, ha, rfl, _⟩ := hm
      omega

theorem rx_post_full_words (hw : Hw) (q : Nat) (d : dsim_device) :
    rx_post hw q (4 * q) d
      ((List.range q).foldl (fun acc i => rx_long_word hw i 4 acc) d) := by
  induction q with
  | zero =>
    refine ⟨rfl, rfl, rfl, ?_, [], by simp, by simp⟩
    intro k; simp
  | succ q ih =>
    rw [List.range_succ, List.foldl_append]
    simp only [List.foldl_cons, List.foldl_nil]
    obtain ⟨a1, a2, a3, a4, evs, a5, a6⟩ := ih
    obtain ⟨b1, b2, b3, b4, evs', b5, b6⟩ := rx_long_word_post hw q 4
      ((List.range q).foldl (fun acc i => rx_long_word hw i 4 acc) d)
    refine ⟨by rw [b1, a1]; omega, b2.trans a2, b3.trans a3, ?_, evs ++ evs', ?_, ?_⟩
    · intro k
      rw [b4, a4, a1]
      by_cases hk : q * 4 ≤ k ∧ k < q * 4 + 4
      · have e1 : k / 4 = q := by omega
        have e2 : k - q * 4 = k % 4 := by omega
        rw [if_pos hk, if_pos (by omega), e1, e2]
      · rw [if_neg hk]
        by_cases hlt : k < 4 * q
        · rw [if_pos hlt, if_pos (by omega)]
        · rw [if_neg hlt, if_neg (by omega)]
    · rw [b5, a5, List.append_assoc]
    · intro j v hm
      rcases List.mem_append.mp hm with hm | hm
      · have := a6 j v hm; omega
      · have := b6 j v hm; omega

/-- The payload of a long response of `rx_size` bytes: `ceil(rx_size / 4)` words are read and
exactly the first `rx_size` bytes of the buffer are written. -/
theorem rx_long_payload_post (hw : Hw) (rx_size : Nat) (d : dsim_device) :
    rx_post hw ((rx_size + 3) / 4) rx_size d (rx_long_payload hw rx_size d) := by
  unfold rx_long_payload
  dsimp only
  rw [Nat.shiftRight_eq_div_pow]
  have hq : rx_size / 2 ^ 2 = rx_size / 4 := by norm_num
  rw [hq]
  obtain ⟨a1, a2, a3, a4, evs, a5, a6⟩ := rx_post_full_words hw (rx_size / 4) d
  by_cases hr : rx_size % 4 = 0
  · simp only [hr, ne_eq, not_true_eq_false, if_false]
    refine ⟨by rw [a1]; omega, a2, a3, ?_, evs, a5, ?_⟩
    · intro k
      rw [a4]
      by_cases hlt : k < rx_size
      · rw [if_pos hlt, if_pos (by omega)]
      · rw [if_neg hlt, if_neg (by omega)]
    · intro j v hm
      have := a6 j v hm; omega
  · simp only [hr, ne_eq, not_false_eq_true, if_true]
    obtain ⟨b1, b2, b3, b4, evs', b5, b6⟩ := rx_long_word_post hw (rx_size / 4) (rx_size % 4)
      ((List.range (rx_size / 4)).foldl (fun acc i => rx_long_word hw i 4 acc) d)
    refine ⟨by rw [b1, a1]; omega, b2.trans a2, b3.trans a3, ?_, evs ++ evs', ?_, ?_⟩
    · intro k
      rw [b4, a4, a1]
      by_cases hk : rx_size / 4 * 4 ≤ k ∧ k < rx_size / 4 * 4 + rx_size % 4
      · have e1 : k / 4 = rx_size / 4 := by omega
        have e2 : k - rx_size / 4 * 4 = k % 4 := by omega
        rw [if_pos hk, if_pos (by omega), e1, e2]
      · rw [if_neg hk]
        by_cases hlt : k < 4 * (rx_size / 4)
        · rw [if_pos hlt, if_pos (by omega)]
        · rw [if_neg hlt, if_neg (by omega)]
    · rw [b5, a5, List.append_assoc]
    · intro j v hm
      rcases List.mem_append.mp hm with hm | hm
      · have := a6 j v hm; omega
      · have := b6 j v hm; omega

/-! ## Command channel: a long response -/

theorem le_bytes_eq (w : Nat) : le_bytes w = [le_byte w 0, le_byte w 1, le_byte w 2, le_byte w 3] := by
  simp [le_bytes, le_byte]

theorem flatMap_le_bytes_words (W : Nat → Nat) (n : Nat) :
    ((List.range n).map W).flatMap le_bytes
      = (List.range (4 * n)).map (fun k => le_byte (W (k / 4)) (k % 4)) := by
  induction n with
  | zero => rfl
  | succ n ih =>
    have e : 4 * (n + 1) = ((((4 * n).succ).succ).succ).succ := by omega
    have q0 : (4 * n) / 4 = n := by omega
    have q1 : (4 * n + 1) / 4 = n := by omega
    have q2 : (4 * n + 1 + 1) / 4 = n := by omega
    have q3 : (4 * n + 1 + 1 + 1) / 4 = n := by omega
    have m0 : (4 * n) % 4 = 0 := by omega
    have m1 : (4 * n + 1) % 4 = 1 := by omega
    have m2 : (4 * n + 1 + 1) % 4 = 2 := by omega
    have m3 : (4 * n + 1 + 1 + 1) % 4 = 3 := by omega
    rw [List.range_succ, List.map_append, List.flatMap_append, ih, e]
    simp only [List.range_succ, List.map_append, List.map_cons, List.map_nil,
      List.flatMap_cons, List.flatMap_nil, List.append_nil, le_bytes_eq,
      List.append_assoc, List.cons_append, List.nil_append, Nat.succ_eq_add_one,
      q0, q1, q2, q3, m0, m1, m2, m3]

theorem int_of_u32_small (n : Nat) (hn : n < 2147483648) : int_of_u32 n = (n : Int) := by
  have e : n % 4294967296 = n := by omega
  simp [int_of_u32, e, hn]

/-- The drain loop on a long response that is followed by an empty RX FIFO. -/
theorem rx_drain_long_response (hw : Hw) (cnt fuel depth rx_size L : Nat) (d : dsim_device)
    (hdepth : depth ≠ 0)
    (htag : rx_word hw d.n_rx_fifo &&& 0xff = MIPI_DSI_RX_DCS_LONG_READ_RESPONSE
      ∨ rx_word hw d.n_rx_fifo &&& 0xff = MIPI_DSI_RX_GENERIC_LONG_READ_RESPONSE)
    (hcount : (rx_word hw d.n_rx_fifo &&& 0x00ffff00) >>> 8 = L)
    (hempty : hw.rx_fifo_is_empty d.n_rx_fifo_is_empty = true) :
    ∃ d' : dsim_device,
      rx_drain hw cnt (fuel + 1) depth rx_size d = some (int_of_u32 L, d')
        ∧ d'.n_rx_fifo = d.n_rx_fifo + 1 + (L + 3) / 4
        ∧ ∀ k, d'.buf k
            = if k < L then le_byte (rx_word hw (d.n_rx_fifo + 1 + k / 4)) (k % 4)
              else d.buf k := by
  have hparse : rx_parse hw cnt rx_size d
      = rx_step.next L (rx_long_payload hw L (dsim_reg_get_rx_fifo hw d).2) := by
    unfold rx_parse
    dsimp only
    have hw1 : (dsim_reg_get_rx_fifo hw d).1 = rx_word hw d.n_rx_fifo := rfl
    rw [hw1, hcount]
    rcases htag with ht | ht <;>
      simp [ht, MIPI_DSI_RX_DCS_LONG_READ_RESPONSE, MIPI_DSI_RX_GENERIC_LONG_READ_RESPONSE,
        MIPI_DSI_RX_ACKNOWLEDGE_AND_ERROR_REPORT, MIPI_DSI_RX_END_OF_TRANSMISSION,
        MIPI_DSI_RX_DCS_SHORT_READ_RESPONSE_1BYTE, MIPI_DSI_RX_DCS_SHORT_READ_RESPONSE_2BYTE,
        MIPI_DSI_RX_GENERIC_SHORT_READ_RESPONSE_1BYTE,
        MIPI_DSI_RX_GENERIC_SHORT_READ_RESPONSE_2BYTE]
  obtain ⟨p1, p2, _, p4, _⟩ := rx_long_payload_post hw L (dsim_reg_get_rx_fifo hw d).2
  have hq : hw.rx_fifo_is_empty
      (rx_long_payload hw L (dsim_reg_get_rx_fifo hw d).2).n_rx_fifo_is_empty = true := by
    rw [p2]; exact hempty
  refine ⟨(dsim_reg_rx_fifo_is_empty hw
      (rx_long_payload hw L (dsim_reg_get_rx_fifo hw d).2)).2, ?_, ?_, ?_⟩
  · rw [rx_drain, hparse]
    simp [dsim_reg_rx_fifo_is_empty, hq, rx_finish, hdepth]
  · show (rx_long_payload hw L (dsim_reg_get_rx_fifo hw d).2).n_rx_fifo = _
    rw [p1]
    show d.n_rx_fifo + 1 + _ = _
    rfl
  · intro k
    show (rx_long_payload hw L (dsim_reg_get_rx_fifo hw d).2).buf k = _
    rw [p4]
    rfl

/-- C3: when `dsim_read_data` reaches the drain loop (the state is not one that
`IS_DSIM_OFF_STATE` rejects and the read completion fires), the RX FIFO depth constant is not 0,
the first RX FIFO word carries a long-response tag with byte count `L` (bits 8 to 23, so
`L ≤ 0xFFFF`) and the RX FIFO is reported empty after the payload, then `dsim_read_data`
returns `L`, has read exactly `ceil(L / 4)` further FIFO words, and bytes 0 to `L - 1` of the
buffer are the first `L` bytes of those words, low byte first and in FIFO order; the buffer
from index `L` on is untouched. -/
theorem dsim_read_data_long_response (h : dsim_h) (hw : Hw) (id addr cnt L : Nat)
    (d : dsim_device)
    (hoff : h.IS_DSIM_OFF_STATE d.state = false)
    (hrd : hw.rd_comp d.n_rd_comp = true)
    (hdepth : u32 h.DSIM_RX_FIFO_MAX_DEPTH ≠ 0)
    (htag : rx_word hw d.n_rx_fifo &&& 0xff = MIPI_DSI_RX_DCS_LONG_READ_RESPONSE
      ∨ rx_word hw d.n_rx_fifo &&& 0xff = MIPI_DSI_RX_GENERIC_LONG_READ_RESPONSE)
    (hcount : (rx_word hw d.n_rx_fifo &&& 0x00ffff00) >>> 8 = L)
    (hempty : hw.rx_fifo_is_empty d.n_rx_fifo_is_empty = true) :
    ∃ d' : dsim_device,
      dsim_read_data h hw id addr cnt d = some ((L : Int), d')
        ∧ L ≤ 0xFFFF
        ∧ d'.n_rx_fifo = d.n_rx_fifo + 1 + (L + 3) / 4
        ∧ (List.range L).map d'.buf
            = (((List.range ((L + 3) / 4)).map
                (fun i => rx_word hw (d.n_rx_fifo + 1 + i))).flatMap le_bytes).take L
        ∧ ∀ k, L ≤ k → d'.buf k = d.buf k := by
  have hL : L ≤ 0xFFFF := by
    have h1 : rx_word hw d.n_rx_fifo &&& 0x00ffff00 ≤ 0x00ffff00 := Nat.and_le_right
    rw [Nat.shiftRight_eq_div_pow] at hcount
    omega
  obtain ⟨r1, d1, hw1, f1⟩ := dsim_write_data_frame h hw MIPI_DSI_SET_MAXIMUM_RETURN_PACKET_SIZE
    cnt (emit (Event.dsim_reg_clear_int intsrc.DSIM_INTSRC_RX_DATA_DONE)
      (emit Event.reinit_completion_rd_comp (emit Event.decon_hiber_block_exit d)))
  obtain ⟨r2, d2, hw2, f2⟩ := dsim_write_data_frame h hw id addr d1
  obtain ⟨_, g2, g3, g4, g5, _⟩ := cmd_frame_trans f1 f2
  have g2' : d2.buf = d.buf := g2
  have g3' : d2.n_rx_fifo = d.n_rx_fifo := g3
  have g4' : d2.n_rd_comp = d.n_rd_comp := g4
  have g5' : d2.n_rx_fifo_is_empty = d.n_rx_fifo_is_empty := g5
  obtain ⟨d', hd, hn, hb⟩ := rx_drain_long_response hw cnt 4294967295
    (u32 h.DSIM_RX_FIFO_MAX_DEPTH) 0 L
    (emit Event.mutex_lock (wait_for_completion_rd_comp hw d2).2) hdepth
    (by show rx_word hw d2.n_rx_fifo &&& 0xff = _ ∨ rx_word hw d2.n_rx_fifo &&& 0xff = _
        rw [g3']; exact htag)
    (by show (rx_word hw d2.n_rx_fifo &&& 0x00ffff00) >>> 8 = L
        rw [g3']; exact hcount)
    (by show hw.rx_fifo_is_empty d2.n_rx_fifo_is_empty = true
        rw [g5']; exact hempty)
  have hn' : d'.n_rx_fifo = d.n_rx_fifo + 1 + (L + 3) / 4 := by
    rw [hn]; show d2.n_rx_fifo + 1 + _ = _; rw [g3']
  have hb' : ∀ k, d'.buf k
      = if k < L then le_byte (rx_word hw (d.n_rx_fifo + 1 + k / 4)) (k % 4) else d.buf k := by
    intro k
    rw [hb k]
    show (if k < L then le_byte (rx_word hw (d2.n_rx_fifo + 1 + k / 4)) (k % 4) else d2.buf k)
      = _
    rw [g3', g2']
  have hwait : (wait_for_completion_rd_comp hw d2).1 = true := by
    show hw.rd_comp d2.n_rd_comp = true
    rw [g4']; exact hrd
  refine ⟨emit Event.decon_hiber_unblock (emit Event.mutex_unlock d'), ?_, hL, hn', ?_, ?_⟩
  · have hoff' : h.IS_DSIM_OFF_STATE (emit Event.decon_hiber_block_exit d).state = false := hoff
    have e : (4294967296 : Nat) = 4294967295 + 1 := by norm_num
    unfold dsim_read_data
    simp only [hoff', hw1, hw2, hwait, e, hd, int_of_u32_small L (by omega)]
    simp
  · show (List.range L).map d'.buf = _
    rw [flatMap_le_bytes_words, ← List.map_take, List.take_range,
      Nat.min_eq_left (by omega)]
    apply List.map_congr_left
    intro k hk
    rw [hb' k, if_pos (List.mem_range.mp hk)]
  · intro k hk
    show d'.buf k = _
    rw [hb' k, if_neg (by omega)]

/-- C3, worked example: a DCS long response declaring 5 bytes, read into a fresh buffer. -/
theorem dsim_read_data_long_response_witness :
    ∃ d' : dsim_device,
      dsim_read_data dsim_h_plain (hw_prompt (fun _ => 0) rx_fifo_long5) MIPI_DSI_DCS_READ 0xDA 8
          (dsim_device_fresh dsim_state.DSIM_STATE_ON) = some (((5 : Nat) : Int), d')
        ∧ 5 ≤ 0xFFFF
        ∧ d'.n_rx_fifo = (dsim_device_fresh dsim_state.DSIM_STATE_ON).n_rx_fifo + 1 + (5 + 3) / 4
        ∧ (List.range 5).map d'.buf
            = (((List.range ((5 + 3) / 4)).map
                (fun i => rx_word (hw_prompt (fun _ => 0) rx_fifo_long5)
                  ((dsim_device_fresh dsim_state.DSIM_STATE_ON).n_rx_fifo + 1 + i))).flatMap
                    le_bytes).take 5
        ∧ ∀ k, 5 ≤ k → d'.buf k = (dsim_device_fresh dsim_state.DSIM_STATE_ON).buf k :=
  dsim_read_data_long_response dsim_h_plain (hw_prompt (fun _ => 0) rx_fifo_long5)
    MIPI_DSI_DCS_READ 0xDA 8 5 (dsim_device_fresh dsim_state.DSIM_STATE_ON)
    rfl rfl (by decide) (Or.inl (by decide)) (by decide) rfl

/-! ## Command channel: the RX drain and the capacity of the caller's buffer -/

/-- C5, counterexample: an acknowledge-and-error-report word on which
`dsim_reg_rx_err_handler` returns 0 does not abort the read: `dsim_read_data` returns the byte
count 0 and no register dump is made. -/
theorem dsim_read_data_ack_error_counterexample :
    (dsim_read_data dsim_h_plain (hw_prompt (fun _ => 0) (fun _ => 0x02)) MIPI_DSI_DCS_READ 0xDA 1
        (dsim_device_fresh dsim_state.DSIM_STATE_ON)).map
          (fun r => (r.1, r.2.trace.count Event.dsim_dump_sfr))
      = some (0, 0) := by
  decide

/-- C5, as amended: let the RX FIFO word at position `p` have the acknowledge-and-error-report
tag and let `dsim_reg_rx_err_handler` return a negative code on it.  Then the drain loop of
`dsim_read_data`, whenever it reads that word, ends at once with that negative code, after the
calls `dsim_reg_get_rx_fifo`, `dsim_reg_rx_err_handler` and one register dump, and stores
nothing; and when the word is the first one `dsim_read_data` reads, the call returns that
negative code and the calls it makes from the read completion on are the wait, `mutex_lock`,
the FIFO read, the handler, exactly one register dump, `mutex_unlock` and
`decon_hiber_unblock`. -/
theorem dsim_read_data_ack_error (h : dsim_h) (hw : Hw) (id addr cnt p : Nat)
    (htag : rx_word hw p &&& 0xff = MIPI_DSI_RX_ACKNOWLEDGE_AND_ERROR_REPORT)
    (herr : hw.rx_err_handler (rx_word hw p) < 0) :
    (∀ (fuel depth rx_size : Nat) (d : dsim_device), d.n_rx_fifo = p →
        rx_drain hw cnt (fuel + 1) depth rx_size d
          = some (hw.rx_err_handler (rx_word hw p),
              { d with
                n_rx_fifo := d.n_rx_fifo + 1
                trace := d.trace ++
                  [Event.dsim_reg_get_rx_fifo (rx_word hw p),
                   Event.dsim_reg_rx_err_handler (rx_word hw p)
                     (hw.rx_err_handler (rx_word hw p)),
                   Event.dsim_dump_sfr] }))
      ∧ ∀ d : dsim_device, d.n_rx_fifo = p → h.IS_DSIM_OFF_STATE d.state = false →
          hw.rd_comp d.n_rd_comp = true →
          ∃ (d' : dsim_device) (pre : List Event),
            dsim_read_data h hw id addr cnt d = some (hw.rx_err_handler (rx_word hw p), d')
              ∧ d'.trace = pre ++
                  [Event.wait_for_completion_rd_comp true, Event.mutex_lock,
                   Event.dsim_reg_get_rx_fifo (rx_word hw p),
                   Event.dsim_reg_rx_err_handler (rx_word hw p)
                     (hw.rx_err_handler (rx_word hw p)),
                   Event.dsim_dump_sfr, Event.mutex_unlock, Event.decon_hiber_unblock]
              ∧ d'.buf = d.buf := by
  have hloop : ∀ (fuel depth rx_size : Nat) (d : dsim_device), d.n_rx_fifo = p →
      rx_drain hw cnt (fuel + 1) depth rx_size d
        = some (hw.rx_err_handler (rx_word hw p),
            { d with
              n_rx_fifo := d.n_rx_fifo + 1
              trace := d.trace ++
                [Event.dsim_reg_get_rx_fifo (rx_word hw p),
                 Event.dsim_reg_rx_err_handler (rx_word hw p)
                   (hw.rx_err_handler (rx_word hw p)),
                 Event.dsim_dump_sfr] }) := by
    intro fuel depth rx_size d hp
    have hw1 : (dsim_reg_get_rx_fifo hw d).1 = rx_word hw p := by rw [← hp]; rfl
    have hparse : rx_parse hw cnt rx_size d
        = rx_step.exit (hw.rx_err_handler (rx_word hw p))
            { d with
              n_rx_fifo := d.n_rx_fifo + 1
              trace := d.trace ++
                [Event.dsim_reg_get_rx_fifo (rx_word hw p),
                 Event.dsim_reg_rx_err_handler (rx_word hw p)
                   (hw.rx_err_handler (rx_word hw p)),
                 Event.dsim_dump_sfr] } := by
      unfold rx_parse
      dsimp only
      rw [hw1, if_pos htag, if_pos herr]
      simp [dsim_dump_sfr, emit, dsim_reg_get_rx_fifo, rx_word, ← hp]
    rw [rx_drain, hparse]
  refine ⟨hloop, ?_⟩
  intro d hp hoff hrd
  obtain ⟨r1, d1, hw1, f1⟩ := dsim_write_data_frame h hw MIPI_DSI_SET_MAXIMUM_RETURN_PACKET_SIZE
    cnt (emit (Event.dsim_reg_clear_int intsrc.DSIM_INTSRC_RX_DATA_DONE)
      (emit Event.reinit_completion_rd_comp (emit Event.decon_hiber_block_exit d)))
  obtain ⟨r2, d2, hw2, f2⟩ := dsim_write_data_frame h hw id addr d1
  obtain ⟨_, g2, g3, g4, _, _⟩ := cmd_frame_trans f1 f2
  have g2' : d2.buf = d.buf := g2
  have g3' : d2.n_rx_fifo = d.n_rx_fifo := g3
  have g4' : d2.n_rd_comp = d.n_rd_comp := g4
  have hwait : hw.rd_comp d2.n_rd_comp = true := by rw [g4']; exact hrd
  have hoff' : h.IS_DSIM_OFF_STATE (emit Event.decon_hiber_block_exit d).state = false := hoff
  have e : (4294967296 : Nat) = 4294967295 + 1 := by norm_num
  obtain ⟨dx, hd, htr, hbuf⟩ : ∃ dx : dsim_device,
      rx_drain hw cnt (4294967295 + 1) (u32 h.DSIM_RX_FIFO_MAX_DEPTH) 0
          (emit Event.mutex_lock (wait_for_completion_rd_comp hw d2).2)
        = some (hw.rx_err_handler (rx_word hw p), dx)
      ∧ dx.trace = (emit Event.mutex_lock (wait_for_completion_rd_comp hw d2).2).trace ++
          [Event.dsim_reg_get_rx_fifo (rx_word hw p),
           Event.dsim_reg_rx_err_handler (rx_word hw p) (hw.rx_err_handler (rx_word hw p)),
           Event.dsim_dump_sfr]
      ∧ dx.buf = (emit Event.mutex_lock (wait_for_completion_rd_comp hw d2).2).buf :=
    ⟨_, hloop 4294967295 (u32 h.DSIM_RX_FIFO_MAX_DEPTH) 0
      (emit Event.mutex_lock (wait_for_completion_rd_comp hw d2).2) (g3'.trans hp), rfl, rfl⟩
  refine ⟨emit Event.decon_hiber_unblock (emit Event.mutex_unlock dx), d2.trace, ?_, ?_, ?_⟩
  · have hwt : (wait_for_completion_rd_comp hw d2).1 = true := hwait
    unfold dsim_read_data
    simp only [hoff', hw1, hw2, e, hd, hwt]
    simp
  · show dx.trace ++ [Event.mutex_unlock] ++ [Event.decon_hiber_unblock] = _
    rw [htr]
    simp [emit, wait_for_completion_rd_comp, hwait]
  · show dx.buf = d.buf
    rw [hbuf]
    exact g2'

/-- C5, worked example: an acknowledge-and-error-report word with error bits, first in the RX
FIFO, on hardware whose error handler fails, read by a fresh device in state ON. -/
theorem dsim_read_data_ack_error_witness :
    ∃ (d' : dsim_device) (pre : List Event),
      dsim_read_data dsim_h_plain (hw_rx_error (fun _ => 0) (fun _ => 0x8002))
          MIPI_DSI_DCS_READ 0xDA 1 (dsim_device_fresh dsim_state.DSIM_STATE_ON)
        = some ((hw_rx_error (fun _ => 0) (fun _ => 0x8002)).rx_err_handler
            (rx_word (hw_rx_error (fun _ => 0) (fun _ => 0x8002)) 0), d')
        ∧ d'.trace = pre ++
            [Event.wait_for_completion_rd_comp true, Event.mutex_lock,
             Event.dsim_reg_get_rx_fifo (rx_word (hw_rx_error (fun _ => 0) (fun _ => 0x8002)) 0),
             Event.dsim_reg_rx_err_handler
               (rx_word (hw_rx_error (fun _ => 0) (fun _ => 0x8002)) 0)
               ((hw_rx_error (fun _ => 0) (fun _ => 0x8002)).rx_err_handler
                 (rx_word (hw_rx_error (fun _ => 0) (fun _ => 0x8002)) 0)),
             Event.dsim_dump_sfr, Event.mutex_unlock, Event.decon_hiber_unblock]
        ∧ d'.buf = (dsim_device_fresh dsim_state.DSIM_STATE_ON).buf :=
  (dsim_read_data_ack_error dsim_h_plain (hw_rx_error (fun _ => 0) (fun _ => 0x8002))
    MIPI_DSI_DCS_READ 0xDA 1 0 (by decide) (by decide)).2
    (dsim_device_fresh dsim_state.DSIM_STATE_ON) rfl rfl rfl

/-! ## Command channel: waiting for the header FIFO -/

/-- C11: `dsim_wait_for_cmd_fifo_empty` with `must_wait` true.  If the header-empty completion
fires the result is 0.  If it does not fire within the timeout and the header FIFO is reported
empty at the recheck, the result is 0, after the completion has been re-initialised and the
interrupt source cleared.  If it does not fire and the header FIFO is reported not empty, the
result is `-ETIMEDOUT` (with a register dump when the link is on). -/
theorem dsim_wait_for_cmd_fifo_empty_must_wait (h : dsim_h) (hw : Hw) (d : dsim_device) :
    (hw.ph_wr_comp d.n_ph_wr_comp = true →
        dsim_wait_for_cmd_fifo_empty h hw true d
          = (0, { d with
              cmd_timer := false
              n_ph_wr_comp := d.n_ph_wr_comp + 1
              trace := d.trace ++
                [Event.del_timer, Event.wait_for_completion_ph_wr_comp true] }))
      ∧ (hw.ph_wr_comp d.n_ph_wr_comp = false →
          hw.header_fifo_is_empty d.n_header_fifo_is_empty = true →
          dsim_wait_for_cmd_fifo_empty h hw true d
            = (0, { d with
                cmd_timer := false
                n_ph_wr_comp := d.n_ph_wr_comp + 1
                n_header_fifo_is_empty := d.n_header_fifo_is_empty + 1
                trace := d.trace ++
                  [Event.del_timer, Event.wait_for_completion_ph_wr_comp false,
                   Event.dsim_reg_header_fifo_is_empty true,
                   Event.reinit_completion_ph_wr_comp,
                   Event.dsim_reg_clear_int intsrc.DSIM_INTSRC_SFR_PH_FIFO_EMPTY] }))
      ∧ (hw.ph_wr_comp d.n_ph_wr_comp = false →
          hw.header_fifo_is_empty d.n_header_fifo_is_empty = false →
          dsim_wait_for_cmd_fifo_empty h hw true d
            = (-ETIMEDOUT, { d with
                cmd_timer := false
                n_ph_wr_comp := d.n_ph_wr_comp + 1
                n_header_fifo_is_empty := d.n_header_fifo_is_empty + 1
                trace := d.trace ++
                  [Event.del_timer, Event.wait_for_completion_ph_wr_comp false,
                   Event.dsim_reg_header_fifo_is_empty false]
                  ++ (if h.IS_DSIM_ON_STATE d.state then [Event.dsim_dump_sfr] else []) })) := by
  refine ⟨?_, ?_, ?_⟩
  · intro hf
    simp [dsim_wait_for_cmd_fifo_empty, dsim_wait_for_cmd_fifo_empty_ret,
      wait_for_completion_ph_wr_comp, del_timer, emit, hf, ETIMEDOUT]
  · intro hf he
    simp [dsim_wait_for_cmd_fifo_empty, wait_for_completion_ph_wr_comp,
      dsim_reg_header_fifo_is_empty, del_timer, emit, hf, he]
  · intro hf he
    cases hon : h.IS_DSIM_ON_STATE d.state <;>
      simp [dsim_wait_for_cmd_fifo_empty, dsim_wait_for_cmd_fifo_empty_ret,
        wait_for_completion_ph_wr_comp, dsim_reg_header_fifo_is_empty, del_timer,
        dsim_dump_sfr, emit, hf, he, hon]

/-- C11, worked example: on a device in state ON, hardware whose completion never fires and
whose header FIFO stays non-empty gives `-ETIMEDOUT`. -/
theorem dsim_wait_for_cmd_fifo_empty_must_wait_witness :
    dsim_wait_for_cmd_fifo_empty dsim_h_plain (hw_stuck (fun _ => 0) (fun _ => 0)) true
        (dsim_device_fresh dsim_state.DSIM_STATE_ON)
      = (-ETIMEDOUT, { dsim_device_fresh dsim_state.DSIM_STATE_ON with
          cmd_timer := false
          n_ph_wr_comp := (dsim_device_fresh dsim_state.DSIM_STATE_ON).n_ph_wr_comp + 1
          n_header_fifo_is_empty :=
            (dsim_device_fresh dsim_state.DSIM_STATE_ON).n_header_fifo_is_empty + 1
          trace := (dsim_device_fresh dsim_state.DSIM_STATE_ON).trace ++
            [Event.del_timer, Event.wait_for_completion_ph_wr_comp false,
             Event.dsim_reg_header_fifo_is_empty false]
            ++ (if dsim_h_plain.IS_DSIM_ON_STATE
                  (dsim_device_fresh dsim_state.DSIM_STATE_ON).state
                then [Event.dsim_dump_sfr] else []) }) :=
  (dsim_wait_for_cmd_fifo_empty_must_wait dsim_h_plain (hw_stuck (fun _ => 0) (fun _ => 0))
    (dsim_device_fresh dsim_state.DSIM_STATE_ON)).2.2 rfl rfl

/-! ## Command channel: the decision to wait -/

/-- In a state `IS_DSIM_ON_STATE` accepts, `dsim_write_data` is its prologue, the switch, the
wait with the `must_wait` the switch decided, and the unlock. -/
theorem dsim_write_data_on (h : dsim_h) (hw : Hw) (id d0 d1 : Nat) (d : dsim_device)
    (hon : h.IS_DSIM_ON_STATE d.state = true) :
    dsim_write_data h hw id d0 d1 d
      = (dsim_write_data_switch hw id d0 d1 (dsim_write_data_prologue d)).map
          (fun sw =>
            ((dsim_wait_for_cmd_fifo_empty h hw sw.2.1 sw.2.2).1,
              emit Event.decon_hiber_unblock
                (emit Event.mutex_unlock (dsim_wait_for_cmd_fifo_empty h hw sw.2.1 sw.2.2).2))) := by
  have hon' : h.IS_DSIM_ON_STATE
      (emit Event.mutex_lock (emit Event.decon_hiber_block_exit d)).state = true := hon
  unfold dsim_write_data dsim_write_data_prologue
  simp only [hon', Bool.not_true, Bool.false_eq_true, if_false]
  cases dsim_write_data_switch hw id d0 d1
    (mod_timer (emit (Event.dsim_reg_clear_int intsrc.DSIM_INTSRC_SFR_PH_FIFO_EMPTY)
      (emit Event.reinit_completion_ph_wr_comp
        (emit Event.mutex_lock (emit Event.decon_hiber_block_exit d))))) <;> rfl

/-- C12, counterexample: a generic read request without parameters, address 0, on hardware
that reports the FIFO writable: `must_wait` is false, and the whole call makes no wait on the
header-empty completion. -/
theorem dsim_write_data_read_must_wait_counterexample :
    dsim_write_data_must_wait (hw_prompt (fun _ => 0) (fun _ => 0))
        MIPI_DSI_GENERIC_READ_REQUEST_0_PARAM 0 0 (dsim_device_fresh dsim_state.DSIM_STATE_ON)
      = some false
    ∧ (dsim_write_data dsim_h_plain (hw_prompt (fun _ => 0) (fun _ => 0))
        MIPI_DSI_GENERIC_READ_REQUEST_0_PARAM 0 0
        (dsim_device_fresh dsim_state.DSIM_STATE_ON)).map (fun r => (r.1, r.2.trace))
      = some (0, [Event.decon_hiber_block_exit, Event.mutex_lock,
          Event.reinit_completion_ph_wr_comp,
          Event.dsim_reg_clear_int intsrc.DSIM_INTSRC_SFR_PH_FIFO_EMPTY, Event.mod_timer,
          Event.dsim_reg_wr_tx_header 4 0 0 true, Event.dsim_reg_is_writable_fifo_state true,
          Event.dsim_reg_header_fifo_is_empty true, Event.del_timer, Event.mutex_unlock,
          Event.decon_hiber_unblock]) := by
  decide

/-- C12, as amended: for `MIPI_DSI_DCS_READ`, every `d0`, `d1` and FIFO status,
`dsim_write_data` decides `must_wait` true, without looking at the FIFO level.  For each of the
three generic read requests it decides `must_wait` true exactly when `d0` is one of 0xC1, 0xC0,
`MIPI_DCS_SET_COLUMN_ADDRESS`, `MIPI_DCS_SET_PAGE_ADDRESS` or the hardware reports the FIFO
not writable. -/
theorem dsim_write_data_read_must_wait (hw : Hw) (d0 d1 : Nat) (d : dsim_device) :
    dsim_write_data_switch hw MIPI_DSI_DCS_READ d0 d1 (dsim_write_data_prologue d)
        = some (0, true,
            emit (Event.dsim_reg_wr_tx_header MIPI_DSI_DCS_READ d0 d1 true)
              (dsim_write_data_prologue d))
      ∧ dsim_write_data_must_wait hw MIPI_DSI_DCS_READ d0 d1 d = some true
      ∧ dsim_write_data_must_wait hw MIPI_DSI_GENERIC_READ_REQUEST_0_PARAM d0 d1 d
        = some (decide (d0 = 0xC1 ∨ d0 = 0xC0 ∨ d0 = MIPI_DCS_SET_COLUMN_ADDRESS
              ∨ d0 = MIPI_DCS_SET_PAGE_ADDRESS)
            || !hw.is_writable_fifo_state d.n_is_writable_fifo_state)
      ∧ dsim_write_data_must_wait hw MIPI_DSI_GENERIC_READ_REQUEST_1_PARAM d0 d1 d
        = some (decide (d0 = 0xC1 ∨ d0 = 0xC0 ∨ d0 = MIPI_DCS_SET_COLUMN_ADDRESS
              ∨ d0 = MIPI_DCS_SET_PAGE_ADDRESS)
            || !hw.is_writable_fifo_state d.n_is_writable_fifo_state)
      ∧ dsim_write_data_must_wait hw MIPI_DSI_GENERIC_READ_REQUEST_2_PARAM d0 d1 d
        = some (decide (d0 = 0xC1 ∨ d0 = 0xC0 ∨ d0 = MIPI_DCS_SET_COLUMN_ADDRESS
              ∨ d0 = MIPI_DCS_SET_PAGE_ADDRESS)
            || !hw.is_writable_fifo_state d.n_is_writable_fifo_state) := by
  have hgen : ∀ id, id = MIPI_DSI_GENERIC_READ_REQUEST_0_PARAM
        ∨ id = MIPI_DSI_GENERIC_READ_REQUEST_1_PARAM
        ∨ id = MIPI_DSI_GENERIC_READ_REQUEST_2_PARAM →
      dsim_write_data_must_wait hw id d0 d1 d
        = some (decide (d0 = 0xC1 ∨ d0 = 0xC0 ∨ d0 = MIPI_DCS_SET_COLUMN_ADDRESS
              ∨ d0 = MIPI_DCS_SET_PAGE_ADDRESS)
            || !hw.is_writable_fifo_state d.n_is_writable_fifo_state) := by
    intro id hid
    by_cases hc : d0 = 0xC1 ∨ d0 = 0xC0 ∨ d0 = MIPI_DCS_SET_COLUMN_ADDRESS
        ∨ d0 = MIPI_DCS_SET_PAGE_ADDRESS
    · rcases hid with rfl | rfl | rfl <;>
        simp [dsim_write_data_must_wait, dsim_write_data_switch, dsim_fifo_empty_needed,
          short_write_ids, read_request_ids, hc, MIPI_DSI_GENERIC_READ_REQUEST_0_PARAM,
          MIPI_DSI_GENERIC_READ_REQUEST_1_PARAM, MIPI_DSI_GENERIC_READ_REQUEST_2_PARAM,
          MIPI_DSI_GENERIC_SHORT_WRITE_0_PARAM, MIPI_DSI_GENERIC_SHORT_WRITE_1_PARAM,
          MIPI_DSI_GENERIC_SHORT_WRITE_2_PARAM, MIPI_DSI_DCS_SHORT_WRITE,
          MIPI_DSI_DCS_SHORT_WRITE_PARAM, MIPI_DSI_SET_MAXIMUM_RETURN_PACKET_SIZE,
          MIPI_DSI_DSC_PRA, MIPI_DSI_COLOR_MODE_OFF, MIPI_DSI_COLOR_MODE_ON,
          MIPI_DSI_SHUTDOWN_PERIPHERAL, MIPI_DSI_TURN_ON_PERIPHERAL, MIPI_DSI_DCS_READ]
    · cases hwr : hw.is_writable_fifo_state d.n_is_writable_fifo_state <;>
        rcases hid with rfl | rfl | rfl <;>
        simp [dsim_write_data_must_wait, dsim_write_data_switch, dsim_fifo_empty_needed,
          dsim_reg_is_writable_fifo_state, dsim_write_data_prologue, mod_timer, emit,
          short_write_ids, read_request_ids, hc, hwr, MIPI_DSI_GENERIC_READ_REQUEST_0_PARAM,
          MIPI_DSI_GENERIC_READ_REQUEST_1_PARAM, MIPI_DSI_GENERIC_READ_REQUEST_2_PARAM,
          MIPI_DSI_GENERIC_SHORT_WRITE_0_PARAM, MIPI_DSI_GENERIC_SHORT_WRITE_1_PARAM,
          MIPI_DSI_GENERIC_SHORT_WRITE_2_PARAM, MIPI_DSI_DCS_SHORT_WRITE,
          MIPI_DSI_DCS_SHORT_WRITE_PARAM, MIPI_DSI_SET_MAXIMUM_RETURN_PACKET_SIZE,
          MIPI_DSI_DSC_PRA, MIPI_DSI_COLOR_MODE_OFF, MIPI_DSI_COLOR_MODE_ON,
          MIPI_DSI_SHUTDOWN_PERIPHERAL, MIPI_DSI_TURN_ON_PERIPHERAL, MIPI_DSI_DCS_READ]
  have hdcs : dsim_write_data_switch hw MIPI_DSI_DCS_READ d0 d1 (dsim_write_data_prologue d)
      = some (0, true,
          emit (Event.dsim_reg_wr_tx_header MIPI_DSI_DCS_READ d0 d1 true)
            (dsim_write_data_prologue d)) := by
    simp [dsim_write_data_switch, dsim_fifo_empty_needed, short_write_ids, read_request_ids,
      MIPI_DSI_GENERIC_READ_REQUEST_0_PARAM,
      MIPI_DSI_GENERIC_READ_REQUEST_1_PARAM, MIPI_DSI_GENERIC_READ_REQUEST_2_PARAM,
      MIPI_DSI_GENERIC_SHORT_WRITE_0_PARAM, MIPI_DSI_GENERIC_SHORT_WRITE_1_PARAM,
      MIPI_DSI_GENERIC_SHORT_WRITE_2_PARAM, MIPI_DSI_DCS_SHORT_WRITE,
      MIPI_DSI_DCS_SHORT_WRITE_PARAM, MIPI_DSI_SET_MAXIMUM_RETURN_PACKET_SIZE,
      MIPI_DSI_DSC_PRA, MIPI_DSI_COLOR_MODE_OFF, MIPI_DSI_COLOR_MODE_ON,
      MIPI_DSI_SHUTDOWN_PERIPHERAL, MIPI_DSI_TURN_ON_PERIPHERAL, MIPI_DSI_DCS_READ]
  refine ⟨hdcs, ?_, hgen _ (Or.inl rfl), hgen _ (Or.inr (Or.inl rfl)),
    hgen _ (Or.inr (Or.inr rfl))⟩
  simp [dsim_write_data_must_wait, hdcs]

/-- C13, counterexample: a DCS long write of 5 bytes whose first payload byte is
`MIPI_DCS_SET_COLUMN_ADDRESS`, on hardware that reports the FIFO writable: `must_wait` is
true although the FIFO is writable. -/
theorem dsim_write_data_long_must_wait_counterexample :
    (hw_prompt mem_column_address (fun _ => 0)).is_writable_fifo_state
        (dsim_device_fresh dsim_state.DSIM_STATE_ON).n_is_writable_fifo_state = true
      ∧ dsim_write_data_must_wait (hw_prompt mem_column_address (fun _ => 0))
          MIPI_DSI_DCS_LONG_WRITE 0 5 (dsim_device_fresh dsim_state.DSIM_STATE_ON)
        = some true := by
  decide

/-- C13, as amended: for each of the three long-write packet types and every payload of at
most 2^32 - 4 bytes, `dsim_write_data` decides `must_wait` true exactly when the first byte of
the payload is one of 0xC1, 0xC0, `MIPI_DCS_SET_COLUMN_ADDRESS`, `MIPI_DCS_SET_PAGE_ADDRESS`
or the hardware reports the FIFO not writable. -/
theorem dsim_write_data_long_must_wait (hw : Hw) (id d0 d1 : Nat) (d : dsim_device)
    (hid : id ∈ long_write_ids) (hlen : d1 ≤ 4294967292) :
    dsim_write_data_must_wait hw id d0 d1 d
      = some (decide (rd_u8 hw d0 = 0xC1 ∨ rd_u8 hw d0 = 0xC0
            ∨ rd_u8 hw d0 = MIPI_DCS_SET_COLUMN_ADDRESS
            ∨ rd_u8 hw d0 = MIPI_DCS_SET_PAGE_ADDRESS)
          || !hw.is_writable_fifo_state d.n_is_writable_fifo_state) := by
  have hrun := dsim_long_data_wr_loop_run hw d0 d1 hlen ((d1 + 3) / 4) 0 1073741825 0
    (dsim_write_data_prologue d) (by omega) (by omega)
  have hlong : dsim_long_data_wr hw d0 d1 (dsim_write_data_prologue d)
      = some { dsim_write_data_prologue d with
          trace := (dsim_write_data_prologue d).trace ++
            ((List.range' 0 ((d1 + 3) / 4)).map (payload_word hw d0 d1)).map
              Event.dsim_reg_wr_tx_payload } := hrun
  have hns : id ∉ short_write_ids := by
    simp only [long_write_ids, List.mem_cons, List.mem_singleton, List.not_mem_nil,
      or_false] at hid
    rcases hid with rfl | rfl | rfl <;> decide
  have hnr : id ∉ read_request_ids := by
    simp only [long_write_ids, List.mem_cons, List.mem_singleton, List.not_mem_nil,
      or_false] at hid
    rcases hid with rfl | rfl | rfl <;> decide
  have hn1 : id ≠ MIPI_DSI_DCS_READ := by
    simp only [long_write_ids, List.mem_cons, List.mem_singleton, List.not_mem_nil,
      or_false] at hid
    rcases hid with rfl | rfl | rfl <;> decide
  have hn2 : id ≠ MIPI_DSI_DCS_SHORT_WRITE := by
    simp only [long_write_ids, List.mem_cons, List.mem_singleton, List.not_mem_nil,
      or_false] at hid
    rcases hid with rfl | rfl | rfl <;> decide
  have hn3 : id ≠ MIPI_DSI_DCS_SHORT_WRITE_PARAM := by
    simp only [long_write_ids, List.mem_cons, List.mem_singleton, List.not_mem_nil,
      or_false] at hid
    rcases hid with rfl | rfl | rfl <;> decide
  unfold dsim_write_data_must_wait dsim_write_data_switch
  simp only [hns, hnr, hid, if_true, if_false, hlong]
  by_cases hc : rd_u8 hw d0 = 0xC1 ∨ rd_u8 hw d0 = 0xC0
      ∨ rd_u8 hw d0 = MIPI_DCS_SET_COLUMN_ADDRESS ∨ rd_u8 hw d0 = MIPI_DCS_SET_PAGE_ADDRESS
  · simp [dsim_fifo_empty_needed, hn1, hn2, hn3, hc]
  · cases hwr : hw.is_writable_fifo_state d.n_is_writable_fifo_state <;>
      simp [dsim_fifo_empty_needed, dsim_reg_is_writable_fifo_state, dsim_write_data_prologue,
        mod_timer, emit, hn1, hn2, hn3, hc, hwr]

/-- C13, worked example: a DCS long write of 5 zero bytes. -/
theorem dsim_write_data_long_must_wait_witness :
    MIPI_DSI_DCS_LONG_WRITE ∈ long_write_ids ∧ (5 : Nat) ≤ 4294967292
      ∧ dsim_write_data_must_wait (hw_prompt (fun _ => 0) (fun _ => 0))
          MIPI_DSI_DCS_LONG_WRITE 0 5 (dsim_device_fresh dsim_state.DSIM_STATE_ON)
        = some (decide (rd_u8 (hw_prompt (fun _ => 0) (fun _ => 0)) 0 = 0xC1
              ∨ rd_u8 (hw_prompt (fun _ => 0) (fun _ => 0)) 0 = 0xC0
              ∨ rd_u8 (hw_prompt (fun _ => 0) (fun _ => 0)) 0 = MIPI_DCS_SET_COLUMN_ADDRESS
              ∨ rd_u8 (hw_prompt (fun _ => 0) (fun _ => 0)) 0 = MIPI_DCS_SET_PAGE_ADDRESS)
            || !(hw_prompt (fun _ => 0) (fun _ => 0)).is_writable_fifo_state
                (dsim_device_fresh dsim_state.DSIM_STATE_ON).n_is_writable_fifo_state) :=
  ⟨by decide, by decide,
   dsim_write_data_long_must_wait (hw_prompt (fun _ => 0) (fun _ => 0))
    MIPI_DSI_DCS_LONG_WRITE 0 5 (dsim_device_fresh dsim_state.DSIM_STATE_ON)
    (by decide) (by decide)⟩

/-! ## Link state machine: PHY power and the interrupt line -/

theorem phy_irq_calls_emit (e : Event) (d : dsim_device) :
    phy_irq_calls (emit e d).trace
      = phy_irq_calls d.trace
        ++ (if e = Event.phy_power_on ∨ e = Event.phy_power_off
              ∨ e = Event.enable_irq ∨ e = Event.disable_irq then [e] else []) := by
  unfold phy_irq_calls emit
  simp only [List.filter_append]
  split <;> simp_all

theorem phy_irq_calls_state_store (state : dsim_state) (d : dsim_device) :
    phy_irq_calls (state_store state d).trace = phy_irq_calls d.trace := by
  have h1 := phy_irq_calls_emit (Event.state_store state) { d with state := state }
  simpa [state_store] using h1

theorem phy_irq_calls_init_end (state : dsim_state) (ret : Int) (d : dsim_device) :
    phy_irq_calls (dsim_enable_init_end state ret d).2.trace
      = phy_irq_calls d.trace ++ [Event.enable_irq] := by
  simp [dsim_enable_init_end, phy_irq_calls_emit, phy_irq_calls_state_store]

theorem phy_irq_calls_bringup (cfg : Kconfig) (hw : Hw) (state : dsim_state) (d : dsim_device) :
    phy_irq_calls (dsim_enable_bringup cfg hw state d).2.trace
      = phy_irq_calls d.trace ++ [Event.enable_irq] := by
  unfold dsim_enable_bringup dsim_reg_set_link_clock dsim_reg_init
  dsimp only
  split_ifs <;> simp [phy_irq_calls_init_end, phy_irq_calls_emit]

theorem phy_irq_calls_state (d : dsim_device) (state : dsim_state) :
    phy_irq_calls ({ d with state := state } : dsim_device).trace = phy_irq_calls d.trace := rfl

/-- C19: in every execution of `_dsim_enable`, `_dsim_disable`, `dsim_enter_ulps` and
`dsim_exit_ulps`, whatever the hardware answers, the calls that switch the PHY power or the
interrupt line are either none at all (the early returns) or exactly one pair:
`phy_power_on` with `enable_irq` in `_dsim_enable` and `dsim_exit_ulps`, `disable_irq` with
`phy_power_off` in `_dsim_disable` and `dsim_enter_ulps`. -/
theorem dsim_phy_irq_pairing (cfg : Kconfig) (h : dsim_h) (hw : Hw) (state : dsim_state)
    (d : dsim_device) :
    phy_irq_calls (_dsim_enable cfg h hw state d).2.trace
        = phy_irq_calls d.trace
          ++ (if h.IS_DSIM_ON_STATE d.state then []
              else [Event.phy_power_on, Event.enable_irq])
      ∧ phy_irq_calls (_dsim_disable cfg h state d).2.trace
        = phy_irq_calls d.trace
          ++ (if h.IS_DSIM_OFF_STATE d.state then []
              else [Event.disable_irq, Event.phy_power_off])
      ∧ phy_irq_calls (dsim_enter_ulps cfg h hw d).2.trace
        = phy_irq_calls d.trace
          ++ (if h.IS_DSIM_ON_STATE d.state then [Event.disable_irq, Event.phy_power_off]
              else [])
      ∧ phy_irq_calls (dsim_exit_ulps cfg hw d).2.trace
        = phy_irq_calls d.trace
          ++ (if d.state = dsim_state.DSIM_STATE_ULPS then [Event.phy_power_on, Event.enable_irq]
              else []) := by
  refine ⟨?_, ?_, ?_, ?_⟩
  · unfold _dsim_enable dsim_power_get dsim_reg_is_pll_stable
    dsimp only
    split_ifs <;>
      simp [phy_irq_calls_init_end, phy_irq_calls_bringup, phy_irq_calls_emit,
        phy_irq_calls_state_store]
  · unfold _dsim_disable dsim_power_put del_timer
    dsimp only
    split_ifs <;> simp [phy_irq_calls_emit, phy_irq_calls_state, phy_irq_calls_state_store]
  · unfold dsim_enter_ulps dsim_power_put dsim_reg_stop_and_enter_ulps dsim_dump dsim_dump_sfr
    dsimp only
    split_ifs <;>
      simp_all [phy_irq_calls_emit, phy_irq_calls_state, phy_irq_calls_state_store]
  · unfold dsim_exit_ulps dsim_power_get dsim_reg_set_link_clock dsim_reg_init
      dsim_reg_exit_ulps_and_start dsim_dump dsim_dump_sfr
    dsimp only
    split_ifs <;>
      simp_all [phy_irq_calls_emit, phy_irq_calls_state, phy_irq_calls_state_store]

/-! ## Link state machine: the command timer across a transition away from ON -/

/-- Function `dsim_enter_ulps` does not touch the command timer. -/
theorem dsim_enter_ulps_cmd_timer (cfg : Kconfig) (h : dsim_h) (hw : Hw) (d : dsim_device) :
    (dsim_enter_ulps cfg h hw d).2.cmd_timer = d.cmd_timer := by
  unfold dsim_enter_ulps dsim_power_put dsim_reg_stop_and_enter_ulps dsim_dump dsim_dump_sfr
  dsimp only
  split_ifs <;> rfl

/-- Function `_dsim_disable` deletes the command timer on the path that powers the link
down. -/
theorem dsim_disable_cmd_timer (cfg : Kconfig) (h : dsim_h) (state : dsim_state)
    (d : dsim_device) (hoff : h.IS_DSIM_OFF_STATE d.state = false) :
    (_dsim_disable cfg h state d).2.cmd_timer = false := by
  unfold _dsim_disable dsim_power_put
  simp only [hoff, Bool.false_eq_true, if_false]
  split_ifs <;> rfl

/-- C17 (what the code does): a DCS short write (command 0, no parameter) in state ON, on
hardware that reports the FIFO writable while the header FIFO is not yet empty, returns 0
without waiting and leaves the command timer armed; `dsim_enter_ulps` right after it returns 0
and sets the state to ULPS with the timer still armed.  `_dsim_disable`, from the same
device, deletes the timer. -/
theorem dsim_enter_ulps_stale_timer :
    (dsim_write_data dsim_h_plain (hw_header_queued (fun _ => 0) (fun _ => 0))
        MIPI_DSI_DCS_SHORT_WRITE 0 0 (dsim_device_fresh dsim_state.DSIM_STATE_ON)).map
      (fun r =>
        (r.1, r.2.cmd_timer,
          (dsim_enter_ulps kconfig_9810 dsim_h_plain
            (hw_header_queued (fun _ => 0) (fun _ => 0)) r.2).1,
          (dsim_enter_ulps kconfig_9810 dsim_h_plain
            (hw_header_queued (fun _ => 0) (fun _ => 0)) r.2).2.state,
          (dsim_enter_ulps kconfig_9810 dsim_h_plain
            (hw_header_queued (fun _ => 0) (fun _ => 0)) r.2).2.cmd_timer,
          (_dsim_disable kconfig_9810 dsim_h_plain dsim_state.DSIM_STATE_OFF r.2).2.cmd_timer))
      = some (0, true, 0, dsim_state.DSIM_STATE_ULPS, true, false) := by
  decide

/-! ## Command channel: the hibernation hooks around a command -/

theorem hiber_calls_emit (e : Event) (d : dsim_device) :
    hiber_calls (emit e d).trace
      = hiber_calls d.trace
        ++ (if e = Event.decon_hiber_block_exit ∨ e = Event.decon_hiber_block
              ∨ e = Event.decon_hiber_unblock then [e] else []) := by
  unfold hiber_calls emit
  simp only [List.filter_append]
  split <;> simp_all

theorem hiber_calls_wait (h : dsim_h) (hw : Hw) (must_wait : Bool) (d : dsim_device) :
    hiber_calls (dsim_wait_for_cmd_fifo_empty h hw must_wait d).2.trace
      = hiber_calls d.trace := by
  unfold dsim_wait_for_cmd_fifo_empty dsim_wait_for_cmd_fifo_empty_ret
    wait_for_completion_ph_wr_comp dsim_reg_header_fifo_is_empty del_timer dsim_dump_sfr
  dsimp only
  split_ifs <;> simp [hiber_calls_emit]

theorem hiber_calls_fifo_empty_needed (hw : Hw) (data_id data0 : Nat) (d : dsim_device) :
    hiber_calls (dsim_fifo_empty_needed hw data_id data0 d).2.trace = hiber_calls d.trace := by
  unfold dsim_fifo_empty_needed dsim_reg_is_writable_fifo_state
  dsimp only
  split_ifs <;> simp [hiber_calls_emit]

theorem hiber_calls_long_data_wr_loop (hw : Hw) (d0 d1 : Nat) :
    ∀ (fuel c p : Nat) (d d' : dsim_device),
      dsim_long_data_wr_loop hw d0 d1 fuel c p d = some d' →
      hiber_calls d'.trace = hiber_calls d.trace := by
  intro fuel
  induction fuel with
  | zero => intro c p d d' hr; simp [dsim_long_data_wr_loop] at hr
  | succ f ih =>
    intro c p d d' hr
    rw [dsim_long_data_wr_loop] at hr
    split at hr
    · split at hr
      · have := ih _ _ _ _ hr
        rw [this, hiber_calls_emit]; simp
      · have := ih _ _ _ _ hr
        rw [this, hiber_calls_emit]; simp
    · cases hr; rfl

theorem hiber_calls_switch (hw : Hw) (id d0 d1 : Nat) (d : dsim_device)
    (sw : Int × Bool × dsim_device) (hs : dsim_write_data_switch hw id d0 d1 d = some sw) :
    hiber_calls sw.2.2.trace = hiber_calls d.trace := by
  unfold dsim_write_data_switch at hs
  dsimp only at hs
  split at hs
  · cases hs
    simp [hiber_calls_fifo_empty_needed, hiber_calls_emit]
  · split at hs
    · cases hs
      simp [hiber_calls_fifo_empty_needed, hiber_calls_emit]
    · split at hs
      · cases hl : dsim_long_data_wr hw d0 d1 d with
        | none => rw [hl] at hs; cases hs
        | some dl =>
          rw [hl] at hs
          cases hs
          have := hiber_calls_long_data_wr_loop hw d0 d1 _ _ _ _ _ hl
          simp [hiber_calls_fifo_empty_needed, hiber_calls_emit, this]
      · cases hs; rfl

/-- Every call of `dsim_write_data` that returns has called `decon_hiber_block_exit` once and
`decon_hiber_unblock` once. -/
theorem hiber_calls_write_data (h : dsim_h) (hw : Hw) (id d0 d1 : Nat) (d : dsim_device)
    (r : Int) (d' : dsim_device) (hr : dsim_write_data h hw id d0 d1 d = some (r, d')) :
    hiber_calls d'.trace
      = hiber_calls d.trace ++ [Event.decon_hiber_block_exit, Event.decon_hiber_unblock] := by
  unfold dsim_write_data at hr
  dsimp only at hr
  split at hr
  · cases hr
    simp [hiber_calls_emit]
  · cases hs : dsim_write_data_switch hw id d0 d1
        (mod_timer (emit (Event.dsim_reg_clear_int intsrc.DSIM_INTSRC_SFR_PH_FIFO_EMPTY)
          (emit Event.reinit_completion_ph_wr_comp
            (emit Event.mutex_lock (emit Event.decon_hiber_block_exit d))))) with
    | none => rw [hs] at hr; cases hr
    | some sw =>
      rw [hs] at hr
      cases hr
      have := hiber_calls_switch hw id d0 d1 _ sw hs
      simp [hiber_calls_emit, hiber_calls_wait, this, mod_timer]

/-- C15 (what the code does): when the state is not one `IS_DSIM_OFF_STATE` rejects and the
read-data completion does not fire, `dsim_read_data` returns `-ETIMEDOUT` having called
`decon_hiber_block_exit` three times (once itself, once in each command write) and
`decon_hiber_unblock` only twice (in the two command writes): its own block is not undone. -/
theorem dsim_read_data_timeout_hiber (h : dsim_h) (hw : Hw) (id addr cnt : Nat)
    (d : dsim_device)
    (hoff : h.IS_DSIM_OFF_STATE d.state = false)
    (hrd : hw.rd_comp d.n_rd_comp = false) :
    ∃ d' : dsim_device,
      dsim_read_data h hw id addr cnt d = some (-ETIMEDOUT, d')
        ∧ hiber_calls d'.trace
          = hiber_calls d.trace ++
              [Event.decon_hiber_block_exit,
               Event.decon_hiber_block_exit, Event.decon_hiber_unblock,
               Event.decon_hiber_block_exit, Event.decon_hiber_unblock] := by
  obtain ⟨r1, d1, hw1, f1⟩ := dsim_write_data_frame h hw MIPI_DSI_SET_MAXIMUM_RETURN_PACKET_SIZE
    cnt (emit (Event.dsim_reg_clear_int intsrc.DSIM_INTSRC_RX_DATA_DONE)
      (emit Event.reinit_completion_rd_comp (emit Event.decon_hiber_block_exit d)))
  obtain ⟨r2, d2, hw2, f2⟩ := dsim_write_data_frame h hw id addr d1
  obtain ⟨_, _, _, g4, _, _⟩ := cmd_frame_trans f1 f2
  have g4' : d2.n_rd_comp = d.n_rd_comp := g4
  have hwait : (wait_for_completion_rd_comp hw d2).1 = false := by
    show hw.rd_comp d2.n_rd_comp = false
    rw [g4']; exact hrd
  have hoff' : h.IS_DSIM_OFF_STATE (emit Event.decon_hiber_block_exit d).state = false := hoff
  have c1 := hiber_calls_write_data h hw _ _ _ _ r1 d1 hw1
  have c2 := hiber_calls_write_data h hw _ _ _ _ r2 d2 hw2
  refine ⟨(wait_for_completion_rd_comp hw d2).2, ?_, ?_⟩
  · unfold dsim_read_data
    simp only [hoff', hw1, hw2, hwait]
    simp
  · have c3 : hiber_calls (wait_for_completion_rd_comp hw d2).2.trace = hiber_calls d2.trace := by
      unfold wait_for_completion_rd_comp
      simp [hiber_calls_emit]
    rw [c3, c2, c1]
    simp [hiber_calls_emit]

/-- C15, worked example: a DCS read on a device in state ON whose panel does not answer. -/
theorem dsim_read_data_timeout_hiber_witness :
    ∃ d' : dsim_device,
      dsim_read_data dsim_h_plain (hw_no_reply (fun _ => 0) (fun _ => 0)) MIPI_DSI_DCS_READ 0xDA 1
          (dsim_device_fresh dsim_state.DSIM_STATE_ON) = some (-ETIMEDOUT, d')
        ∧ hiber_calls d'.trace
          = hiber_calls (dsim_device_fresh dsim_state.DSIM_STATE_ON).trace ++
              [Event.decon_hiber_block_exit,
               Event.decon_hiber_block_exit, Event.decon_hiber_unblock,
               Event.decon_hiber_block_exit, Event.decon_hiber_unblock] :=
  dsim_read_data_timeout_hiber dsim_h_plain (hw_no_reply (fun _ => 0) (fun _ => 0))
    MIPI_DSI_DCS_READ 0xDA 1 (dsim_device_fresh dsim_state.DSIM_STATE_ON) rfl rfl

/-! ## Command channel: what a read returns -/

theorem rx_words_self (hw : Hw) (a : Nat) : rx_words hw a a = [] := by
  simp [rx_words]

theorem rx_words_succ (hw : Hw) (a b : Nat) (hab : a < b) :
    rx_words hw a b = rx_word hw a :: rx_words hw (a + 1) b := by
  unfold rx_words
  have e : b - a = (b - (a + 1)) + 1 := by omega
  rw [e, List.range'_succ]
  rfl

theorem rx_words_append (hw : Hw) (a b c : Nat) (hab : a ≤ b) (hbc : b ≤ c) :
    rx_words hw a c = rx_words hw a b ++ rx_words hw b c := by
  unfold rx_words
  have e : c - a = (c - b) + (b - a) := by omega
  have e2 : b = a + (b - a) := by omega
  rw [e, ← List.range'_append_1, List.map_append, ← e2]

theorem rx_words_length (hw : Hw) (a b : Nat) : (rx_words hw a b).length = b - a := by
  simp [rx_words]

theorem last_packet_size_skip (cnt : Nat) (l1 rest : List Nat) (rx_size : Nat) :
    last_packet_size cnt (l1 ++ rest) l1.length rx_size
      = last_packet_size cnt rest 0 rx_size := by
  induction l1 with
  | nil => rfl
  | cons a t ih => simpa [last_packet_size] using ih

/-- One pass of the drain loop that reaches the loop condition has read at least one word,
and leaves in `rx_size` the size of the last data packet among the words it read. -/
theorem rx_parse_next_size (hw : Hw) (cnt rx_size rx_size1 : Nat) (d dn : dsim_device)
    (hp : rx_parse hw cnt rx_size d = rx_step.next rx_size1 dn) :
    d.n_rx_fifo < dn.n_rx_fifo
      ∧ ∀ rest : List Nat,
          last_packet_size cnt (rx_words hw d.n_rx_fifo dn.n_rx_fifo ++ rest) 0 rx_size
            = last_packet_size cnt rest 0 rx_size1 := by
  have hw1 : (dsim_reg_get_rx_fifo hw d).1 = rx_word hw d.n_rx_fifo := rfl
  have hn1 : (dsim_reg_get_rx_fifo hw d).2.n_rx_fifo = d.n_rx_fifo + 1 := rfl
  have hone : rx_words hw d.n_rx_fifo (d.n_rx_fifo + 1) = [rx_word hw d.n_rx_fifo] := by
    simp [rx_words]
  unfold rx_parse at hp
  dsimp only at hp
  rw [hw1] at hp
  split at hp
  · rename_i htag
    split at hp
    · cases hp
    · cases hp
      refine ⟨Nat.lt_succ_self _, fun rest => ?_⟩
      show last_packet_size cnt (rx_words hw d.n_rx_fifo (d.n_rx_fifo + 1) ++ rest) 0 rx_size = _
      rw [hone]
      simp [last_packet_size, htag, MIPI_DSI_RX_ACKNOWLEDGE_AND_ERROR_REPORT,
        MIPI_DSI_RX_DCS_SHORT_READ_RESPONSE_1BYTE, MIPI_DSI_RX_DCS_SHORT_READ_RESPONSE_2BYTE,
        MIPI_DSI_RX_GENERIC_SHORT_READ_RESPONSE_1BYTE,
        MIPI_DSI_RX_GENERIC_SHORT_READ_RESPONSE_2BYTE, MIPI_DSI_RX_DCS_LONG_READ_RESPONSE,
        MIPI_DSI_RX_GENERIC_LONG_READ_RESPONSE]
  · split at hp
    · rename_i htag
      cases hp
      refine ⟨Nat.lt_succ_self _, fun rest => ?_⟩
      show last_packet_size cnt (rx_words hw d.n_rx_fifo (d.n_rx_fifo + 1) ++ rest) 0 rx_size = _
      rw [hone]
      simp [last_packet_size, htag, MIPI_DSI_RX_END_OF_TRANSMISSION,
        MIPI_DSI_RX_DCS_SHORT_READ_RESPONSE_1BYTE, MIPI_DSI_RX_DCS_SHORT_READ_RESPONSE_2BYTE,
        MIPI_DSI_RX_GENERIC_SHORT_READ_RESPONSE_1BYTE,
        MIPI_DSI_RX_GENERIC_SHORT_READ_RESPONSE_2BYTE, MIPI_DSI_RX_DCS_LONG_READ_RESPONSE,
        MIPI_DSI_RX_GENERIC_LONG_READ_RESPONSE]
    · split at hp
      · rename_i hshort
        cases hp
        have hn : (rx_short_stores (rx_word hw d.n_rx_fifo) cnt
            (dsim_reg_get_rx_fifo hw d).2).n_rx_fifo = d.n_rx_fifo + 1 := by
          unfold rx_short_stores
          rw [foldl_buf_store (fun i => i)]
          exact hn1
        rw [hn]
        refine ⟨Nat.lt_succ_self _, fun rest => ?_⟩
        rw [hone]
        simp only [List.singleton_append, last_packet_size, hshort, if_true]
        rfl
      · rename_i hnshort
        split at hp
        · rename_i hlong
          cases hp
          obtain ⟨hn, _⟩ := rx_long_payload_post hw
            ((rx_word hw d.n_rx_fifo &&& 0x00ffff00) >>> 8) (dsim_reg_get_rx_fifo hw d).2
          rw [hn, hn1]
          refine ⟨by omega, fun rest => ?_⟩
          rw [rx_words_succ hw _ _ (by omega)]
          have hl := rx_words_length hw (d.n_rx_fifo + 1)
            (d.n_rx_fifo + 1 + ((rx_word hw d.n_rx_fifo &&& 0x00ffff00) >>> 8 + 3) / 4)
          have hl' : (rx_words hw (d.n_rx_fifo + 1)
              (d.n_rx_fifo + 1 + ((rx_word hw d.n_rx_fifo &&& 0x00ffff00) >>> 8 + 3) / 4)).length
              = ((rx_word hw d.n_rx_fifo &&& 0x00ffff00) >>> 8 + 3) / 4 := by
            rw [hl]; omega
          simp only [List.cons_append, last_packet_size, hnshort, hlong, if_true, if_false]
          have hs := last_packet_size_skip cnt (rx_words hw (d.n_rx_fifo + 1)
              (d.n_rx_fifo + 1 + ((rx_word hw d.n_rx_fifo &&& 0x00ffff00) >>> 8 + 3) / 4))
            rest ((rx_word hw d.n_rx_fifo &&& 0x00ffff00) >>> 8)
          rw [hl'] at hs
          exact hs
        · cases hp

/-- A pass of the drain loop that leaves through `goto exit` has read one word, made the
register dump last, and carries a negative code: `-EBUSY`, or what `dsim_reg_rx_err_handler`
returned on that word, an acknowledge and error report. -/
theorem rx_parse_exit_word (hw : Hw) (cnt rx_size : Nat) (d : dsim_device) (ret : Int)
    (de : dsim_device) (hp : rx_parse hw cnt rx_size d = rx_step.exit ret de) :
    de.n_rx_fifo = d.n_rx_fifo + 1 ∧ ret < 0
      ∧ (ret = -EBUSY
        ∨ (rx_word hw d.n_rx_fifo &&& 0xff = MIPI_DSI_RX_ACKNOWLEDGE_AND_ERROR_REPORT
          ∧ ret = hw.rx_err_handler (rx_word hw d.n_rx_fifo)))
      ∧ ∃ pre : List Event, de.trace = pre ++ [Event.dsim_dump_sfr] := by
  have hw1 : (dsim_reg_get_rx_fifo hw d).1 = rx_word hw d.n_rx_fifo := rfl
  unfold rx_parse at hp
  dsimp only at hp
  rw [hw1] at hp
  split_ifs at hp with h1 h2
  · cases hp
    exact ⟨rfl, h2, Or.inr ⟨h1, rfl⟩, _, rfl⟩
  · cases hp
    exact ⟨rfl, by decide, Or.inl rfl, _, rfl⟩

/-- What the drain loop of `dsim_read_data` returns.  It ends within the passes its counter
allows, and either with a negative code right after a register dump (`-EBUSY`, or the result
of `dsim_reg_rx_err_handler` on the word read last, an acknowledge and error report), or,
right after the RX FIFO was reported empty, with `rx_size` as an `int`, which is the size of
the last data packet among the words read. -/
theorem rx_drain_result (hw : Hw) (cnt : Nat) :
    ∀ (fuel depth rx_size : Nat) (d : dsim_device), depth < 4294967296 →
      rx_passes depth ≤ fuel →
      ∃ (r : Int) (d' : dsim_device),
        rx_drain hw cnt fuel depth rx_size d = some (r, d')
          ∧ d.n_rx_fifo ≤ d'.n_rx_fifo
          ∧ ((r < 0
                ∧ (r = -EBUSY
                  ∨ (rx_word hw (d'.n_rx_fifo - 1) &&& 0xff
                        = MIPI_DSI_RX_ACKNOWLEDGE_AND_ERROR_REPORT
                    ∧ r = hw.rx_err_handler (rx_word hw (d'.n_rx_fifo - 1))))
                ∧ ∃ pre : List Event, d'.trace = pre ++ [Event.dsim_dump_sfr])
            ∨ (r = int_of_u32
                    (last_packet_size cnt (rx_words hw d.n_rx_fifo d'.n_rx_fifo) 0 rx_size)
                ∧ ∃ pre : List Event,
                    d'.trace = pre ++ [Event.dsim_reg_rx_fifo_is_empty true])) := by
  intro fuel
  induction fuel with
  | zero =>
    intro depth rx_size d _ hp
    unfold rx_passes at hp
    split at hp <;> omega
  | succ f ih =>
    intro depth rx_size d hd hp
    rw [rx_drain]
    cases hparse : rx_parse hw cnt rx_size d with
    | exit ret de =>
      obtain ⟨hn, hneg, hcause, htr⟩ := rx_parse_exit_word hw cnt rx_size d ret de hparse
      have hlast : de.n_rx_fifo - 1 = d.n_rx_fifo := by omega
      rw [← hlast] at hcause
      exact ⟨ret, de, rfl, by omega, Or.inl ⟨hneg, hcause, htr⟩⟩
    | next rx_size1 dn =>
      obtain ⟨hlt, hsize⟩ := rx_parse_next_size hw cnt rx_size rx_size1 d dn hparse
      have hqn : (dsim_reg_rx_fifo_is_empty hw dn).2.n_rx_fifo = dn.n_rx_fifo := rfl
      have hqt : (dsim_reg_rx_fifo_is_empty hw dn).2.trace
          = dn.trace ++ [Event.dsim_reg_rx_fifo_is_empty (dsim_reg_rx_fifo_is_empty hw dn).1] :=
        rfl
      dsimp only
      split
      · split
        · have hd1 : u32_sub depth 1 < 4294967296 := by unfold u32_sub; omega
          have hp1 : rx_passes (u32_sub depth 1) ≤ f := by
            rename_i hne
            unfold rx_passes at hp ⊢
            unfold u32_sub at hne ⊢
            split at hp <;> split <;> omega
          obtain ⟨r, d', hr, hmono, hres⟩ := ih (u32_sub depth 1) rx_size1
            (dsim_reg_rx_fifo_is_empty hw dn).2 hd1 hp1
          rw [hqn] at hmono hres
          refine ⟨r, d', hr, by omega, ?_⟩
          rcases hres with hl | ⟨hv, htr⟩
          · exact Or.inl hl
          · refine Or.inr ⟨?_, htr⟩
            rw [rx_words_append hw d.n_rx_fifo dn.n_rx_fifo d'.n_rx_fifo (by omega) hmono,
              hsize]
            exact hv
        · rename_i hz
          have hz' : u32_sub depth 1 = 0 := by
            by_contra hc
            exact hz hc
          refine ⟨-EBUSY, dsim_dump_sfr (dsim_reg_rx_fifo_is_empty hw dn).2, ?_, ?_, ?_⟩
          · rw [hz']; rfl
          · show d.n_rx_fifo ≤ dn.n_rx_fifo
            omega
          · exact Or.inl ⟨by decide, Or.inl rfl, _, rfl⟩
      · rename_i hq
        have hq1 : (dsim_reg_rx_fifo_is_empty hw dn).1 = true := by
          cases hb : (dsim_reg_rx_fifo_is_empty hw dn).1
          · rw [hb] at hq; exact absurd rfl hq
          · rfl
        by_cases hdz : depth = 0
        · refine ⟨-EBUSY, dsim_dump_sfr (dsim_reg_rx_fifo_is_empty hw dn).2, ?_, ?_, ?_⟩
          · rw [hdz]; rfl
          · show d.n_rx_fifo ≤ dn.n_rx_fifo
            omega
          · exact Or.inl ⟨by decide, Or.inl rfl, _, rfl⟩
        · refine ⟨int_of_u32 rx_size1, (dsim_reg_rx_fifo_is_empty hw dn).2, ?_, ?_, ?_⟩
          · simp only [rx_finish, hdz, if_false]
          · rw [hqn]; omega
          · refine Or.inr ⟨?_, dn.trace, ?_⟩
            · rw [hqn]
              have := hsize []
              rw [List.append_nil] at this
              rw [this]
              rfl
            · rw [hqt, hq1]

/-- A write in a state `IS_DSIM_ON_STATE` rejects returns `-EINVAL`. -/
theorem dsim_write_data_rejected (h : dsim_h) (hw : Hw) (id d0 d1 : Nat) (d : dsim_device)
    (r : Int) (d' : dsim_device) (hoff : h.IS_DSIM_ON_STATE d.state = false)
    (hr : dsim_write_data h hw id d0 d1 d = some (r, d')) : r = -EINVAL := by
  have hoff' : h.IS_DSIM_ON_STATE
      (emit Event.mutex_lock (emit Event.decon_hiber_block_exit d)).state = false := hoff
  unfold dsim_write_data at hr
  simp only [hoff', Bool.not_false, if_true] at hr
  cases hr
  rfl

/-- C14, counterexample: in state INIT, which is neither ON nor OFF, both command writes of
`dsim_read_data` fail with `-EINVAL` (each makes only its hook and lock calls), and
`dsim_read_data` goes on, drains an end-of-transmission word and returns the byte count 0. -/
theorem dsim_read_data_result_counterexample :
    (dsim_write_data dsim_h_plain (hw_prompt (fun _ => 0) (fun _ => 0x08))
        MIPI_DSI_SET_MAXIMUM_RETURN_PACKET_SIZE 1 0
        (dsim_device_fresh dsim_state.DSIM_STATE_INIT)).map (fun r => r.1) = some (-EINVAL)
      ∧ (dsim_read_data dsim_h_plain (hw_prompt (fun _ => 0) (fun _ => 0x08))
          MIPI_DSI_DCS_READ 0xDA 1 (dsim_device_fresh dsim_state.DSIM_STATE_INIT)).map
            (fun r => (r.1, r.2.trace))
        = some (0, [Event.decon_hiber_block_exit, Event.reinit_completion_rd_comp,
            Event.dsim_reg_clear_int intsrc.DSIM_INTSRC_RX_DATA_DONE,
            Event.decon_hiber_block_exit, Event.mutex_lock, Event.mutex_unlock,
            Event.decon_hiber_unblock,
            Event.decon_hiber_block_exit, Event.mutex_lock, Event.mutex_unlock,
            Event.decon_hiber_unblock,
            Event.wait_for_completion_rd_comp true, Event.mutex_lock,
            Event.dsim_reg_get_rx_fifo 8, Event.dsim_reg_rx_fifo_is_empty true,
            Event.mutex_unlock, Event.decon_hiber_unblock]) := by
  decide

/-- C14, as amended: `dsim_read_data` returns `-EINVAL` when `IS_DSIM_OFF_STATE` holds of the
device.  Otherwise both command writes are made and return, and whatever they return (in a
state `IS_DSIM_ON_STATE` rejects both return `-EINVAL`), `dsim_read_data` returns
`-ETIMEDOUT` when the read-data completion does not fire.  When it fires, `dsim_read_data`
returns, and either a negative code right after a register dump (`-EBUSY`, or the result of
`dsim_reg_rx_err_handler` on the word read last, an acknowledge and error report), or, right
after the RX FIFO was reported empty, `rx_size` as an `int`: the size of the last data packet
among the FIFO words read, which is `cnt` for a short response, the declared length for a long
response and 0 when no data packet was read.  That size can differ from the number of bytes
stored (see `dsim_read_data_last_packet`). -/
theorem dsim_read_data_result (h : dsim_h) (hw : Hw) (id addr cnt : Nat) (d : dsim_device) :
    (h.IS_DSIM_OFF_STATE d.state = true →
        dsim_read_data h hw id addr cnt d
          = some (-EINVAL, emit Event.decon_hiber_unblock (emit Event.decon_hiber_block_exit d)))
      ∧ (h.IS_DSIM_OFF_STATE d.state = false →
          ∃ (r1 : Int) (d1 : dsim_device) (r2 : Int) (d2 : dsim_device),
            dsim_write_data h hw MIPI_DSI_SET_MAXIMUM_RETURN_PACKET_SIZE cnt 0
                (emit (Event.dsim_reg_clear_int intsrc.DSIM_INTSRC_RX_DATA_DONE)
                  (emit Event.reinit_completion_rd_comp (emit Event.decon_hiber_block_exit d)))
              = some (r1, d1)
            ∧ dsim_write_data h hw id addr 0 d1 = some (r2, d2)
            ∧ (h.IS_DSIM_ON_STATE d.state = false → r1 = -EINVAL ∧ r2 = -EINVAL)
            ∧ (hw.rd_comp d.n_rd_comp = false →
                dsim_read_data h hw id addr cnt d
                  = some (-ETIMEDOUT, (wait_for_completion_rd_comp hw d2).2))
            ∧ (hw.rd_comp d.n_rd_comp = true →
                ∃ (r : Int) (d' : dsim_device),
                  dsim_read_data h hw id addr cnt d = some (r, d')
                    ∧ d.n_rx_fifo ≤ d'.n_rx_fifo
                    ∧ ((r < 0
                        ∧ (r = -EBUSY
                          ∨ (rx_word hw (d'.n_rx_fifo - 1) &&& 0xff
                                = MIPI_DSI_RX_ACKNOWLEDGE_AND_ERROR_REPORT
                            ∧ r = hw.rx_err_handler (rx_word hw (d'.n_rx_fifo - 1))))
                        ∧ ∃ pre : List Event, d'.trace = pre ++
                            [Event.dsim_dump_sfr, Event.mutex_unlock,
                             Event.decon_hiber_unblock])
                      ∨ (r = int_of_u32
                              (last_packet_size cnt
                                (rx_words hw d.n_rx_fifo d'.n_rx_fifo) 0 0)
                        ∧ ∃ pre : List Event, d'.trace = pre ++
                            [Event.dsim_reg_rx_fifo_is_empty true, Event.mutex_unlock,
                             Event.decon_hiber_unblock])))) := by
  constructor
  · intro hoff
    have hoff' : h.IS_DSIM_OFF_STATE (emit Event.decon_hiber_block_exit d).state = true := hoff
    unfold dsim_read_data
    simp only [hoff', if_true]
  · intro hoff
    have hoff' : h.IS_DSIM_OFF_STATE (emit Event.decon_hiber_block_exit d).state = false := hoff
    obtain ⟨r1, d1, hw1, f1⟩ := dsim_write_data_frame h hw
      MIPI_DSI_SET_MAXIMUM_RETURN_PACKET_SIZE cnt
      (emit (Event.dsim_reg_clear_int intsrc.DSIM_INTSRC_RX_DATA_DONE)
        (emit Event.reinit_completion_rd_comp (emit Event.decon_hiber_block_exit d)))
    obtain ⟨r2, d2, hw2, f2⟩ := dsim_write_data_frame h hw id addr d1
    obtain ⟨_, _, g3, g4, _, _⟩ := cmd_frame_trans f1 f2
    have g3' : d2.n_rx_fifo = d.n_rx_fifo := g3
    have g4' : d2.n_rd_comp = d.n_rd_comp := g4
    have s1 : d1.state = d.state := f1.1
    refine ⟨r1, d1, r2, d2, hw1, hw2, ?_, ?_, ?_⟩
    · intro hon
      have s1' : d1.state = d.state := s1
      exact ⟨dsim_write_data_rejected h hw _ _ _ _ r1 d1 (show h.IS_DSIM_ON_STATE
          (emit (Event.dsim_reg_clear_int intsrc.DSIM_INTSRC_RX_DATA_DONE)
            (emit Event.reinit_completion_rd_comp
              (emit Event.decon_hiber_block_exit d))).state = false from hon) hw1,
        dsim_write_data_rejected h hw _ _ _ _ r2 d2 (by rw [s1']; exact hon) hw2⟩
    · intro hrd
      have hwait : (wait_for_completion_rd_comp hw d2).1 = false := by
        show hw.rd_comp d2.n_rd_comp = false
        rw [g4']; exact hrd
      unfold dsim_read_data
      simp only [hoff', hw1, hw2, hwait]
      simp
    · intro hrd
      have hwait : (wait_for_completion_rd_comp hw d2).1 = true := by
        show hw.rd_comp d2.n_rd_comp = true
        rw [g4']; exact hrd
      have hdepth : u32 h.DSIM_RX_FIFO_MAX_DEPTH < 4294967296 := by
        unfold u32; omega
      have hpass : rx_passes (u32 h.DSIM_RX_FIFO_MAX_DEPTH) ≤ 4294967296 := by
        unfold rx_passes
        split <;> omega
      obtain ⟨r, d', hr, hmono, hres⟩ := rx_drain_result hw cnt 4294967296
        (u32 h.DSIM_RX_FIFO_MAX_DEPTH) 0
        (emit Event.mutex_lock (wait_for_completion_rd_comp hw d2).2) hdepth hpass
      have hn : (emit Event.mutex_lock (wait_for_completion_rd_comp hw d2).2).n_rx_fifo
          = d.n_rx_fifo := g3'
      rw [hn] at hmono hres
      refine ⟨r, emit Event.decon_hiber_unblock (emit Event.mutex_unlock d'), ?_, hmono, ?_⟩
      · unfold dsim_read_data
        simp only [hoff', hw1, hw2, hwait, hr]
        simp
      · rcases hres with ⟨hneg, hcause, pre, htr⟩ | ⟨hv, pre, htr⟩
        · refine Or.inl ⟨hneg, hcause, pre, ?_⟩
          simp [emit, htr]
        · refine Or.inr ⟨hv, pre, ?_⟩
          simp [emit, htr]

/-- C14, worked example: a DCS read with `cnt` 2 in state ON, answered by a long response of
8 bytes followed by a short response. -/
theorem dsim_read_data_result_witness :
    ∃ (r1 : Int) (d1 : dsim_device) (r2 : Int) (d2 : dsim_device),
      dsim_write_data dsim_h_plain hw_two_packets
          MIPI_DSI_SET_MAXIMUM_RETURN_PACKET_SIZE 2 0
          (emit (Event.dsim_reg_clear_int intsrc.DSIM_INTSRC_RX_DATA_DONE)
            (emit Event.reinit_completion_rd_comp
              (emit Event.decon_hiber_block_exit
                (dsim_device_fresh dsim_state.DSIM_STATE_ON))))
        = some (r1, d1)
      ∧ dsim_write_data dsim_h_plain hw_two_packets MIPI_DSI_DCS_READ 0xDA 0 d1
        = some (r2, d2)
      ∧ (dsim_h_plain.IS_DSIM_ON_STATE (dsim_device_fresh dsim_state.DSIM_STATE_ON).state
            = false → r1 = -EINVAL ∧ r2 = -EINVAL)
      ∧ (hw_two_packets.rd_comp (dsim_device_fresh dsim_state.DSIM_STATE_ON).n_rd_comp = false →
          dsim_read_data dsim_h_plain hw_two_packets MIPI_DSI_DCS_READ 0xDA 2
              (dsim_device_fresh dsim_state.DSIM_STATE_ON)
            = some (-ETIMEDOUT, (wait_for_completion_rd_comp hw_two_packets d2).2))
      ∧ (hw_two_packets.rd_comp (dsim_device_fresh dsim_state.DSIM_STATE_ON).n_rd_comp = true →
          ∃ (r : Int) (d' : dsim_device),
            dsim_read_data dsim_h_plain hw_two_packets MIPI_DSI_DCS_READ 0xDA 2
                (dsim_device_fresh dsim_state.DSIM_STATE_ON) = some (r, d')
              ∧ (dsim_device_fresh dsim_state.DSIM_STATE_ON).n_rx_fifo ≤ d'.n_rx_fifo
              ∧ ((r < 0
                  ∧ (r = -EBUSY
                    ∨ (rx_word hw_two_packets (d'.n_rx_fifo - 1) &&& 0xff
                          = MIPI_DSI_RX_ACKNOWLEDGE_AND_ERROR_REPORT
                      ∧ r = hw_two_packets.rx_err_handler
                              (rx_word hw_two_packets (d'.n_rx_fifo - 1))))
                  ∧ ∃ pre : List Event, d'.trace = pre ++
                      [Event.dsim_dump_sfr, Event.mutex_unlock, Event.decon_hiber_unblock])
                ∨ (r = int_of_u32
                        (last_packet_size 2
                          (rx_words hw_two_packets
                            (dsim_device_fresh dsim_state.DSIM_STATE_ON).n_rx_fifo
                            d'.n_rx_fifo) 0 0)
                  ∧ ∃ pre : List Event, d'.trace = pre ++
                      [Event.dsim_reg_rx_fifo_is_empty true, Event.mutex_unlock,
                       Event.decon_hiber_unblock]))) :=
  (dsim_read_data_result dsim_h_plain hw_two_packets MIPI_DSI_DCS_READ 0xDA 2
    (dsim_device_fresh dsim_state.DSIM_STATE_ON)).2 rfl

/-- The read of the worked example returns 2, the size of the short response that came last,
after it has stored 10 bytes: the 8 bytes of the long response to the indices 0 to 7, then
the 2 bytes of the short response to the indices 0 and 1; the size of the last data packet of
the four words read is 2. -/
theorem dsim_read_data_last_packet :
    (dsim_read_data dsim_h_plain hw_two_packets MIPI_DSI_DCS_READ 0xDA 2
        (dsim_device_fresh dsim_state.DSIM_STATE_ON)).map
          (fun r => (r.1, r.2.n_rx_fifo, buf_stores r.2.trace))
      = some (2, 4, [(0, 1), (1, 2), (2, 3), (3, 4), (4, 5), (5, 6), (6, 7), (7, 8),
          (0, 0xAA), (1, 0xBB)])
    ∧ last_packet_size 2 (rx_words hw_two_packets 0 4) 0 0 = 2 := by
  decide

/-! ## Command channel: a short response -/

theorem rx_short_byte_eq (w i : Nat) : (w >>> (8 + i * 8)) &&& 0xff = le_byte w (i + 1) := by
  have h := Nat.and_pow_two_sub_one_eq_mod (w / 2 ^ (8 + i * 8)) 8
  norm_num at h
  have e : 8 + i * 8 = 8 * (i + 1) := by ring
  rw [Nat.shiftRight_eq_div_pow, h, le_byte, e, pow_mul]
  norm_num

theorem rx_short_stores_post (w cnt : Nat) (d : dsim_device) :
    rx_short_stores w cnt d
      = { d with
          buf := fun k => if k < cnt then le_byte w (k + 1) else d.buf k
          trace := d.trace ++ (List.range cnt).map (fun i => Event.buf_store i (le_byte w (i + 1))) } := by
  unfold rx_short_stores
  simp only [rx_short_byte_eq]
  rw [foldl_buf_store (fun i => i) (fun i => le_byte w (i + 1))]
  congr 1
  funext k
  have := foldl_buf_fun 0 (fun i => le_byte w (i + 1)) cnt d.buf k
  simp only [Nat.zero_add, Nat.zero_le, true_and, Nat.sub_zero] at this
  exact this

/-- The drain loop on a short response that is followed by an empty RX FIFO. -/
theorem rx_drain_short_response (hw : Hw) (cnt fuel depth rx_size : Nat) (d : dsim_device)
    (hdepth : depth ≠ 0)
    (htag : rx_word hw d.n_rx_fifo &&& 0xff = MIPI_DSI_RX_DCS_SHORT_READ_RESPONSE_1BYTE
      ∨ rx_word hw d.n_rx_fifo &&& 0xff = MIPI_DSI_RX_DCS_SHORT_READ_RESPONSE_2BYTE
      ∨ rx_word hw d.n_rx_fifo &&& 0xff = MIPI_DSI_RX_GENERIC_SHORT_READ_RESPONSE_1BYTE
      ∨ rx_word hw d.n_rx_fifo &&& 0xff = MIPI_DSI_RX_GENERIC_SHORT_READ_RESPONSE_2BYTE)
    (hempty : hw.rx_fifo_is_empty d.n_rx_fifo_is_empty = true) :
    rx_drain hw cnt (fuel + 1) depth rx_size d
      = some (int_of_u32 cnt,
          { d with
            n_rx_fifo := d.n_rx_fifo + 1
            n_rx_fifo_is_empty := d.n_rx_fifo_is_empty + 1
            buf := fun k =>
              if k < cnt then le_byte (rx_word hw d.n_rx_fifo) (k + 1) else d.buf k
            trace := d.trace ++
              (Event.dsim_reg_get_rx_fifo (rx_word hw d.n_rx_fifo)
                :: (List.range cnt).map
                    (fun i => Event.buf_store i (le_byte (rx_word hw d.n_rx_fifo) (i + 1))))
              ++ [Event.dsim_reg_rx_fifo_is_empty true] }) := by
  have hw1 : (dsim_reg_get_rx_fifo hw d).1 = rx_word hw d.n_rx_fifo := rfl
  have hparse : rx_parse hw cnt rx_size d
      = rx_step.next cnt (rx_short_stores (rx_word hw d.n_rx_fifo) cnt
          (dsim_reg_get_rx_fifo hw d).2) := by
    unfold rx_parse
    dsimp only
    rw [hw1]
    rcases htag with ht | ht | ht | ht <;>
      simp [ht, MIPI_DSI_RX_ACKNOWLEDGE_AND_ERROR_REPORT, MIPI_DSI_RX_END_OF_TRANSMISSION,
        MIPI_DSI_RX_DCS_SHORT_READ_RESPONSE_1BYTE, MIPI_DSI_RX_DCS_SHORT_READ_RESPONSE_2BYTE,
        MIPI_DSI_RX_GENERIC_SHORT_READ_RESPONSE_1BYTE,
        MIPI_DSI_RX_GENERIC_SHORT_READ_RESPONSE_2BYTE]
  rw [rx_drain, hparse, rx_short_stores_post]
  simp [dsim_reg_rx_fifo_is_empty, dsim_reg_get_rx_fifo, emit, hempty, rx_finish, hdepth, rx_word]

theorem buf_stores_append (a b : List Event) :
    buf_stores (a ++ b) = buf_stores a ++ buf_stores b := by
  simp [buf_stores, List.filterMap_append]

theorem buf_stores_eq_nil (evs : List Event) (hn : ∀ i v, Event.buf_store i v ∉ evs) :
    buf_stores evs = [] := by
  induction evs with
  | nil => rfl
  | cons e evs ih =>
    have ht : ∀ i v, Event.buf_store i v ∉ evs := fun i v hm =>
      hn i v (List.mem_cons_of_mem _ hm)
    have he : ∀ i v, e ≠ Event.buf_store i v := fun i v hc =>
      hn i v (by rw [hc]; exact List.mem_cons_self _ _)
    have e1 : buf_stores (e :: evs) = buf_stores [e] ++ buf_stores evs :=
      buf_stores_append [e] evs
    rw [e1, ih ht]
    cases e <;> first | rfl | exact absurd rfl (he _ _)

theorem buf_stores_map_store (f : Nat → Nat) (l : List Nat) :
    buf_stores (l.map (fun i => Event.buf_store i (f i))) = l.map (fun i => (i, f i)) := by
  induction l with
  | nil => rfl
  | cons a l ih =>
    have e1 : buf_stores (Event.buf_store a (f a) :: l.map (fun i => Event.buf_store i (f i)))
        = buf_stores [Event.buf_store a (f a)]
          ++ buf_stores (l.map (fun i => Event.buf_store i (f i))) :=
      buf_stores_append [_] _
    rw [List.map_cons, e1, ih]
    rfl

/-- C18, counterexample: a DCS short response whose tag announces 1 byte, read with `cnt` 3:
`dsim_read_data` stores three bytes, bits 8 to 15, 16 to 23 and 24 to 31 of the word, and
returns 3. -/
theorem dsim_read_data_short_response_counterexample :
    (dsim_read_data dsim_h_plain (hw_prompt (fun _ => 0) (fun _ => 0xCCBBAA21))
        MIPI_DSI_DCS_READ 0xDA 3 (dsim_device_fresh dsim_state.DSIM_STATE_ON)).map
          (fun r => (r.1, buf_stores r.2.trace))
      = some (3, [(0, 0xAA), (1, 0xBB), (2, 0xCC)]) := by
  decide

/-- C18, as amended: when `dsim_read_data` reaches the drain loop, the RX FIFO depth constant
is not 0, the first RX FIFO word carries one of the four short-read-response tags, `cnt` is at
most 3 and the RX FIFO is reported empty after that word, then `dsim_read_data` returns `cnt`
and has stored exactly `cnt` bytes: byte `i` of the buffer is bits `8 + 8 * i` to
`15 + 8 * i` of the word, for `i < cnt`, whatever the tag says about 1 or 2 bytes; the rest of
the buffer is untouched and no further FIFO word is read. -/
theorem dsim_read_data_short_response (h : dsim_h) (hw : Hw) (id addr cnt : Nat)
    (d : dsim_device)
    (hoff : h.IS_DSIM_OFF_STATE d.state = false)
    (hrd : hw.rd_comp d.n_rd_comp = true)
    (hdepth : u32 h.DSIM_RX_FIFO_MAX_DEPTH ≠ 0)
    (htag : rx_word hw d.n_rx_fifo &&& 0xff = MIPI_DSI_RX_DCS_SHORT_READ_RESPONSE_1BYTE
      ∨ rx_word hw d.n_rx_fifo &&& 0xff = MIPI_DSI_RX_DCS_SHORT_READ_RESPONSE_2BYTE
      ∨ rx_word hw d.n_rx_fifo &&& 0xff = MIPI_DSI_RX_GENERIC_SHORT_READ_RESPONSE_1BYTE
      ∨ rx_word hw d.n_rx_fifo &&& 0xff = MIPI_DSI_RX_GENERIC_SHORT_READ_RESPONSE_2BYTE)
    (hcnt : cnt ≤ 3)
    (hempty : hw.rx_fifo_is_empty d.n_rx_fifo_is_empty = true) :
    ∃ d' : dsim_device,
      dsim_read_data h hw id addr cnt d = some ((cnt : Int), d')
        ∧ d'.n_rx_fifo = d.n_rx_fifo + 1
        ∧ (∀ i, i < cnt → d'.buf i = le_byte (rx_word hw d.n_rx_fifo) (i + 1))
        ∧ (∀ k, cnt ≤ k → d'.buf k = d.buf k)
        ∧ buf_stores (d'.trace.drop d.trace.length)
          = (List.range cnt).map (fun i => (i, le_byte (rx_word hw d.n_rx_fifo) (i + 1))) := by
  obtain ⟨r1, d1, hw1, f1⟩ := dsim_write_data_frame h hw MIPI_DSI_SET_MAXIMUM_RETURN_PACKET_SIZE
    cnt (emit (Event.dsim_reg_clear_int intsrc.DSIM_INTSRC_RX_DATA_DONE)
      (emit Event.reinit_completion_rd_comp (emit Event.decon_hiber_block_exit d)))
  obtain ⟨r2, d2, hw2, f2⟩ := dsim_write_data_frame h hw id addr d1
  obtain ⟨_, g2, g3, g4, g5, evs, gt, gn⟩ := cmd_frame_trans f1 f2
  have g2' : d2.buf = d.buf := g2
  have g3' : d2.n_rx_fifo = d.n_rx_fifo := g3
  have g4' : d2.n_rd_comp = d.n_rd_comp := g4
  have g5' : d2.n_rx_fifo_is_empty = d.n_rx_fifo_is_empty := g5
  have gt' : d2.trace = d.trace ++ ([Event.decon_hiber_block_exit,
      Event.reinit_completion_rd_comp,
      Event.dsim_reg_clear_int intsrc.DSIM_INTSRC_RX_DATA_DONE] ++ evs) := by
    rw [gt]; simp [emit]
  have hwait : (wait_for_completion_rd_comp hw d2).1 = true := by
    show hw.rd_comp d2.n_rd_comp = true
    rw [g4']; exact hrd
  have hoff' : h.IS_DSIM_OFF_STATE (emit Event.decon_hiber_block_exit d).state = false := hoff
  have e : (4294967296 : Nat) = 4294967295 + 1 := by norm_num
  have hd := rx_drain_short_response hw cnt 4294967295 (u32 h.DSIM_RX_FIFO_MAX_DEPTH) 0
    (emit Event.mutex_lock (wait_for_completion_rd_comp hw d2).2) hdepth
    (by show rx_word hw d2.n_rx_fifo &&& 0xff = _ ∨ rx_word hw d2.n_rx_fifo &&& 0xff = _
          ∨ rx_word hw d2.n_rx_fifo &&& 0xff = _ ∨ rx_word hw d2.n_rx_fifo &&& 0xff = _
        rw [g3']; exact htag)
    (by show hw.rx_fifo_is_empty d2.n_rx_fifo_is_empty = true
        rw [g5']; exact hempty)
  have hread : dsim_read_data h hw id addr cnt d = some ((cnt : Int),
      emit Event.decon_hiber_unblock (emit Event.mutex_unlock
        { emit Event.mutex_lock (wait_for_completion_rd_comp hw d2).2 with
          n_rx_fifo := d.n_rx_fifo + 1
          n_rx_fifo_is_empty := d.n_rx_fifo_is_empty + 1
          buf := fun k =>
            if k < cnt then le_byte (rx_word hw d.n_rx_fifo) (k + 1) else d.buf k
          trace := (d.trace ++ ([Event.decon_hiber_block_exit,
              Event.reinit_completion_rd_comp,
              Event.dsim_reg_clear_int intsrc.DSIM_INTSRC_RX_DATA_DONE] ++ evs))
            ++ [Event.wait_for_completion_rd_comp true, Event.mutex_lock]
            ++ (Event.dsim_reg_get_rx_fifo (rx_word hw d.n_rx_fifo)
                :: (List.range cnt).map
                    (fun i => Event.buf_store i (le_byte (rx_word hw d.n_rx_fifo) (i + 1))))
            ++ [Event.dsim_reg_rx_fifo_is_empty true] })) := by
    unfold dsim_read_data
    simp only [hoff', hw1, hw2, hwait, e, hd, int_of_u32_small cnt (by omega)]
    simp [emit, wait_for_completion_rd_comp, g2', g3', g4', g5', gt', hrd]
  refine ⟨_, hread, rfl, ?_, ?_, ?_⟩
  · intro i hi
    simp [emit, hi]
  · intro k hk
    have hk' : ¬ k < cnt := by omega
    simp [emit, hk']
  · have hns : buf_stores evs = [] := buf_stores_eq_nil evs gn
    simp only [emit, List.append_assoc]
    rw [List.drop_left' rfl]
    have hcons : ∀ (e : Event) (l : List Event), e :: l = [e] ++ l := fun _ _ => rfl
    rw [hcons (Event.dsim_reg_get_rx_fifo (rx_word hw d.n_rx_fifo))]
    simp only [buf_stores_append, hns, buf_stores_map_store]
    simp [buf_stores]

/-- C18, worked example: a DCS short response with two data bytes, read with `cnt` 2. -/
theorem dsim_read_data_short_response_witness :
    ∃ d' : dsim_device,
      dsim_read_data dsim_h_plain (hw_prompt (fun _ => 0) (fun _ => 0x00BBAA22))
          MIPI_DSI_DCS_READ 0xDA 2 (dsim_device_fresh dsim_state.DSIM_STATE_ON)
        = some (((2 : Nat) : Int), d')
        ∧ d'.n_rx_fifo = (dsim_device_fresh dsim_state.DSIM_STATE_ON).n_rx_fifo + 1
        ∧ (∀ i, i < 2 → d'.buf i
            = le_byte (rx_word (hw_prompt (fun _ => 0) (fun _ => 0x00BBAA22))
                (dsim_device_fresh dsim_state.DSIM_STATE_ON).n_rx_fifo) (i + 1))
        ∧ (∀ k, 2 ≤ k → d'.buf k = (dsim_device_fresh dsim_state.DSIM_STATE_ON).buf k)
        ∧ buf_stores (d'.trace.drop (dsim_device_fresh dsim_state.DSIM_STATE_ON).trace.length)
          = (List.range 2).map (fun i =>
              (i, le_byte (rx_word (hw_prompt (fun _ => 0) (fun _ => 0x00BBAA22))
                (dsim_device_fresh dsim_state.DSIM_STATE_ON).n_rx_fifo) (i + 1))) :=
  dsim_read_data_short_response dsim_h_plain (hw_prompt (fun _ => 0) (fun _ => 0x00BBAA22))
    MIPI_DSI_DCS_READ 0xDA 2 (dsim_device_fresh dsim_state.DSIM_STATE_ON)
    rfl rfl (by decide) (Or.inr (Or.inl (by decide))) (by decide) rfl

/-! ## Command channel: the bound on the RX drain -/

theorem rx_parse_n_rx_fifo_is_empty (hw : Hw) (cnt rx_size : Nat) (d : dsim_device) :
    (rx_parse hw cnt rx_size d).dev.n_rx_fifo_is_empty = d.n_rx_fifo_is_empty := by
  unfold rx_parse
  dsimp only
  split_ifs
  · rfl
  · rfl
  · rfl
  · show (rx_short_stores _ cnt _).n_rx_fifo_is_empty = _
    rw [rx_short_stores_post]
    rfl
  · show (rx_long_payload hw _ _).n_rx_fifo_is_empty = _
    rw [(rx_long_payload_post hw _ _).2.1]
    rfl
  · rfl

theorem rx_parse_exit (hw : Hw) (cnt rx_size : Nat) (d : dsim_device) (ret : Int)
    (de : dsim_device) (hp : rx_parse hw cnt rx_size d = rx_step.exit ret de) :
    ret < 0 ∧ ∃ pre : List Event, de.trace = pre ++ [Event.dsim_dump_sfr] := by
  unfold rx_parse at hp
  dsimp only at hp
  split_ifs at hp with h1 h2
  · cases hp
    exact ⟨h2, _, rfl⟩
  · cases hp
    exact ⟨by decide, _, rfl⟩

theorem rx_drain_mono (hw : Hw) (cnt : Nat) :
    ∀ (fuel depth rx_size : Nat) (d : dsim_device) (x : Int × dsim_device),
      rx_drain hw cnt fuel depth rx_size d = some x →
      rx_drain hw cnt (fuel + 1) depth rx_size d = some x := by
  intro fuel
  induction fuel with
  | zero => intro depth rx_size d x hx; simp [rx_drain] at hx
  | succ f ih =>
    intro depth rx_size d x hx
    rw [rx_drain] at hx
    rw [rx_drain]
    cases hparse : rx_parse hw cnt rx_size d with
    | exit ret de => rw [hparse] at hx; exact hx
    | next rx_size1 dn =>
      rw [hparse] at hx
      dsimp only at hx ⊢
      split_ifs at hx ⊢ with h1 h2
      · exact ih _ _ _ _ hx
      · exact hx
      · exact hx

theorem rx_drain_mono_le (hw : Hw) (cnt : Nat) (fuel fuel' depth rx_size : Nat)
    (d : dsim_device) (x : Int × dsim_device) (hle : fuel ≤ fuel')
    (hx : rx_drain hw cnt fuel depth rx_size d = some x) :
    rx_drain hw cnt fuel' depth rx_size d = some x := by
  induction fuel' with
  | zero =>
    have : fuel = 0 := by omega
    subst this; exact hx
  | succ f ih =>
    by_cases hf : fuel = f + 1
    · subst hf; exact hx
    · exact rx_drain_mono hw cnt f depth rx_size d x (ih (by omega))

/-- The drain loop entered with a counter `depth` between 1 and the number of passes it is
given: it ends, it asks at most `depth` times whether the RX FIFO is empty, and when the answer
is "not empty" every time it ends with a negative code right after a register dump; that code
is `-EBUSY` when all `depth` questions were asked. -/
theorem rx_drain_bounded (hw : Hw) (cnt : Nat) :
    ∀ (fuel depth rx_size : Nat) (d : dsim_device), depth ≠ 0 → depth ≤ fuel →
      depth < 4294967296 →
      ∃ (r : Int) (d' : dsim_device),
        rx_drain hw cnt fuel depth rx_size d = some (r, d')
          ∧ d'.n_rx_fifo_is_empty ≤ d.n_rx_fifo_is_empty + depth
          ∧ ((∀ k, k < depth → hw.rx_fifo_is_empty (d.n_rx_fifo_is_empty + k) = false) →
              r < 0 ∧ (∃ pre : List Event, d'.trace = pre ++ [Event.dsim_dump_sfr])
                ∧ (d'.n_rx_fifo_is_empty = d.n_rx_fifo_is_empty + depth → r = -EBUSY)) := by
  intro fuel
  induction fuel with
  | zero => intro depth rx_size d h0 hle _; omega
  | succ f ih =>
    intro depth rx_size d h0 hle hlt
    have hne := rx_parse_n_rx_fifo_is_empty hw cnt rx_size d
    rw [rx_drain]
    cases hparse : rx_parse hw cnt rx_size d with
    | exit ret de =>
      rw [hparse] at hne
      have hne' : de.n_rx_fifo_is_empty = d.n_rx_fifo_is_empty := hne
      obtain ⟨hneg, pre, htr⟩ := rx_parse_exit hw cnt rx_size d ret de hparse
      refine ⟨ret, de, rfl, by omega, ?_⟩
      intro _
      exact ⟨hneg, ⟨pre, htr⟩, fun hc => by omega⟩
    | next rx_size1 dn =>
      rw [hparse] at hne
      have hne' : dn.n_rx_fifo_is_empty = d.n_rx_fifo_is_empty := hne
      have hq1 : (dsim_reg_rx_fifo_is_empty hw dn).1
          = hw.rx_fifo_is_empty d.n_rx_fifo_is_empty := by
        show hw.rx_fifo_is_empty dn.n_rx_fifo_is_empty = _
        rw [hne']
      have hq2 : (dsim_reg_rx_fifo_is_empty hw dn).2.n_rx_fifo_is_empty
          = d.n_rx_fifo_is_empty + 1 := by
        show dn.n_rx_fifo_is_empty + 1 = _
        rw [hne']
      have hsub : u32_sub depth 1 = depth - 1 := by unfold u32_sub; omega
      dsimp only
      rw [hsub]
      cases hemp : hw.rx_fifo_is_empty d.n_rx_fifo_is_empty with
      | true =>
        rw [hq1, hemp]
        simp only [Bool.not_true, Bool.false_eq_true, if_false]
        refine ⟨(rx_finish depth rx_size1 (dsim_reg_rx_fifo_is_empty hw dn).2).1,
          (rx_finish depth rx_size1 (dsim_reg_rx_fifo_is_empty hw dn).2).2, by simp, ?_, ?_⟩
        · simp only [rx_finish, h0, if_false]
          rw [hq2]; omega
        · intro hall
          have := hall 0 (by omega)
          rw [Nat.add_zero, hemp] at this
          cases this
      | false =>
        rw [hq1, hemp]
        simp only [Bool.not_false, if_true]
        by_cases h1 : depth - 1 = 0
        · simp only [h1, ne_eq, not_true_eq_false, if_false]
          refine ⟨-EBUSY, dsim_dump_sfr (dsim_reg_rx_fifo_is_empty hw dn).2, by simp [rx_finish],
            ?_, ?_⟩
          · show (dsim_reg_rx_fifo_is_empty hw dn).2.n_rx_fifo_is_empty ≤ _
            rw [hq2]; omega
          · intro _
            exact ⟨by decide, ⟨_, rfl⟩, fun _ => rfl⟩
        · simp only [h1, ne_eq, not_false_eq_true, if_true]
          obtain ⟨r, d', hr, hle', hall'⟩ := ih (depth - 1) rx_size1
            (dsim_reg_rx_fifo_is_empty hw dn).2 h1 (by omega) (by omega)
          rw [hq2] at hle' hall'
          refine ⟨r, d', hr, by omega, ?_⟩
          intro hall
          obtain ⟨a1, a2, a3⟩ := hall' (fun k hk => by
            have e : d.n_rx_fifo_is_empty + 1 + k = d.n_rx_fifo_is_empty + (k + 1) := by omega
            rw [e]
            exact hall (k + 1) (by omega))
          exact ⟨a1, a2, fun hc => a3 (by omega)⟩

/-- C16: let the RX FIFO depth constant be positive (and a `u32`).  From every loop state the
drain loop of `dsim_read_data` ends within `DSIM_RX_FIFO_MAX_DEPTH` passes (that many passes
give the result the code computes) and asks at most that many times whether the RX FIFO is
empty; `dsim_read_data` returns for every behaviour of the hardware; and when it reaches the
drain loop and the RX FIFO is reported not empty every time, it returns a negative code right
after a register dump, never a byte count, and that code is `-EBUSY` when all
`DSIM_RX_FIFO_MAX_DEPTH` passes reached the loop condition. -/
theorem dsim_read_data_drain_bounded (h : dsim_h) (hw : Hw) (id addr cnt : Nat)
    (d : dsim_device)
    (hpos : 0 < h.DSIM_RX_FIFO_MAX_DEPTH) (hlt : h.DSIM_RX_FIFO_MAX_DEPTH < 4294967296) :
    (∀ (rx_size : Nat) (dl : dsim_device), ∃ (r : Int) (d' : dsim_device),
        rx_drain hw cnt h.DSIM_RX_FIFO_MAX_DEPTH (u32 h.DSIM_RX_FIFO_MAX_DEPTH) rx_size dl
          = some (r, d')
        ∧ rx_drain hw cnt 4294967296 (u32 h.DSIM_RX_FIFO_MAX_DEPTH) rx_size dl = some (r, d')
        ∧ d'.n_rx_fifo_is_empty ≤ dl.n_rx_fifo_is_empty + h.DSIM_RX_FIFO_MAX_DEPTH)
      ∧ (∃ (r : Int) (d' : dsim_device),
          dsim_read_data h hw id addr cnt d = some (r, d')
          ∧ d'.n_rx_fifo_is_empty ≤ d.n_rx_fifo_is_empty + h.DSIM_RX_FIFO_MAX_DEPTH)
      ∧ (h.IS_DSIM_OFF_STATE d.state = false → hw.rd_comp d.n_rd_comp = true →
          (∀ k, k < h.DSIM_RX_FIFO_MAX_DEPTH →
            hw.rx_fifo_is_empty (d.n_rx_fifo_is_empty + k) = false) →
          ∃ (r : Int) (d' : dsim_device) (pre : List Event),
            dsim_read_data h hw id addr cnt d = some (r, d')
            ∧ r < 0
            ∧ d'.trace = pre ++
                [Event.dsim_dump_sfr, Event.mutex_unlock, Event.decon_hiber_unblock]
            ∧ (d'.n_rx_fifo_is_empty
                  = d.n_rx_fifo_is_empty + h.DSIM_RX_FIFO_MAX_DEPTH → r = -EBUSY)) := by
  have hu : u32 h.DSIM_RX_FIFO_MAX_DEPTH = h.DSIM_RX_FIFO_MAX_DEPTH := by unfold u32; omega
  rw [hu]
  have hloop : ∀ (rx_size : Nat) (dl : dsim_device), ∃ (r : Int) (d' : dsim_device),
      rx_drain hw cnt h.DSIM_RX_FIFO_MAX_DEPTH h.DSIM_RX_FIFO_MAX_DEPTH rx_size dl
        = some (r, d')
      ∧ rx_drain hw cnt 4294967296 h.DSIM_RX_FIFO_MAX_DEPTH rx_size dl = some (r, d')
      ∧ d'.n_rx_fifo_is_empty ≤ dl.n_rx_fifo_is_empty + h.DSIM_RX_FIFO_MAX_DEPTH
      ∧ ((∀ k, k < h.DSIM_RX_FIFO_MAX_DEPTH →
            hw.rx_fifo_is_empty (dl.n_rx_fifo_is_empty + k) = false) →
          r < 0 ∧ (∃ pre : List Event, d'.trace = pre ++ [Event.dsim_dump_sfr])
            ∧ (d'.n_rx_fifo_is_empty
                = dl.n_rx_fifo_is_empty + h.DSIM_RX_FIFO_MAX_DEPTH → r = -EBUSY)) := by
    intro rx_size dl
    obtain ⟨r, d', hr, hle, hall⟩ := rx_drain_bounded hw cnt h.DSIM_RX_FIFO_MAX_DEPTH
      h.DSIM_RX_FIFO_MAX_DEPTH rx_size dl (by omega) (le_refl _) hlt
    exact ⟨r, d', hr, rx_drain_mono_le hw cnt _ 4294967296 _ _ _ _ (by omega) hr, hle, hall⟩
  obtain ⟨r1, d1, hw1, f1⟩ := dsim_write_data_frame h hw MIPI_DSI_SET_MAXIMUM_RETURN_PACKET_SIZE
    cnt (emit (Event.dsim_reg_clear_int intsrc.DSIM_INTSRC_RX_DATA_DONE)
      (emit Event.reinit_completion_rd_comp (emit Event.decon_hiber_block_exit d)))
  obtain ⟨r2, d2, hw2, f2⟩ := dsim_write_data_frame h hw id addr d1
  obtain ⟨_, _, _, g4, g5, _⟩ := cmd_frame_trans f1 f2
  have g4' : d2.n_rd_comp = d.n_rd_comp := g4
  have g5' : d2.n_rx_fifo_is_empty = d.n_rx_fifo_is_empty := g5
  obtain ⟨r, d', _, hr, hle, hall⟩ := hloop 0
    (emit Event.mutex_lock (wait_for_completion_rd_comp hw d2).2)
  have hle' : d'.n_rx_fifo_is_empty ≤ d.n_rx_fifo_is_empty + h.DSIM_RX_FIFO_MAX_DEPTH := by
    have e : (emit Event.mutex_lock (wait_for_completion_rd_comp hw d2).2).n_rx_fifo_is_empty
        = d2.n_rx_fifo_is_empty := rfl
    rw [e, g5'] at hle
    exact hle
  refine ⟨fun rx_size dl => ?_, ?_, ?_⟩
  · obtain ⟨r, d', a, b, c, _⟩ := hloop rx_size dl
    exact ⟨r, d', a, b, c⟩
  · by_cases hoff : h.IS_DSIM_OFF_STATE d.state = true
    · have hoff' : h.IS_DSIM_OFF_STATE (emit Event.decon_hiber_block_exit d).state = true := hoff
      refine ⟨-EINVAL, emit Event.decon_hiber_unblock (emit Event.decon_hiber_block_exit d),
        ?_, ?_⟩
      · unfold dsim_read_data
        simp only [hoff', if_true]
      · show d.n_rx_fifo_is_empty ≤ _
        omega
    · have hoff' : h.IS_DSIM_OFF_STATE (emit Event.decon_hiber_block_exit d).state = false := by
        simpa using hoff
      cases hrd : hw.rd_comp d.n_rd_comp with
      | false =>
        have hwait : (wait_for_completion_rd_comp hw d2).1 = false := by
          show hw.rd_comp d2.n_rd_comp = false
          rw [g4']; exact hrd
        refine ⟨-ETIMEDOUT, (wait_for_completion_rd_comp hw d2).2, ?_, ?_⟩
        · unfold dsim_read_data
          simp only [hoff', hw1, hw2, hwait]
          simp
        · show d2.n_rx_fifo_is_empty ≤ _
          rw [g5']; omega
      | true =>
        have hwait : (wait_for_completion_rd_comp hw d2).1 = true := by
          show hw.rd_comp d2.n_rd_comp = true
          rw [g4']; exact hrd
        refine ⟨r, emit Event.decon_hiber_unblock (emit Event.mutex_unlock d'), ?_, hle'⟩
        unfold dsim_read_data
        simp only [hoff', hw1, hw2, hwait, hu, hr]
        simp
  · intro hoff hrd hnever
    have hoff' : h.IS_DSIM_OFF_STATE (emit Event.decon_hiber_block_exit d).state = false := hoff
    have hwait : (wait_for_completion_rd_comp hw d2).1 = true := by
      show hw.rd_comp d2.n_rd_comp = true
      rw [g4']; exact hrd
    have e : (emit Event.mutex_lock (wait_for_completion_rd_comp hw d2).2).n_rx_fifo_is_empty
        = d.n_rx_fifo_is_empty := g5'
    rw [e] at hall
    obtain ⟨hneg, ⟨pre, htr⟩, hbusy⟩ := hall hnever
    refine ⟨r, emit Event.decon_hiber_unblock (emit Event.mutex_unlock d'), pre, ?_, hneg, ?_,
      hbusy⟩
    · unfold dsim_read_data
      simp only [hoff', hw1, hw2, hwait, hu, hr]
      simp
    · show d'.trace ++ [Event.mutex_unlock] ++ [Event.decon_hiber_unblock] = _
      rw [htr]
      simp

/-- C16, worked example: an RX FIFO that delivers end-of-transmission words and is never
reported empty, drained by a device in state ON with a depth of 64. -/
theorem dsim_read_data_drain_bounded_witness :
    ∃ (r : Int) (d' : dsim_device) (pre : List Event),
      dsim_read_data dsim_h_plain (hw_rx_flood (fun _ => 0) (fun _ => 0x08))
          MIPI_DSI_DCS_READ 0xDA 1 (dsim_device_fresh dsim_state.DSIM_STATE_ON) = some (r, d')
        ∧ r < 0
        ∧ d'.trace = pre ++
            [Event.dsim_dump_sfr, Event.mutex_unlock, Event.decon_hiber_unblock]
        ∧ (d'.n_rx_fifo_is_empty
              = (dsim_device_fresh dsim_state.DSIM_STATE_ON).n_rx_fifo_is_empty
                + dsim_h_plain.DSIM_RX_FIFO_MAX_DEPTH → r = -EBUSY) :=
  (dsim_read_data_drain_bounded dsim_h_plain (hw_rx_flood (fun _ => 0) (fun _ => 0x08))
    MIPI_DSI_DCS_READ 0xDA 1 (dsim_device_fresh dsim_state.DSIM_STATE_ON)
    (by decide) (by decide)).2.2 rfl rfl (fun _ _ => rfl)

set_option maxRecDepth 20000 in
/-- The same drain, evaluated: 64 words are read, the RX FIFO is asked 64 times, and the
result is `-EBUSY`. -/
theorem dsim_read_data_drain_exhausted :
    (dsim_read_data dsim_h_plain (hw_rx_flood (fun _ => 0) (fun _ => 0x08))
        MIPI_DSI_DCS_READ 0xDA 1 (dsim_device_fresh dsim_state.DSIM_STATE_ON)).map
          (fun r => (r.1, r.2.n_rx_fifo, r.2.n_rx_fifo_is_empty,
            r.2.trace.count Event.dsim_dump_sfr))
      = some (-EBUSY, 64, 64, 1) := by
  decide

/-! ## Command channel: payload and header of a long write -/

theorem and_0xff (n : Nat) : n &&& 0xff = n % 256 := by
  have h := Nat.and_pow_two_sub_one_eq_mod n 8
  norm_num at h
  exact h

theorem and_0xff00_shift (n : Nat) : (n &&& 0xff00) >>> 8 = n / 256 % 256 := by
  have e1 : (0xff00 : Nat) = 0xff <<< 8 := by decide
  have e2 : n / 256 % 256 = (n >>> 8) &&& 0xff := by
    rw [and_0xff, Nat.shiftRight_eq_div_pow]
  rw [e2]
  apply Nat.eq_of_testBit_eq
  intro i
  rw [e1]
  simp only [Nat.testBit_shiftRight, Nat.testBit_and, Nat.testBit_shiftLeft]
  have : 8 + i - 8 = i := by omega
  simp [this]

theorem tx_calls_emit (e : Event) (d : dsim_device) :
    tx_calls (emit e d).trace = tx_calls d.trace ++ (if is_tx_call e then [e] else []) := by
  unfold tx_calls emit
  simp only [List.filter_append]
  split <;> simp_all

theorem tx_calls_wait (h : dsim_h) (hw : Hw) (must_wait : Bool) (d : dsim_device) :
    tx_calls (dsim_wait_for_cmd_fifo_empty h hw must_wait d).2.trace = tx_calls d.trace := by
  unfold dsim_wait_for_cmd_fifo_empty dsim_wait_for_cmd_fifo_empty_ret
    wait_for_completion_ph_wr_comp dsim_reg_header_fifo_is_empty del_timer dsim_dump_sfr
  dsimp only
  split_ifs <;> simp [tx_calls_emit, is_tx_call]

theorem tx_calls_fifo_empty_needed (hw : Hw) (data_id data0 : Nat) (d : dsim_device) :
    tx_calls (dsim_fifo_empty_needed hw data_id data0 d).2.trace = tx_calls d.trace := by
  unfold dsim_fifo_empty_needed dsim_reg_is_writable_fifo_state
  dsimp only
  split_ifs <;> simp [tx_calls_emit, is_tx_call]

theorem tx_calls_payload (ws : List Nat) :
    tx_calls (ws.map Event.dsim_reg_wr_tx_payload) = ws.map Event.dsim_reg_wr_tx_payload := by
  unfold tx_calls
  rw [List.filter_eq_self]
  intro e he
  obtain ⟨w, _, rfl⟩ := List.mem_map.mp he
  rfl

/-- The TX FIFO writes of a long write of at most 2^32 - 4 bytes in a state `IS_DSIM_ON_STATE`
accepts: the payload words, then one header with the two length bytes. -/
theorem dsim_write_data_long_tx (h : dsim_h) (hw : Hw) (id d0 d1 : Nat) (d : dsim_device)
    (hon : h.IS_DSIM_ON_STATE d.state = true) (hid : id ∈ long_write_ids)
    (hlen : d1 ≤ 4294967292) :
    ∃ (r : Int) (d' : dsim_device),
      dsim_write_data h hw id d0 d1 d = some (r, d')
        ∧ tx_calls d'.trace
          = tx_calls d.trace
            ++ ((List.range ((d1 + 3) / 4)).map (payload_word hw d0 d1)).map
                Event.dsim_reg_wr_tx_payload
            ++ [Event.dsim_reg_wr_tx_header id (d1 % 256) (d1 / 256 % 256) false] := by
  have hrun := dsim_long_data_wr_loop_run hw d0 d1 hlen ((d1 + 3) / 4) 0 1073741825 0
    (dsim_write_data_prologue d) (by omega) (by omega)
  have hlong : dsim_long_data_wr hw d0 d1 (dsim_write_data_prologue d)
      = some { dsim_write_data_prologue d with
          trace := (dsim_write_data_prologue d).trace ++
            ((List.range' 0 ((d1 + 3) / 4)).map (payload_word hw d0 d1)).map
              Event.dsim_reg_wr_tx_payload } := hrun
  have hns : id ∉ short_write_ids := by
    simp only [long_write_ids, List.mem_cons, List.mem_singleton, List.not_mem_nil,
      or_false] at hid
    rcases hid with rfl | rfl | rfl <;> decide
  have hnr : id ∉ read_request_ids := by
    simp only [long_write_ids, List.mem_cons, List.mem_singleton, List.not_mem_nil,
      or_false] at hid
    rcases hid with rfl | rfl | rfl <;> decide
  have hpro : tx_calls (dsim_write_data_prologue d).trace = tx_calls d.trace := by
    simp [dsim_write_data_prologue, mod_timer, tx_calls_emit, is_tx_call]
  have hp := tx_calls_payload ((List.range' 0 ((d1 + 3) / 4)).map (payload_word hw d0 d1))
  have happ : ∀ a b : List Event, tx_calls (a ++ b) = tx_calls a ++ tx_calls b := fun a b => by
    simp [tx_calls, List.filter_append]
  rw [dsim_write_data_on h hw id d0 d1 d hon]
  unfold dsim_write_data_switch
  simp only [hns, hnr, hid, if_true, if_false, hlong, Option.map_some']
  refine ⟨_, _, rfl, ?_⟩
  rw [tx_calls_emit, tx_calls_emit, tx_calls_wait, tx_calls_fifo_empty_needed, tx_calls_emit]
  show (tx_calls ((dsim_write_data_prologue d).trace ++ _) ++ _) ++ _ ++ _ = _
  rw [happ, hp, hpro, and_0xff, and_0xff00_shift, List.range_eq_range']
  simp [is_tx_call]

/-- C20, counterexample: a DCS long write of 65536 bytes in state ON streams 16384 payload
words and then writes a header whose two length bytes are both 0: the header announces
0 bytes, not the 65536 that were streamed. -/
theorem dsim_write_data_long_header_counterexample :
    ∃ (r : Int) (d' : dsim_device) (ws : List Nat),
      dsim_write_data dsim_h_plain (hw_prompt (fun _ => 0) (fun _ => 0))
          MIPI_DSI_DCS_LONG_WRITE 0 65536 (dsim_device_fresh dsim_state.DSIM_STATE_ON)
        = some (r, d')
      ∧ tx_calls d'.trace
        = ws.map Event.dsim_reg_wr_tx_payload
          ++ [Event.dsim_reg_wr_tx_header MIPI_DSI_DCS_LONG_WRITE 0 0 false]
      ∧ ws.length = 16384
      ∧ (0 : Nat) + 256 * 0 ≠ 65536 := by
  obtain ⟨r, d', hr, htx⟩ := dsim_write_data_long_tx dsim_h_plain
    (hw_prompt (fun _ => 0) (fun _ => 0)) MIPI_DSI_DCS_LONG_WRITE 0 65536
    (dsim_device_fresh dsim_state.DSIM_STATE_ON) rfl (by decide) (by decide)
  refine ⟨r, d', (List.range ((65536 + 3) / 4)).map
    (payload_word (hw_prompt (fun _ => 0) (fun _ => 0)) 0 65536), hr, ?_, by simp, by decide⟩
  have h0 : tx_calls (dsim_device_fresh dsim_state.DSIM_STATE_ON).trace = [] := rfl
  rw [htx, h0, List.nil_append]

/-- C20, as amended: for every long write of a payload of `d1 ≤ 0xFFFF` bytes in a state
`IS_DSIM_ON_STATE` accepts, `dsim_write_data` returns, and its writes to the TX FIFOs are, in
this order, `ceil(d1 / 4)` payload words, whose bytes, low byte first, begin with the `d1`
payload bytes, and then one header, with `data0 = d1 mod 256` and
`data1 = (d1 div 256) mod 256`, so that `data0 + 256 * data1 = d1`. -/
theorem dsim_write_data_long_header (h : dsim_h) (hw : Hw) (id d0 d1 : Nat) (d : dsim_device)
    (hon : h.IS_DSIM_ON_STATE d.state = true) (hid : id ∈ long_write_ids)
    (hlen : d1 ≤ 0xFFFF) :
    ∃ (r : Int) (d' : dsim_device) (ws : List Nat),
      dsim_write_data h hw id d0 d1 d = some (r, d')
        ∧ tx_calls d'.trace
          = tx_calls d.trace ++ ws.map Event.dsim_reg_wr_tx_payload
            ++ [Event.dsim_reg_wr_tx_header id (d1 % 256) (d1 / 256 % 256) false]
        ∧ ws.length = (d1 + 3) / 4
        ∧ (ws.flatMap le_bytes).take d1 = (List.range d1).map (fun i => rd_u8 hw (d0 + i))
        ∧ d1 % 256 + 256 * (d1 / 256 % 256) = d1 := by
  obtain ⟨r, d', hr, htx⟩ := dsim_write_data_long_tx h hw id d0 d1 d hon hid (by omega)
  refine ⟨r, d', (List.range ((d1 + 3) / 4)).map (payload_word hw d0 d1), hr, htx, by simp,
    ?_, by omega⟩
  rw [flatMap_le_bytes_payload, map_payload_byte_range hw d0 d1 _ (by omega)]
  exact List.take_left' (by simp)

/-- C20, worked example: a DCS long write of the 5 bytes 1, 2, 3, 4, 5. -/
theorem dsim_write_data_long_header_witness :
    ∃ (r : Int) (d' : dsim_device) (ws : List Nat),
      dsim_write_data dsim_h_plain (hw_prompt (fun a => a + 1) (fun _ => 0))
          MIPI_DSI_DCS_LONG_WRITE 0 5 (dsim_device_fresh dsim_state.DSIM_STATE_ON)
        = some (r, d')
        ∧ tx_calls d'.trace
          = tx_calls (dsim_device_fresh dsim_state.DSIM_STATE_ON).trace
            ++ ws.map Event.dsim_reg_wr_tx_payload
            ++ [Event.dsim_reg_wr_tx_header MIPI_DSI_DCS_LONG_WRITE (5 % 256) (5 / 256 % 256)
                  false]
        ∧ ws.length = (5 + 3) / 4
        ∧ (ws.flatMap le_bytes).take 5
          = (List.range 5).map
              (fun i => rd_u8 (hw_prompt (fun a => a + 1) (fun _ => 0)) (0 + i))
        ∧ 5 % 256 + 256 * (5 / 256 % 256) = 5 :=
  dsim_write_data_long_header dsim_h_plain (hw_prompt (fun a => a + 1) (fun _ => 0))
    MIPI_DSI_DCS_LONG_WRITE 0 5 (dsim_device_fresh dsim_state.DSIM_STATE_ON)
    rfl (by decide) (by decide)

/-! ## Command channel: a read while the link is off -/

/-- C21: when `IS_DSIM_OFF_STATE` holds of the device (the link is OFF), `dsim_read_data`
returns `-EINVAL`, a negative code, for every packet type, address and count, and the device
it leaves differs from the one it found only by the two calls `decon_hiber_block_exit` and
`decon_hiber_unblock` in the trace: no command write (no lock, no header or payload word, no
timer arm), no completion reset, no interrupt clear, no wait, no read of the RX FIFO, and the
output buffer, the link state and every hardware cursor are unchanged. -/
theorem dsim_read_data_not_ready (h : dsim_h) (hw : Hw) (id addr cnt : Nat) (d : dsim_device)
    (hoff : h.IS_DSIM_OFF_STATE d.state = true) :
    dsim_read_data h hw id addr cnt d =
        some (-EINVAL, { d with trace := d.trace ++
          [Event.decon_hiber_block_exit, Event.decon_hiber_unblock] })
      ∧ -EINVAL < 0 := by
  refine ⟨?_, by decide⟩
  simp [dsim_read_data, emit, hoff]

/-- C21, worked example: a DCS read of one byte from a device in state OFF. -/
theorem dsim_read_data_not_ready_witness :
    dsim_h_plain.IS_DSIM_OFF_STATE (dsim_device_fresh dsim_state.DSIM_STATE_OFF).state = true
      ∧ (dsim_read_data dsim_h_plain (hw_prompt (fun _ => 0) (fun _ => 0x00AA21))
          MIPI_DSI_DCS_READ 0xDA 1 (dsim_device_fresh dsim_state.DSIM_STATE_OFF) =
        some (-EINVAL, { dsim_device_fresh dsim_state.DSIM_STATE_OFF with
          trace := (dsim_device_fresh dsim_state.DSIM_STATE_OFF).trace ++
            [Event.decon_hiber_block_exit, Event.decon_hiber_unblock] })
        ∧ -EINVAL < 0) :=
  ⟨rfl, dsim_read_data_not_ready dsim_h_plain (hw_prompt (fun _ => 0) (fun _ => 0x00AA21))
    MIPI_DSI_DCS_READ 0xDA 1 (dsim_device_fresh dsim_state.DSIM_STATE_OFF) rfl⟩

/-! ## Link state machine: the power-down sequence -/

/-- C22: on a device in state ON (a state `IS_DSIM_OFF_STATE` does not accept), `dsim_disable`
returns 0, leaves the state OFF and the command timer deleted, and makes exactly these steps,
in this order, each once: the panel callback `suspend`, `mutex_lock`, `del_timer`, the store
of OFF to `dsim->state`, `mutex_unlock` (so the timer is deleted and the state stored while
the command lock is held), `dsim_reg_stop`, `disable_irq`, `phy_power_off`,
`dsim_set_panel_power` off, and the clock-domain suspend.  `dsim_doze_suspend`, whose target
is DOZE_SUSPEND, makes the same steps after the panel callback `doze_suspend`, storing
DOZE_SUSPEND and without the panel power-off; so does `_dsim_disable` for every target: the
panel power-off is made exactly when the target is OFF. -/
theorem dsim_disable_sequence (cfg : Kconfig) (h : dsim_h) (target : dsim_state)
    (d : dsim_device)
    (hon : d.state = dsim_state.DSIM_STATE_ON)
    (hnoff : h.IS_DSIM_OFF_STATE dsim_state.DSIM_STATE_ON = false) :
    dsim_disable cfg h d =
        (0, { d with
          state := dsim_state.DSIM_STATE_OFF
          cmd_timer := false
          trace := d.trace ++
            [Event.call_panel_ops panel_op.suspend,
             Event.mutex_lock, Event.del_timer,
             Event.state_store dsim_state.DSIM_STATE_OFF, Event.mutex_unlock,
             Event.dsim_reg_stop, Event.disable_irq, Event.phy_power_off,
             Event.dsim_set_panel_power false,
             if cfg.EXYNOS_PD then Event.pm_runtime_put_sync
               else Event.dsim_runtime_suspend] })
      ∧ dsim_doze_suspend cfg h d =
        (0, { d with
          state := dsim_state.DSIM_STATE_DOZE_SUSPEND
          cmd_timer := false
          trace := d.trace ++
            [Event.call_panel_ops panel_op.doze_suspend,
             Event.mutex_lock, Event.del_timer,
             Event.state_store dsim_state.DSIM_STATE_DOZE_SUSPEND, Event.mutex_unlock,
             Event.dsim_reg_stop, Event.disable_irq, Event.phy_power_off,
             if cfg.EXYNOS_PD then Event.pm_runtime_put_sync
               else Event.dsim_runtime_suspend] })
      ∧ _dsim_disable cfg h target d =
        (0, { d with
          state := target
          cmd_timer := false
          trace := d.trace ++
            [Event.mutex_lock, Event.del_timer,
             Event.state_store target, Event.mutex_unlock,
             Event.dsim_reg_stop, Event.disable_irq, Event.phy_power_off]
            ++ (if target = dsim_state.DSIM_STATE_OFF then [Event.dsim_set_panel_power false]
                else [])
            ++ [if cfg.EXYNOS_PD then Event.pm_runtime_put_sync
                 else Event.dsim_runtime_suspend] }) := by
  refine ⟨?_, ?_, ?_⟩
  · cases hpd : cfg.EXYNOS_PD <;>
      simp [dsim_disable, _dsim_disable, dsim_power_put, del_timer, state_store, emit, hon, hnoff,
        hpd]
  · cases hpd : cfg.EXYNOS_PD <;>
      simp [dsim_doze_suspend, _dsim_disable, dsim_power_put, del_timer, state_store, emit, hon,
        hnoff, hpd]
  · cases hpd : cfg.EXYNOS_PD <;> by_cases ht : target = dsim_state.DSIM_STATE_OFF <;>
      simp [_dsim_disable, dsim_power_put, del_timer, state_store, emit, hon, hnoff, hpd, ht]

/-- C22, worked example: `dsim_disable`, `dsim_doze_suspend` and `_dsim_disable` towards
DOZE_SUSPEND on a fresh device in state ON of an Exynos 9810 build. -/
theorem dsim_disable_sequence_witness :
    (dsim_device_fresh dsim_state.DSIM_STATE_ON).state = dsim_state.DSIM_STATE_ON
      ∧ dsim_h_plain.IS_DSIM_OFF_STATE dsim_state.DSIM_STATE_ON = false
      ∧ (dsim_disable kconfig_9810 dsim_h_plain (dsim_device_fresh dsim_state.DSIM_STATE_ON) =
        (0, { dsim_device_fresh dsim_state.DSIM_STATE_ON with
          state := dsim_state.DSIM_STATE_OFF
          cmd_timer := false
          trace := (dsim_device_fresh dsim_state.DSIM_STATE_ON).trace ++
            [Event.call_panel_ops panel_op.suspend,
             Event.mutex_lock, Event.del_timer,
             Event.state_store dsim_state.DSIM_STATE_OFF, Event.mutex_unlock,
             Event.dsim_reg_stop, Event.disable_irq, Event.phy_power_off,
             Event.dsim_set_panel_power false,
             if kconfig_9810.EXYNOS_PD then Event.pm_runtime_put_sync
               else Event.dsim_runtime_suspend] })
      ∧ dsim_doze_suspend kconfig_9810 dsim_h_plain
          (dsim_device_fresh dsim_state.DSIM_STATE_ON) =
        (0, { dsim_device_fresh dsim_state.DSIM_STATE_ON with
          state := dsim_state.DSIM_STATE_DOZE_SUSPEND
          cmd_timer := false
          trace := (dsim_device_fresh dsim_state.DSIM_STATE_ON).trace ++
            [Event.call_panel_ops panel_op.doze_suspend,
             Event.mutex_lock, Event.del_timer,
             Event.state_store dsim_state.DSIM_STATE_DOZE_SUSPEND, Event.mutex_unlock,
             Event.dsim_reg_stop, Event.disable_irq, Event.phy_power_off,
             if kconfig_9810.EXYNOS_PD then Event.pm_runtime_put_sync
               else Event.dsim_runtime_suspend] })
      ∧ _dsim_disable kconfig_9810 dsim_h_plain dsim_state.DSIM_STATE_DOZE_SUSPEND
          (dsim_device_fresh dsim_state.DSIM_STATE_ON) =
        (0, { dsim_device_fresh dsim_state.DSIM_STATE_ON with
          state := dsim_state.DSIM_STATE_DOZE_SUSPEND
          cmd_timer := false
          trace := (dsim_device_fresh dsim_state.DSIM_STATE_ON).trace ++
            [Event.mutex_lock, Event.del_timer,
             Event.state_store dsim_state.DSIM_STATE_DOZE_SUSPEND, Event.mutex_unlock,
             Event.dsim_reg_stop, Event.disable_irq, Event.phy_power_off]
            ++ (if dsim_state.DSIM_STATE_DOZE_SUSPEND = dsim_state.DSIM_STATE_OFF then
                  [Event.dsim_set_panel_power false]
                else [])
            ++ [if kconfig_9810.EXYNOS_PD then Event.pm_runtime_put_sync
                 else Event.dsim_runtime_suspend] })) :=
  ⟨rfl, rfl, dsim_disable_sequence kconfig_9810 dsim_h_plain dsim_state.DSIM_STATE_DOZE_SUSPEND
    (dsim_device_fresh dsim_state.DSIM_STATE_ON) rfl rfl⟩

/-! ## Link state machine: leaving ULPS when the link init fails -/

/-- C23 (what the code does): on a device in state ULPS, when `dsim_reg_init` returns a
negative value `dsim_exit_ulps` returns `-EBUSY` at once: the state is still ULPS, although
the PHY has been powered on and the interrupt line enabled, and
`dsim_reg_exit_ulps_and_start` is not called.  When `dsim_reg_init` does not fail, the state
is ON and the result 0 whatever `dsim_reg_exit_ulps_and_start` returns. -/
theorem dsim_exit_ulps_init_failure (cfg : Kconfig) (hw : Hw) (d : dsim_device)
    (hulps : d.state = dsim_state.DSIM_STATE_ULPS) :
    (hw.reg_init d.n_reg_init < 0 →
        (dsim_exit_ulps cfg hw d).1 = -EBUSY
          ∧ (dsim_exit_ulps cfg hw d).2.state = dsim_state.DSIM_STATE_ULPS
          ∧ phy_irq_calls (dsim_exit_ulps cfg hw d).2.trace
            = phy_irq_calls d.trace ++ [Event.phy_power_on, Event.enable_irq]
          ∧ (dsim_exit_ulps cfg hw d).2.n_exit_ulps_and_start = d.n_exit_ulps_and_start
          ∧ (dsim_exit_ulps cfg hw d).2.trace.getLast?
            = some (Event.dsim_reg_init (hw.reg_init d.n_reg_init)))
      ∧ (0 ≤ hw.reg_init d.n_reg_init →
          (dsim_exit_ulps cfg hw d).1 = 0
            ∧ (dsim_exit_ulps cfg hw d).2.state = dsim_state.DSIM_STATE_ON
            ∧ (dsim_exit_ulps cfg hw d).2.n_exit_ulps_and_start
              = d.n_exit_ulps_and_start + 1) := by
  have hst : ¬ d.state ≠ dsim_state.DSIM_STATE_ULPS := by simp [hulps]
  constructor
  · intro hneg
    have hr : (dsim_exit_ulps cfg hw d).1 = -EBUSY
        ∧ (dsim_exit_ulps cfg hw d).2.state = dsim_state.DSIM_STATE_ULPS
        ∧ (dsim_exit_ulps cfg hw d).2.n_exit_ulps_and_start = d.n_exit_ulps_and_start
        ∧ (dsim_exit_ulps cfg hw d).2.trace.getLast?
          = some (Event.dsim_reg_init (hw.reg_init d.n_reg_init)) := by
      unfold dsim_exit_ulps dsim_power_get dsim_reg_set_link_clock dsim_reg_init
      dsimp only
      split_ifs <;> simp_all [state_store, emit]
    refine ⟨hr.1, hr.2.1, ?_, hr.2.2.1, hr.2.2.2⟩
    unfold dsim_exit_ulps dsim_power_get dsim_reg_set_link_clock dsim_reg_init
      dsim_reg_exit_ulps_and_start dsim_dump dsim_dump_sfr
    dsimp only
    split_ifs <;>
      simp_all [phy_irq_calls_emit, phy_irq_calls_state, phy_irq_calls_state_store]
  · intro hpos
    unfold dsim_exit_ulps dsim_power_get dsim_reg_set_link_clock dsim_reg_init
      dsim_reg_exit_ulps_and_start dsim_dump dsim_dump_sfr
    dsimp only
    split_ifs <;> simp_all [state_store, emit] <;> omega

/-- C23, worked example: `dsim_exit_ulps` on a device in state ULPS whose link init reports
busy. -/
theorem dsim_exit_ulps_init_failure_witness :
    (dsim_device_fresh dsim_state.DSIM_STATE_ULPS).state = dsim_state.DSIM_STATE_ULPS
      ∧ (hw_init_busy (fun _ => 0) (fun _ => 0)).reg_init
          (dsim_device_fresh dsim_state.DSIM_STATE_ULPS).n_reg_init < 0
      ∧ (dsim_exit_ulps kconfig_9810 (hw_init_busy (fun _ => 0) (fun _ => 0))
          (dsim_device_fresh dsim_state.DSIM_STATE_ULPS)).1 = -EBUSY
      ∧ (dsim_exit_ulps kconfig_9810 (hw_init_busy (fun _ => 0) (fun _ => 0))
          (dsim_device_fresh dsim_state.DSIM_STATE_ULPS)).2.state
        = dsim_state.DSIM_STATE_ULPS :=
  ⟨rfl, by decide,
    ((dsim_exit_ulps_init_failure kconfig_9810 (hw_init_busy (fun _ => 0) (fun _ => 0))
      (dsim_device_fresh dsim_state.DSIM_STATE_ULPS) rfl).1 (by decide)).1,
    ((dsim_exit_ulps_init_failure kconfig_9810 (hw_init_busy (fun _ => 0) (fun _ => 0))
      (dsim_device_fresh dsim_state.DSIM_STATE_ULPS) rfl).1 (by decide)).2.1⟩

/-! ## Command channel: the timer callback -/

/-- C24, counterexample: the callback runs on a device in state ON whose command timer is
pending again (a write has armed it), on hardware whose header FIFO is empty: it makes the
register dump, without asking for the level of the header FIFO. -/
theorem dsim_cmd_fail_detector_dump_counterexample :
    (hw_prompt (fun _ => 0) (fun _ => 0)).header_fifo_is_empty
        (mod_timer (dsim_device_fresh dsim_state.DSIM_STATE_ON)).n_header_fifo_is_empty = true
      ∧ dsim_h_plain.IS_DSIM_OFF_STATE
          (mod_timer (dsim_device_fresh dsim_state.DSIM_STATE_ON)).state = false
      ∧ (dsim_cmd_fail_detector dsim_h_plain (hw_prompt (fun _ => 0) (fun _ => 0))
          (mod_timer (dsim_device_fresh dsim_state.DSIM_STATE_ON))).trace
        = [Event.mod_timer, Event.decon_hiber_block, Event.dsim_dump_sfr,
            Event.decon_hiber_unblock] := by
  decide

/-- C24, as amended: `dsim_cmd_fail_detector` never changes the link state (nor the timer).
Between `decon_hiber_block` and `decon_hiber_unblock` it makes no call when
`IS_DSIM_OFF_STATE` holds; otherwise, when the timer is pending, the register dump alone,
without a recheck of the header FIFO; otherwise the recheck, followed by the completion reset
and the interrupt clear when the header FIFO is reported empty, and by the register dump when
it is reported not empty.  So the dump is made exactly when the state is not OFF-class and
either the timer is pending or the header FIFO is reported not empty at the recheck. -/
theorem dsim_cmd_fail_detector_dump (h : dsim_h) (hw : Hw) (d : dsim_device) :
    (dsim_cmd_fail_detector h hw d).state = d.state
      ∧ (dsim_cmd_fail_detector h hw d).cmd_timer = d.cmd_timer
      ∧ (dsim_cmd_fail_detector h hw d).trace
        = d.trace ++ [Event.decon_hiber_block]
          ++ (if h.IS_DSIM_OFF_STATE d.state then []
              else if d.cmd_timer then [Event.dsim_dump_sfr]
              else if hw.header_fifo_is_empty d.n_header_fifo_is_empty then
                [Event.dsim_reg_header_fifo_is_empty true, Event.reinit_completion_ph_wr_comp,
                 Event.dsim_reg_clear_int intsrc.DSIM_INTSRC_SFR_PH_FIFO_EMPTY]
              else [Event.dsim_reg_header_fifo_is_empty false, Event.dsim_dump_sfr])
          ++ [Event.decon_hiber_unblock]
      ∧ (Event.dsim_dump_sfr ∈ (dsim_cmd_fail_detector h hw d).trace.drop d.trace.length
          ↔ h.IS_DSIM_OFF_STATE d.state = false
            ∧ (d.cmd_timer = true
              ∨ hw.header_fifo_is_empty d.n_header_fifo_is_empty = false)) := by
  have htr : (dsim_cmd_fail_detector h hw d).trace
      = d.trace ++ [Event.decon_hiber_block]
        ++ (if h.IS_DSIM_OFF_STATE d.state then []
            else if d.cmd_timer then [Event.dsim_dump_sfr]
            else if hw.header_fifo_is_empty d.n_header_fifo_is_empty then
              [Event.dsim_reg_header_fifo_is_empty true, Event.reinit_completion_ph_wr_comp,
               Event.dsim_reg_clear_int intsrc.DSIM_INTSRC_SFR_PH_FIFO_EMPTY]
            else [Event.dsim_reg_header_fifo_is_empty false, Event.dsim_dump_sfr])
        ++ [Event.decon_hiber_unblock] := by
    unfold dsim_cmd_fail_detector dsim_reg_header_fifo_is_empty dsim_dump_sfr
    cases hoff : h.IS_DSIM_OFF_STATE d.state <;> cases ht : d.cmd_timer <;>
      cases he : hw.header_fifo_is_empty d.n_header_fifo_is_empty <;>
      simp [emit, hoff, ht, he]
  refine ⟨?_, ?_, htr, ?_⟩
  · unfold dsim_cmd_fail_detector dsim_reg_header_fifo_is_empty dsim_dump_sfr
    dsimp only
    split_ifs <;> rfl
  · unfold dsim_cmd_fail_detector dsim_reg_header_fifo_is_empty dsim_dump_sfr
    dsimp only
    split_ifs <;> rfl
  · rw [htr, List.append_assoc, List.append_assoc, List.drop_left' rfl]
    cases hoff : h.IS_DSIM_OFF_STATE d.state <;> cases ht : d.cmd_timer <;>
      cases he : hw.header_fifo_is_empty d.n_header_fifo_is_empty <;>
      simp

/-! ## Link state machine: the link programming on the way out of ULPS -/

theorem link_phase_calls_append (a b : List Event) :
    link_phase_calls (a ++ b) = link_phase_calls a ++ link_phase_calls b := by
  simp [link_phase_calls]

theorem link_phase_calls_cons (e : Event) (l : List Event) :
    link_phase_calls (e :: l)
      = (if is_link_phase_call e then [e] else []) ++ link_phase_calls l := by
  unfold link_phase_calls
  rw [List.filter_cons]
  split <;> simp

theorem link_phase_calls_nil : link_phase_calls [] = [] := rfl

theorem is_link_phase_call_eval :
    is_link_phase_call Event.pm_runtime_get_sync = false
      ∧ is_link_phase_call Event.dsim_runtime_resume = false
      ∧ is_link_phase_call Event.dpu_sysreg_set_dphy = false
      ∧ is_link_phase_call Event.dsim_phy_status = false
      ∧ is_link_phase_call Event.enable_irq = false
      ∧ is_link_phase_call Event.dsim_dump_sfr = false
      ∧ is_link_phase_call Event.dsim_reset_panel = false
      ∧ (∀ st, is_link_phase_call (Event.state_store st) = false)
      ∧ (∀ op, is_link_phase_call (Event.call_panel_ops op) = false)
      ∧ (∀ p, is_link_phase_call (Event.dsim_set_panel_power p) = false)
      ∧ (∀ r, is_link_phase_call (Event.dsim_reg_is_pll_stable r) = false)
      ∧ is_link_phase_call Event.phy_power_on = true
      ∧ (∀ en, is_link_phase_call (Event.dsim_reg_set_link_clock en) = true)
      ∧ (∀ en, is_link_phase_call (Event.dsim_reg_dphy_resetn en) = true)
      ∧ is_link_phase_call Event.dsim_reg_sw_reset = true
      ∧ (∀ en, is_link_phase_call (Event.dsim_reg_set_clocks en) = true)
      ∧ (∀ en, is_link_phase_call (Event.dsim_reg_set_lanes en) = true)
      ∧ (∀ en, is_link_phase_call (Event.dsim_reg_set_esc_clk_on_lane en) = true)
      ∧ (∀ en, is_link_phase_call (Event.dsim_reg_enable_word_clock en) = true)
      ∧ (∀ r, is_link_phase_call (Event.dsim_reg_init r) = true)
      ∧ is_link_phase_call Event.dsim_reg_start = true
      ∧ (∀ r, is_link_phase_call (Event.dsim_reg_exit_ulps_and_start r) = true) := by
  refine ⟨rfl, rfl, rfl, rfl, rfl, rfl, rfl, fun _ => rfl, fun _ => rfl, fun _ => rfl,
    fun _ => rfl, rfl,
    fun _ => rfl, fun _ => rfl, rfl, fun _ => rfl, fun _ => rfl, fun _ => rfl, fun _ => rfl,
    fun _ => rfl, rfl, fun _ => rfl⟩

theorem dsim_exit_ulps_link_phase (cfg : Kconfig) (hw : Hw) (d : dsim_device)
    (hulps : d.state = dsim_state.DSIM_STATE_ULPS) :
    link_phase_calls (dsim_exit_ulps cfg hw d).2.trace
      = link_phase_calls d.trace ++ [Event.phy_power_on]
        ++ ((if cfg.SOC_EXYNOS9810 then [Event.dsim_reg_set_link_clock 0] else [])
          ++ [Event.dsim_reg_dphy_resetn 1, Event.dsim_reg_sw_reset,
              Event.dsim_reg_set_clocks 1, Event.dsim_reg_set_lanes 1,
              Event.dsim_reg_dphy_resetn 0]
          ++ (if cfg.SOC_EXYNOS9810 then [Event.dsim_reg_set_link_clock 1] else [])
          ++ [Event.dsim_reg_set_esc_clk_on_lane 1, Event.dsim_reg_enable_word_clock 1,
              Event.dsim_reg_init (hw.reg_init d.n_reg_init)])
        ++ (if hw.reg_init d.n_reg_init < 0 then []
            else [Event.dsim_reg_exit_ulps_and_start
                    (hw.exit_ulps_and_start d.n_exit_ulps_and_start)]) := by
  cases h9 : cfg.SOC_EXYNOS9810 <;> cases hpd : cfg.EXYNOS_PD <;>
    by_cases hneg : hw.reg_init d.n_reg_init < 0 <;>
    by_cases he : hw.exit_ulps_and_start d.n_exit_ulps_and_start < 0 <;>
    simp [dsim_exit_ulps, dsim_power_get, dsim_reg_set_link_clock, dsim_reg_init,
      dsim_reg_exit_ulps_and_start, dsim_dump, dsim_dump_sfr, state_store, emit, hulps, h9, hpd,
      hneg, he,
      link_phase_calls_append, link_phase_calls_cons, link_phase_calls_nil,
      is_link_phase_call_eval]

theorem link_phase_calls_emit (e : Event) (d : dsim_device) :
    link_phase_calls (emit e d).trace
      = link_phase_calls d.trace ++ (if is_link_phase_call e then [e] else []) := by
  unfold link_phase_calls emit
  simp only [List.filter_append]
  split <;> simp_all

theorem emit_state (e : Event) (d : dsim_device) : (emit e d).state = d.state := rfl

theorem emit_n_is_pll_stable (e : Event) (d : dsim_device) :
    (emit e d).n_is_pll_stable = d.n_is_pll_stable := rfl

theorem link_phase_calls_state (d : dsim_device) (state : dsim_state) :
    link_phase_calls ({ d with state := state } : dsim_device).trace
      = link_phase_calls d.trace := rfl

theorem emit_n_reg_init (e : Event) (d : dsim_device) :
    (emit e d).n_reg_init = d.n_reg_init := rfl

theorem dsim_enable_bringup_link_phase (cfg : Kconfig) (hw : Hw) (state : dsim_state)
    (d : dsim_device) :
    link_phase_calls (dsim_enable_bringup cfg hw state d).2.trace
      = link_phase_calls d.trace
        ++ ((if cfg.SOC_EXYNOS9810 then [Event.dsim_reg_set_link_clock 0] else [])
          ++ [Event.dsim_reg_dphy_resetn 1, Event.dsim_reg_sw_reset,
              Event.dsim_reg_set_clocks 1, Event.dsim_reg_set_lanes 1,
              Event.dsim_reg_dphy_resetn 0]
          ++ (if cfg.SOC_EXYNOS9810 then [Event.dsim_reg_set_link_clock 1] else [])
          ++ [Event.dsim_reg_set_esc_clk_on_lane 1, Event.dsim_reg_enable_word_clock 1,
              Event.dsim_reg_init (hw.reg_init d.n_reg_init)])
        ++ [Event.dsim_reg_start] := by
  cases h9 : cfg.SOC_EXYNOS9810 <;>
    cases hcp : cfg.EXYNOS_COMMON_PANEL <;> cases hod : cfg.OLD_DISP_TIMING <;>
    by_cases hneg : hw.reg_init d.n_reg_init < 0 <;>
    simp [dsim_enable_bringup, dsim_enable_init_end,
      dsim_reg_set_link_clock, dsim_reg_init, state_store, emit,
      h9, hcp, hod, hneg, link_phase_calls_append, link_phase_calls_cons,
      link_phase_calls_nil, is_link_phase_call_eval]

theorem dsim_enable_link_phase (cfg : Kconfig) (h : dsim_h) (hw : Hw) (state : dsim_state)
    (d : dsim_device)
    (hon : h.IS_DSIM_ON_STATE d.state = false)
    (hboot : d.state = dsim_state.DSIM_STATE_INIT →
      hw.is_pll_stable d.n_is_pll_stable = false) :
    link_phase_calls (_dsim_enable cfg h hw state d).2.trace
      = link_phase_calls d.trace ++ [Event.phy_power_on]
        ++ ((if cfg.SOC_EXYNOS9810 then [Event.dsim_reg_set_link_clock 0] else [])
          ++ [Event.dsim_reg_dphy_resetn 1, Event.dsim_reg_sw_reset,
              Event.dsim_reg_set_clocks 1, Event.dsim_reg_set_lanes 1,
              Event.dsim_reg_dphy_resetn 0]
          ++ (if cfg.SOC_EXYNOS9810 then [Event.dsim_reg_set_link_clock 1] else [])
          ++ [Event.dsim_reg_set_esc_clk_on_lane 1, Event.dsim_reg_enable_word_clock 1,
              Event.dsim_reg_init (hw.reg_init d.n_reg_init)])
        ++ [Event.dsim_reg_start] := by
  unfold _dsim_enable dsim_power_get dsim_reg_is_pll_stable
  simp only [hon, Bool.false_eq_true, if_false]
  split_ifs <;>
    simp_all [emit_state, emit_n_reg_init, emit_n_is_pll_stable,
      dsim_enable_bringup_link_phase, link_phase_calls_emit, link_phase_calls_state,
      is_link_phase_call_eval]

/-- C25: take `dsim_exit_ulps` on a device in state ULPS and `_dsim_enable` on a device on its
non-bootloader path (a state `IS_DSIM_ON_STATE` rejects, and the PLL reported not stable when
that state is INIT), with the same answer of the link init.  Between `phy_power_on` and the
retention exit `dsim_reg_exit_ulps_and_start` (not reached when the link init fails) the
first makes the link and PHY programming calls `P`; between `phy_power_on` and
`dsim_reg_start` the second makes the same calls `P`, with the same arguments and in the same
order.  `P` is: the OSC clock selection (builds with CONFIG_SOC_EXYNOS9810), DPHY reset on,
link software reset, clocks, lanes, DPHY reset off, the word clock selection (same builds),
escape clock, word clock, link init; in a build with CONFIG_SOC_EXYNOS9810 it is the sequence
of the specification. -/
theorem dsim_exit_ulps_link_programming (cfg : Kconfig) (h : dsim_h) (hw : Hw)
    (state : dsim_state) (d d' : dsim_device)
    (hulps : d.state = dsim_state.DSIM_STATE_ULPS)
    (hon : h.IS_DSIM_ON_STATE d'.state = false)
    (hboot : d'.state = dsim_state.DSIM_STATE_INIT →
      hw.is_pll_stable d'.n_is_pll_stable = false)
    (hr : hw.reg_init d'.n_reg_init = hw.reg_init d.n_reg_init) :
    ∃ P : List Event,
      P = (if cfg.SOC_EXYNOS9810 then [Event.dsim_reg_set_link_clock 0] else [])
          ++ [Event.dsim_reg_dphy_resetn 1, Event.dsim_reg_sw_reset,
              Event.dsim_reg_set_clocks 1, Event.dsim_reg_set_lanes 1,
              Event.dsim_reg_dphy_resetn 0]
          ++ (if cfg.SOC_EXYNOS9810 then [Event.dsim_reg_set_link_clock 1] else [])
          ++ [Event.dsim_reg_set_esc_clk_on_lane 1, Event.dsim_reg_enable_word_clock 1,
              Event.dsim_reg_init (hw.reg_init d.n_reg_init)]
      ∧ link_phase_calls (dsim_exit_ulps cfg hw d).2.trace
        = link_phase_calls d.trace ++ [Event.phy_power_on] ++ P
          ++ (if hw.reg_init d.n_reg_init < 0 then []
              else [Event.dsim_reg_exit_ulps_and_start
                      (hw.exit_ulps_and_start d.n_exit_ulps_and_start)])
      ∧ link_phase_calls (_dsim_enable cfg h hw state d').2.trace
        = link_phase_calls d'.trace ++ [Event.phy_power_on] ++ P ++ [Event.dsim_reg_start]
      ∧ (cfg.SOC_EXYNOS9810 = true → P = spec_link_programming (hw.reg_init d.n_reg_init)) := by
  refine ⟨_, rfl, dsim_exit_ulps_link_phase cfg hw d hulps, ?_, ?_⟩
  · rw [dsim_enable_link_phase cfg h hw state d' hon hboot, hr]
  · intro h9
    simp [h9, spec_link_programming]

/-- C25, worked example: leaving ULPS and enabling from OFF on an Exynos 9810 build. -/
theorem dsim_exit_ulps_link_programming_witness :
    ∃ P : List Event,
      P = (if kconfig_9810.SOC_EXYNOS9810 then [Event.dsim_reg_set_link_clock 0] else [])
          ++ [Event.dsim_reg_dphy_resetn 1, Event.dsim_reg_sw_reset,
              Event.dsim_reg_set_clocks 1, Event.dsim_reg_set_lanes 1,
              Event.dsim_reg_dphy_resetn 0]
          ++ (if kconfig_9810.SOC_EXYNOS9810 then [Event.dsim_reg_set_link_clock 1] else [])
          ++ [Event.dsim_reg_set_esc_clk_on_lane 1, Event.dsim_reg_enable_word_clock 1,
              Event.dsim_reg_init ((hw_prompt (fun _ => 0) (fun _ => 0)).reg_init
                (dsim_device_fresh dsim_state.DSIM_STATE_ULPS).n_reg_init)]
      ∧ link_phase_calls (dsim_exit_ulps kconfig_9810 (hw_prompt (fun _ => 0) (fun _ => 0))
          (dsim_device_fresh dsim_state.DSIM_STATE_ULPS)).2.trace
        = link_phase_calls (dsim_device_fresh dsim_state.DSIM_STATE_ULPS).trace
          ++ [Event.phy_power_on] ++ P
          ++ (if (hw_prompt (fun _ => 0) (fun _ => 0)).reg_init
                  (dsim_device_fresh dsim_state.DSIM_STATE_ULPS).n_reg_init < 0 then []
              else [Event.dsim_reg_exit_ulps_and_start
                      ((hw_prompt (fun _ => 0) (fun _ => 0)).exit_ulps_and_start
                        (dsim_device_fresh dsim_state.DSIM_STATE_ULPS).n_exit_ulps_and_start)])
      ∧ link_phase_calls (_dsim_enable kconfig_9810 dsim_h_plain
          (hw_prompt (fun _ => 0) (fun _ => 0)) dsim_state.DSIM_STATE_ON
          (dsim_device_fresh dsim_state.DSIM_STATE_OFF)).2.trace
        = link_phase_calls (dsim_device_fresh dsim_state.DSIM_STATE_OFF).trace
          ++ [Event.phy_power_on] ++ P ++ [Event.dsim_reg_start]
      ∧ (kconfig_9810.SOC_EXYNOS9810 = true →
          P = spec_link_programming ((hw_prompt (fun _ => 0) (fun _ => 0)).reg_init
                (dsim_device_fresh dsim_state.DSIM_STATE_ULPS).n_reg_init)) :=
  dsim_exit_ulps_link_programming kconfig_9810 dsim_h_plain
    (hw_prompt (fun _ => 0) (fun _ => 0)) dsim_state.DSIM_STATE_ON
    (dsim_device_fresh dsim_state.DSIM_STATE_ULPS) (dsim_device_fresh dsim_state.DSIM_STATE_OFF)
    rfl rfl (by decide) rfl

end Dsim
